import Mathlib

/-!
# MockNakamaModule: the configurable test double of the Nakama runtime API

A shallow embedding of `runtime/runtime_mock.go`.

* The struct `MockNakamaModule` is a record with one field per `...Fn` member of the Go struct.
  A Go func-typed field is `Option` of a Lean function: `none` is the nil func value.
* Every Go method is a Lean function from the receiver and the parameters to an `Outcome`:
  the call returns its result tuple, or it panics, or (for a method that calls itself) the
  recursion budget runs out.
* Every method is embedded a second time in state-passing form (`StatePassing`), as a function
  that also gives the table after the call; what a bound behaviour does to the table is a
  parameter of that form (`TableEffect`), since a Lean function of a slot gives results only.
* Go types are read as follows: `string` is `String`, `bool` is `Bool`, `int` and `int64` are
  `Int`, `uint8` is `Nat`, `[]T` and a variadic `...T` are `List T`, `*T` is `Option T`
  (`none` is the nil pointer), `map[K]V` is `GoMap K V` (`none` is the nil map), `error` is
  `error` (`none` is the nil error), several results are a product in the declared order.
-/

/-! ## Go values -/

/-- The Go interface type error: none is the nil error, some carries the text of Error(). -/
abbrev error := Option String

/-- A Go map: none is the nil map, some holds the key and value pairs. -/
abbrev GoMap (κ : Type) (ν : Type) := Option (List (κ × ν))

/-- A value of the empty interface type, as stored in metadata maps. -/
structure AnyValue where
  ref : Nat
  deriving DecidableEq, Repr, Inhabited

/-! ## Types declared outside the source file

The domain payload types live in other packages. The double never inspects them, so each one
is a carrier of values that are told apart by a reference number; the two purchase types carry
the fields that the documentation example of the source file sets. -/

/-- Modelled from the spec: the type context.Context is declared outside the source file; an opaque
value that is passed through unchanged. -/
structure context.Context where
  ref : Nat
  deriving DecidableEq, Repr, Inhabited

/-- Modelled from the spec: the type api.Account is declared outside the source file; an opaque
value that is passed through unchanged. -/
structure api.Account where
  ref : Nat
  deriving DecidableEq, Repr, Inhabited

/-- Modelled from the spec: the type api.User is declared outside the source file; an opaque
value that is passed through unchanged. -/
structure api.User where
  ref : Nat
  deriving DecidableEq, Repr, Inhabited

/-- Modelled from the spec: the type os.File is declared outside the source file; an opaque
value that is passed through unchanged. -/
structure os.File where
  ref : Nat
  deriving DecidableEq, Repr, Inhabited

/-- Modelled from the spec: the type runtime.Presence is declared outside the source file; an opaque
value that is passed through unchanged. -/
structure runtime.Presence where
  ref : Nat
  deriving DecidableEq, Repr, Inhabited

/-- Modelled from the spec: the type runtime.PresenceMeta is declared outside the source file; an opaque
value that is passed through unchanged. -/
structure runtime.PresenceMeta where
  ref : Nat
  deriving DecidableEq, Repr, Inhabited

/-- Modelled from the spec: the type rtapi.Envelope is declared outside the source file; an opaque
value that is passed through unchanged. -/
structure rtapi.Envelope where
  ref : Nat
  deriving DecidableEq, Repr, Inhabited

/-- Modelled from the spec: the type runtime.PresenceReason is declared outside the source file; an opaque
value that is passed through unchanged. -/
structure runtime.PresenceReason where
  ref : Nat
  deriving DecidableEq, Repr, Inhabited

/-- Modelled from the spec: the type api.Match is declared outside the source file; an opaque
value that is passed through unchanged. -/
structure api.Match where
  ref : Nat
  deriving DecidableEq, Repr, Inhabited

/-- Modelled from the spec: the type runtime.NotificationSend is declared outside the source file; an opaque
value that is passed through unchanged. -/
structure runtime.NotificationSend where
  ref : Nat
  deriving DecidableEq, Repr, Inhabited

/-- Modelled from the spec: the type runtime.WalletUpdate is declared outside the source file; an opaque
value that is passed through unchanged. -/
structure runtime.WalletUpdate where
  ref : Nat
  deriving DecidableEq, Repr, Inhabited

/-- Modelled from the spec: the type runtime.WalletUpdateResult is declared outside the source file; an opaque
value that is passed through unchanged. -/
structure runtime.WalletUpdateResult where
  ref : Nat
  deriving DecidableEq, Repr, Inhabited

/-- Modelled from the spec: the type runtime.WalletLedgerItem is declared outside the source file; an opaque
value that is passed through unchanged. -/
structure runtime.WalletLedgerItem where
  ref : Nat
  deriving DecidableEq, Repr, Inhabited

/-- Modelled from the spec: the type api.StorageObject is declared outside the source file; an opaque
value that is passed through unchanged. -/
structure api.StorageObject where
  ref : Nat
  deriving DecidableEq, Repr, Inhabited

/-- Modelled from the spec: the type runtime.StorageRead is declared outside the source file; an opaque
value that is passed through unchanged. -/
structure runtime.StorageRead where
  ref : Nat
  deriving DecidableEq, Repr, Inhabited

/-- Modelled from the spec: the type runtime.StorageWrite is declared outside the source file; an opaque
value that is passed through unchanged. -/
structure runtime.StorageWrite where
  ref : Nat
  deriving DecidableEq, Repr, Inhabited

/-- Modelled from the spec: the type api.StorageObjectAck is declared outside the source file; an opaque
value that is passed through unchanged. -/
structure api.StorageObjectAck where
  ref : Nat
  deriving DecidableEq, Repr, Inhabited

/-- Modelled from the spec: the type runtime.StorageDelete is declared outside the source file; an opaque
value that is passed through unchanged. -/
structure runtime.StorageDelete where
  ref : Nat
  deriving DecidableEq, Repr, Inhabited

/-- Modelled from the spec: the type runtime.AccountUpdate is declared outside the source file; an opaque
value that is passed through unchanged. -/
structure runtime.AccountUpdate where
  ref : Nat
  deriving DecidableEq, Repr, Inhabited

/-- Modelled from the spec: the type api.LeaderboardRecord is declared outside the source file; an opaque
value that is passed through unchanged. -/
structure api.LeaderboardRecord where
  ref : Nat
  deriving DecidableEq, Repr, Inhabited

/-- Modelled from the spec: the type api.PurchaseList is declared outside the source file; an opaque
value that is passed through unchanged. -/
structure api.PurchaseList where
  ref : Nat
  deriving DecidableEq, Repr, Inhabited

/-- Modelled from the spec: the payload type api.ValidatedPurchase is declared outside the
source file; ProductId is the field set in the documentation example, the rest is opaque. -/
structure api.ValidatedPurchase where
  ProductId : String := ""
  ref : Nat := 0
  deriving DecidableEq, Repr, Inhabited

/-- Modelled from the spec: the payload type api.ValidatePurchaseResponse is declared outside
the source file; ValidatedPurchases is the field set in the documentation example, a slice of
pointers to validated purchases. -/
structure api.ValidatePurchaseResponse where
  ValidatedPurchases : List (Option api.ValidatedPurchase) := []
  ref : Nat := 0
  deriving DecidableEq, Repr, Inhabited

/-- Modelled from the spec: the type api.Tournament is declared outside the source file; an opaque
value that is passed through unchanged. -/
structure api.Tournament where
  ref : Nat
  deriving DecidableEq, Repr, Inhabited

/-- Modelled from the spec: the type api.TournamentList is declared outside the source file; an opaque
value that is passed through unchanged. -/
structure api.TournamentList where
  ref : Nat
  deriving DecidableEq, Repr, Inhabited

/-- Modelled from the spec: the type api.Group is declared outside the source file; an opaque
value that is passed through unchanged. -/
structure api.Group where
  ref : Nat
  deriving DecidableEq, Repr, Inhabited

/-- Modelled from the spec: the type api.GroupUserList_GroupUser is declared outside the source file; an opaque
value that is passed through unchanged. -/
structure api.GroupUserList_GroupUser where
  ref : Nat
  deriving DecidableEq, Repr, Inhabited

/-- Modelled from the spec: the type api.UserGroupList_UserGroup is declared outside the source file; an opaque
value that is passed through unchanged. -/
structure api.UserGroupList_UserGroup where
  ref : Nat
  deriving DecidableEq, Repr, Inhabited

/-- Modelled from the spec: the type api.Friend is declared outside the source file; an opaque
value that is passed through unchanged. -/
structure api.Friend where
  ref : Nat
  deriving DecidableEq, Repr, Inhabited

/-- Modelled from the spec: the type api.Event is declared outside the source file; an opaque
value that is passed through unchanged. -/
structure api.Event where
  ref : Nat
  deriving DecidableEq, Repr, Inhabited

/-! ## Outcomes of a call -/

/-- A run-time panic raised by the Go runtime itself. -/
inductive Panic where
  /-- Calling a nil func value. -/
  | nilDereference
  deriving DecidableEq, Repr

/-- The text the Go runtime reports for a panic. -/
def Panic.message : Panic → String
  | Panic.nilDereference => "runtime error: invalid memory address or nil pointer dereference"

/-- What a method call does: it returns its results, it panics, or the recursion budget of the
embedding is used up before it returns. -/
inductive Outcome (ρ : Type) where
  | returned (r : ρ)
  | panicked (p : Panic)
  | outOfFuel
  deriving DecidableEq, Repr

/-- Calling the func value held in a field, as in the Go expression nk.XFn(args): calling the
nil func value panics, otherwise the call returns what the function returns. -/
def callFn {φ ρ : Type} (field : Option φ) (call : φ → ρ) : Outcome ρ :=
  match field with
  | none => Outcome.panicked Panic.nilDereference
  | some fn => Outcome.returned (call fn)

/-! ## The capability table (source lines 43 to 141) -/

structure MockNakamaModule where
  AuthenticateAppleFn : Option (context.Context → String → String → Bool → (String × String × Bool × error)) := none
  AuthenticateCustomFn : Option (context.Context → String → String → Bool → (String × String × Bool × error)) := none
  AuthenticateDeviceFn : Option (context.Context → String → String → Bool → (String × String × Bool × error)) := none
  AuthenticateEmailFn : Option (context.Context → String → String → String → Bool → (String × String × Bool × error)) := none
  AuthenticateFacebookFn : Option (context.Context → String → Bool → String → Bool → (String × String × Bool × error)) := none
  AuthenticateFacebookInstantGameFn : Option (context.Context → String → String → Bool → (String × String × Bool × error)) := none
  AuthenticateGameCenterFn : Option (context.Context → String → String → Int → String → String → String → String → Bool → (String × String × Bool × error)) := none
  AuthenticateGoogleFn : Option (context.Context → String → String → Bool → (String × String × Bool × error)) := none
  AuthenticateSteamFn : Option (context.Context → String → String → Bool → (String × String × Bool × error)) := none
  AuthenticateTokenGenerateFn : Option (String → String → Int → GoMap String String → (String × Int × error)) := none
  AccountGetIdFn : Option (context.Context → String → (Option api.Account × error)) := none
  AccountsGetIdFn : Option (context.Context → List String → (List (Option api.Account) × error)) := none
  AccountUpdateIdFn : Option (context.Context → String → String → GoMap String AnyValue → String → String → String → String → String → error) := none
  AccountDeleteIdFn : Option (context.Context → String → Bool → error) := none
  AccountExportIdFn : Option (context.Context → String → (String × error)) := none
  UsersGetIdFn : Option (context.Context → List String → List String → (List (Option api.User) × error)) := none
  UsersGetUsernameFn : Option (context.Context → List String → (List (Option api.User) × error)) := none
  UsersBanIdFn : Option (context.Context → List String → error) := none
  UsersUnbanIdFn : Option (context.Context → List String → error) := none
  LinkAppleFn : Option (context.Context → String → String → error) := none
  LinkCustomFn : Option (context.Context → String → String → error) := none
  LinkDeviceFn : Option (context.Context → String → String → error) := none
  LinkEmailFn : Option (context.Context → String → String → String → error) := none
  LinkFacebookFn : Option (context.Context → String → String → String → Bool → error) := none
  LinkFacebookInstantGameFn : Option (context.Context → String → String → error) := none
  LinkGameCenterFn : Option (context.Context → String → String → String → Int → String → String → String → error) := none
  LinkGoogleFn : Option (context.Context → String → String → error) := none
  LinkSteamFn : Option (context.Context → String → String → String → Bool → error) := none
  ReadFileFn : Option (String → (Option os.File × error)) := none
  UnlinkAppleFn : Option (context.Context → String → String → error) := none
  UnlinkCustomFn : Option (context.Context → String → String → error) := none
  UnlinkDeviceFn : Option (context.Context → String → String → error) := none
  UnlinkEmailFn : Option (context.Context → String → String → error) := none
  UnlinkFacebookFn : Option (context.Context → String → String → error) := none
  UnlinkFacebookInstantGameFn : Option (context.Context → String → String → error) := none
  UnlinkGameCenterFn : Option (context.Context → String → String → String → Int → String → String → String → error) := none
  UnlinkGoogleFn : Option (context.Context → String → String → error) := none
  UnlinkSteamFn : Option (context.Context → String → String → error) := none
  StreamUserListFn : Option (Nat → String → String → String → Bool → Bool → (List runtime.Presence × error)) := none
  StreamUserGetFn : Option (Nat → String → String → String → String → String → (runtime.PresenceMeta × error)) := none
  StreamUserJoinFn : Option (Nat → String → String → String → String → String → Bool → Bool → String → (Bool × error)) := none
  StreamUserUpdateFn : Option (Nat → String → String → String → String → String → Bool → Bool → String → error) := none
  StreamUserLeaveFn : Option (Nat → String → String → String → String → String → error) := none
  StreamUserKickFn : Option (Nat → String → String → String → runtime.Presence → error) := none
  StreamCountFn : Option (Nat → String → String → String → (Int × error)) := none
  StreamCloseFn : Option (Nat → String → String → String → error) := none
  StreamSendFn : Option (Nat → String → String → String → String → List runtime.Presence → Bool → error) := none
  StreamSendRawFn : Option (Nat → String → String → String → Option rtapi.Envelope → List runtime.Presence → Bool → error) := none
  SessionDisconnectFn : Option (context.Context → String → List runtime.PresenceReason → error) := none
  SessionLogoutFn : Option (String → String → String → error) := none
  MatchCreateFn : Option (context.Context → String → GoMap String AnyValue → (String × error)) := none
  MatchGetFn : Option (context.Context → String → (Option api.Match × error)) := none
  MatchListFn : Option (context.Context → Int → Bool → String → Option Int → Option Int → String → (List (Option api.Match) × error)) := none
  NotificationSendFn : Option (context.Context → String → String → GoMap String AnyValue → Int → String → Bool → error) := none
  NotificationsSendFn : Option (context.Context → List (Option runtime.NotificationSend) → error) := none
  WalletUpdateFn : Option (context.Context → String → GoMap String Int → GoMap String AnyValue → Bool → (GoMap String Int × GoMap String Int × error)) := none
  WalletsUpdateFn : Option (context.Context → List (Option runtime.WalletUpdate) → Bool → (List (Option runtime.WalletUpdateResult) × error)) := none
  WalletLedgerUpdateFn : Option (context.Context → String → GoMap String AnyValue → (runtime.WalletLedgerItem × error)) := none
  WalletLedgerListFn : Option (context.Context → String → Int → String → (List runtime.WalletLedgerItem × String × error)) := none
  StorageListFn : Option (context.Context → String → String → Int → String → (List (Option api.StorageObject) × String × error)) := none
  StorageReadFn : Option (context.Context → List (Option runtime.StorageRead) → (List (Option api.StorageObject) × error)) := none
  StorageWriteFn : Option (context.Context → List (Option runtime.StorageWrite) → (List (Option api.StorageObjectAck) × error)) := none
  StorageDeleteFn : Option (context.Context → List (Option runtime.StorageDelete) → error) := none
  MultiUpdateFn : Option (context.Context → List (Option runtime.AccountUpdate) → List (Option runtime.StorageWrite) → List (Option runtime.WalletUpdate) → Bool → (List (Option api.StorageObjectAck) × List (Option runtime.WalletUpdateResult) × error)) := none
  LeaderboardCreateFn : Option (context.Context → String → Bool → String → String → String → GoMap String AnyValue → error) := none
  LeaderboardDeleteFn : Option (context.Context → String → error) := none
  LeaderboardRecordsListFn : Option (context.Context → String → List String → Int → String → Int → (List (Option api.LeaderboardRecord) × List (Option api.LeaderboardRecord) × String × String × error)) := none
  LeaderboardRecordWriteFn : Option (context.Context → String → String → String → Int → Int → GoMap String AnyValue → (Option api.LeaderboardRecord × error)) := none
  LeaderboardRecordDeleteFn : Option (context.Context → String → String → error) := none
  PurchaseValidateAppleFn : Option (context.Context → String → String → (Option api.ValidatePurchaseResponse × error)) := none
  PurchaseValidateGoogleFn : Option (context.Context → String → String → (Option api.ValidatePurchaseResponse × error)) := none
  PurchaseValidateHuaweiFn : Option (context.Context → String → String → String → (Option api.ValidatePurchaseResponse × error)) := none
  PurchasesListFn : Option (context.Context → String → Int → String → (Option api.PurchaseList × error)) := none
  PurchaseGetByTransactionIdFn : Option (context.Context → String → (String × Option api.ValidatedPurchase × error)) := none
  TournamentCreateFn : Option (context.Context → String → String → String → String → GoMap String AnyValue → String → String → Int → Int → Int → Int → Int → Int → Bool → error) := none
  TournamentDeleteFn : Option (context.Context → String → error) := none
  TournamentAddAttemptFn : Option (context.Context → String → String → Int → error) := none
  TournamentJoinFn : Option (context.Context → String → String → String → error) := none
  TournamentsGetIdFn : Option (context.Context → List String → (List (Option api.Tournament) × error)) := none
  TournamentListFn : Option (context.Context → Int → Int → Int → Int → Int → String → (Option api.TournamentList × error)) := none
  TournamentRecordsListFn : Option (context.Context → String → List String → Int → String → Int → (List (Option api.LeaderboardRecord) × List (Option api.LeaderboardRecord) × String × String × error)) := none
  TournamentRecordWriteFn : Option (context.Context → String → String → String → Int → Int → GoMap String AnyValue → (Option api.LeaderboardRecord × error)) := none
  TournamentRecordsHaystackFn : Option (context.Context → String → String → Int → Int → (List (Option api.LeaderboardRecord) × error)) := none
  GroupsGetIdFn : Option (context.Context → List String → (List (Option api.Group) × error)) := none
  GroupCreateFn : Option (context.Context → String → String → String → String → String → String → Bool → GoMap String AnyValue → Int → (Option api.Group × error)) := none
  GroupUpdateFn : Option (context.Context → String → String → String → String → String → String → Bool → GoMap String AnyValue → Int → error) := none
  GroupDeleteFn : Option (context.Context → String → error) := none
  GroupUserJoinFn : Option (context.Context → String → String → String → error) := none
  GroupUserLeaveFn : Option (context.Context → String → String → String → error) := none
  GroupUsersAddFn : Option (context.Context → String → List String → error) := none
  GroupUsersKickFn : Option (context.Context → String → List String → error) := none
  GroupUsersPromoteFn : Option (context.Context → String → List String → error) := none
  GroupUsersDemoteFn : Option (context.Context → String → List String → error) := none
  GroupUsersListFn : Option (context.Context → String → Int → Option Int → String → (List (Option api.GroupUserList_GroupUser) × String × error)) := none
  UserGroupsListFn : Option (context.Context → String → Int → Option Int → String → (List (Option api.UserGroupList_UserGroup) × String × error)) := none
  FriendsListFn : Option (context.Context → String → Int → Option Int → String → (List (Option api.Friend) × String × error)) := none
  EventFn : Option (context.Context → Option api.Event → error) := none

/-! ## The methods (source lines 143 to 433)

A method body `return nk.XFn(args)` calls the func value held in the field XFn on the
parameters, in the order written in the body. -/

/-- Source line 143. -/
def MockNakamaModule.AuthenticateApple (nk : MockNakamaModule) (ctx : context.Context) (token : String) (username : String) (create : Bool) :
    Outcome (String × String × Bool × error) :=
  callFn nk.AuthenticateAppleFn fun fn => fn ctx token username create

/-- Source line 146. -/
def MockNakamaModule.AuthenticateCustom (nk : MockNakamaModule) (ctx : context.Context) (id : String) (username : String) (create : Bool) :
    Outcome (String × String × Bool × error) :=
  callFn nk.AuthenticateCustomFn fun fn => fn ctx id username create

/-- Source line 149. -/
def MockNakamaModule.AuthenticateDevice (nk : MockNakamaModule) (ctx : context.Context) (id : String) (username : String) (create : Bool) :
    Outcome (String × String × Bool × error) :=
  callFn nk.AuthenticateDeviceFn fun fn => fn ctx id username create

/-- Source line 152. -/
def MockNakamaModule.AuthenticateEmail (nk : MockNakamaModule) (ctx : context.Context) (email : String) (password : String) (username : String) (create : Bool) :
    Outcome (String × String × Bool × error) :=
  callFn nk.AuthenticateEmailFn fun fn => fn ctx email password username create

/-- Source line 155. -/
def MockNakamaModule.AuthenticateFacebook (nk : MockNakamaModule) (ctx : context.Context) (token : String) (importFriends : Bool) (username : String) (create : Bool) :
    Outcome (String × String × Bool × error) :=
  callFn nk.AuthenticateFacebookFn fun fn => fn ctx token importFriends username create

/-- Source line 158. -/
def MockNakamaModule.AuthenticateFacebookInstantGame (nk : MockNakamaModule) (ctx : context.Context) (signedPlayerInfo : String) (username : String) (create : Bool) :
    Outcome (String × String × Bool × error) :=
  callFn nk.AuthenticateFacebookInstantGameFn fun fn => fn ctx signedPlayerInfo username create

/-- Source line 161. -/
def MockNakamaModule.AuthenticateGameCenter (nk : MockNakamaModule) (ctx : context.Context) (playerID : String) (bundleID : String) (timestamp : Int) (salt : String) (signature : String) (publicKeyUrl : String) (username : String) (create : Bool) :
    Outcome (String × String × Bool × error) :=
  callFn nk.AuthenticateGameCenterFn fun fn => fn ctx playerID bundleID timestamp salt signature publicKeyUrl username create

/-- Source line 164. -/
def MockNakamaModule.AuthenticateGoogle (nk : MockNakamaModule) (ctx : context.Context) (token : String) (username : String) (create : Bool) :
    Outcome (String × String × Bool × error) :=
  callFn nk.AuthenticateGoogleFn fun fn => fn ctx token username create

/-- Source line 167. -/
def MockNakamaModule.AuthenticateSteam (nk : MockNakamaModule) (ctx : context.Context) (token : String) (username : String) (create : Bool) :
    Outcome (String × String × Bool × error) :=
  callFn nk.AuthenticateSteamFn fun fn => fn ctx token username create

/-- Source line 170. -/
def MockNakamaModule.AuthenticateTokenGenerate (nk : MockNakamaModule) (userID : String) (username : String) (exp : Int) (vars : GoMap String String) :
    Outcome (String × Int × error) :=
  callFn nk.AuthenticateTokenGenerateFn fun fn => fn userID username exp vars

/-- Source line 173. -/
def MockNakamaModule.AccountGetId (nk : MockNakamaModule) (ctx : context.Context) (userID : String) :
    Outcome (Option api.Account × error) :=
  callFn nk.AccountGetIdFn fun fn => fn ctx userID

/-- Source line 176. -/
def MockNakamaModule.AccountsGetId (nk : MockNakamaModule) (ctx : context.Context) (userIDs : List String) :
    Outcome (List (Option api.Account) × error) :=
  callFn nk.AccountsGetIdFn fun fn => fn ctx userIDs

/-- Source line 179. -/
def MockNakamaModule.AccountUpdateId (nk : MockNakamaModule) (ctx : context.Context) (userID : String) (username : String) (metadata : GoMap String AnyValue) (displayName : String) (timezone : String) (location : String) (langTag : String) (avatarUrl : String) :
    Outcome (error) :=
  callFn nk.AccountUpdateIdFn fun fn => fn ctx userID username metadata displayName timezone location langTag avatarUrl

/-- Source line 182. -/
def MockNakamaModule.AccountDeleteId (nk : MockNakamaModule) (ctx : context.Context) (userID : String) (recorded : Bool) :
    Outcome (error) :=
  callFn nk.AccountDeleteIdFn fun fn => fn ctx userID recorded

/-- Source line 185. -/
def MockNakamaModule.AccountExportId (nk : MockNakamaModule) (ctx : context.Context) (userID : String) :
    Outcome (String × error) :=
  callFn nk.AccountExportIdFn fun fn => fn ctx userID

/-- Source line 188. -/
def MockNakamaModule.UsersGetId (nk : MockNakamaModule) (ctx : context.Context) (userIDs : List String) (facebookIDs : List String) :
    Outcome (List (Option api.User) × error) :=
  callFn nk.UsersGetIdFn fun fn => fn ctx userIDs facebookIDs

/-- Source line 191. -/
def MockNakamaModule.UsersGetUsername (nk : MockNakamaModule) (ctx : context.Context) (usernames : List String) :
    Outcome (List (Option api.User) × error) :=
  callFn nk.UsersGetUsernameFn fun fn => fn ctx usernames

/-- Source line 194. -/
def MockNakamaModule.UsersBanId (nk : MockNakamaModule) (ctx : context.Context) (userIDs : List String) :
    Outcome (error) :=
  callFn nk.UsersBanIdFn fun fn => fn ctx userIDs

/-- Source line 197. -/
def MockNakamaModule.UsersUnbanId (nk : MockNakamaModule) (ctx : context.Context) (userIDs : List String) :
    Outcome (error) :=
  callFn nk.UsersUnbanIdFn fun fn => fn ctx userIDs

/-- Source line 200. -/
def MockNakamaModule.LinkApple (nk : MockNakamaModule) (ctx : context.Context) (userID : String) (token : String) :
    Outcome (error) :=
  callFn nk.LinkAppleFn fun fn => fn ctx userID token

/-- Source line 203. -/
def MockNakamaModule.LinkCustom (nk : MockNakamaModule) (ctx : context.Context) (userID : String) (customID : String) :
    Outcome (error) :=
  callFn nk.LinkCustomFn fun fn => fn ctx userID customID

/-- Source line 206. -/
def MockNakamaModule.LinkDevice (nk : MockNakamaModule) (ctx : context.Context) (userID : String) (deviceID : String) :
    Outcome (error) :=
  callFn nk.LinkDeviceFn fun fn => fn ctx userID deviceID

/-- Source line 209. -/
def MockNakamaModule.LinkEmail (nk : MockNakamaModule) (ctx : context.Context) (userID : String) (email : String) (password : String) :
    Outcome (error) :=
  callFn nk.LinkEmailFn fun fn => fn ctx userID email password

/-- Source line 212. -/
def MockNakamaModule.LinkFacebook (nk : MockNakamaModule) (ctx : context.Context) (userID : String) (username : String) (token : String) (importFriends : Bool) :
    Outcome (error) :=
  callFn nk.LinkFacebookFn fun fn => fn ctx userID username token importFriends

/-- Source line 215. -/
def MockNakamaModule.LinkFacebookInstantGame (nk : MockNakamaModule) (ctx : context.Context) (userID : String) (signedPlayerInfo : String) :
    Outcome (error) :=
  callFn nk.LinkFacebookInstantGameFn fun fn => fn ctx userID signedPlayerInfo

/-- Source line 218. -/
def MockNakamaModule.LinkGameCenter (nk : MockNakamaModule) (ctx : context.Context) (userID : String) (playerID : String) (bundleID : String) (timestamp : Int) (salt : String) (signature : String) (publicKeyUrl : String) :
    Outcome (error) :=
  callFn nk.LinkGameCenterFn fun fn => fn ctx userID playerID bundleID timestamp salt signature publicKeyUrl

/-- Source line 221. -/
def MockNakamaModule.LinkGoogle (nk : MockNakamaModule) (ctx : context.Context) (userID : String) (token : String) :
    Outcome (error) :=
  callFn nk.LinkGoogleFn fun fn => fn ctx userID token

/-- Source line 224. -/
def MockNakamaModule.LinkSteam (nk : MockNakamaModule) (ctx : context.Context) (userID : String) (username : String) (token : String) (importFriends : Bool) :
    Outcome (error) :=
  callFn nk.LinkSteamFn fun fn => fn ctx userID username token importFriends

/-- Source line 227. -/
def MockNakamaModule.ReadFile (nk : MockNakamaModule) (path : String) :
    Outcome (Option os.File × error) :=
  callFn nk.ReadFileFn fun fn => fn path

/-- Source line 230. -/
def MockNakamaModule.UnlinkApple (nk : MockNakamaModule) (ctx : context.Context) (userID : String) (token : String) :
    Outcome (error) :=
  callFn nk.UnlinkAppleFn fun fn => fn ctx userID token

/-- Source line 233. -/
def MockNakamaModule.UnlinkCustom (nk : MockNakamaModule) (ctx : context.Context) (userID : String) (customID : String) :
    Outcome (error) :=
  callFn nk.UnlinkCustomFn fun fn => fn ctx userID customID

/-- Source line 236. -/
def MockNakamaModule.UnlinkDevice (nk : MockNakamaModule) (ctx : context.Context) (userID : String) (deviceID : String) :
    Outcome (error) :=
  callFn nk.UnlinkDeviceFn fun fn => fn ctx userID deviceID

/-- Source line 239. -/
def MockNakamaModule.UnlinkEmail (nk : MockNakamaModule) (ctx : context.Context) (userID : String) (email : String) :
    Outcome (error) :=
  callFn nk.UnlinkEmailFn fun fn => fn ctx userID email

/-- Source line 242. -/
def MockNakamaModule.UnlinkFacebook (nk : MockNakamaModule) (ctx : context.Context) (userID : String) (token : String) :
    Outcome (error) :=
  callFn nk.UnlinkFacebookFn fun fn => fn ctx userID token

/-- Source line 245. -/
def MockNakamaModule.UnlinkFacebookInstantGame (nk : MockNakamaModule) (ctx : context.Context) (userID : String) (signedPlayerInfo : String) :
    Outcome (error) :=
  callFn nk.UnlinkFacebookInstantGameFn fun fn => fn ctx userID signedPlayerInfo

/-- Source line 248. -/
def MockNakamaModule.UnlinkGameCenter (nk : MockNakamaModule) (ctx : context.Context) (userID : String) (playerID : String) (bundleID : String) (timestamp : Int) (salt : String) (signature : String) (publicKeyUrl : String) :
    Outcome (error) :=
  callFn nk.UnlinkGameCenterFn fun fn => fn ctx userID playerID bundleID timestamp salt signature publicKeyUrl

/-- Source line 251. -/
def MockNakamaModule.UnlinkGoogle (nk : MockNakamaModule) (ctx : context.Context) (userID : String) (token : String) :
    Outcome (error) :=
  callFn nk.UnlinkGoogleFn fun fn => fn ctx userID token

/-- Source line 254. -/
def MockNakamaModule.UnlinkSteam (nk : MockNakamaModule) (ctx : context.Context) (userID : String) (token : String) :
    Outcome (error) :=
  callFn nk.UnlinkSteamFn fun fn => fn ctx userID token

/-- Source line 257. -/
def MockNakamaModule.StreamUserList (nk : MockNakamaModule) (mode : Nat) (subject : String) (subcontext : String) (label : String) (includeHidden : Bool) (includeNotHidden : Bool) :
    Outcome (List runtime.Presence × error) :=
  callFn nk.StreamUserListFn fun fn => fn mode subject subcontext label includeHidden includeNotHidden

/-- Source line 260. -/
def MockNakamaModule.StreamUserGet (nk : MockNakamaModule) (mode : Nat) (subject : String) (subcontext : String) (label : String) (userID : String) (sessionID : String) :
    Outcome (runtime.PresenceMeta × error) :=
  callFn nk.StreamUserGetFn fun fn => fn mode subject subcontext label userID sessionID

/-- Source line 263. -/
def MockNakamaModule.StreamUserJoin (nk : MockNakamaModule) (mode : Nat) (subject : String) (subcontext : String) (label : String) (userID : String) (sessionID : String) (hidden : Bool) (persistence : Bool) (status : String) :
    Outcome (Bool × error) :=
  callFn nk.StreamUserJoinFn fun fn => fn mode subject subcontext label userID sessionID hidden persistence status

/-- Source line 266. -/
def MockNakamaModule.StreamUserUpdate (nk : MockNakamaModule) (mode : Nat) (subject : String) (subcontext : String) (label : String) (userID : String) (sessionID : String) (hidden : Bool) (persistence : Bool) (status : String) :
    Outcome (error) :=
  callFn nk.StreamUserUpdateFn fun fn => fn mode subject subcontext label userID sessionID hidden persistence status

/-- Source line 269. -/
def MockNakamaModule.StreamUserLeave (nk : MockNakamaModule) (mode : Nat) (subject : String) (subcontext : String) (label : String) (userID : String) (sessionID : String) :
    Outcome (error) :=
  callFn nk.StreamUserLeaveFn fun fn => fn mode subject subcontext label userID sessionID

/-- Source line 272. -/
def MockNakamaModule.StreamUserKick (nk : MockNakamaModule) (mode : Nat) (subject : String) (subcontext : String) (label : String) (presence : runtime.Presence) :
    Outcome (error) :=
  callFn nk.StreamUserKickFn fun fn => fn mode subject subcontext label presence

/-- Source line 275. -/
def MockNakamaModule.StreamCount (nk : MockNakamaModule) (mode : Nat) (subject : String) (subcontext : String) (label : String) :
    Outcome (Int × error) :=
  callFn nk.StreamCountFn fun fn => fn mode subject subcontext label

/-- Source line 278. -/
def MockNakamaModule.StreamClose (nk : MockNakamaModule) (mode : Nat) (subject : String) (subcontext : String) (label : String) :
    Outcome (error) :=
  callFn nk.StreamCloseFn fun fn => fn mode subject subcontext label

/-- Source line 281. -/
def MockNakamaModule.StreamSend (nk : MockNakamaModule) (mode : Nat) (subject : String) (subcontext : String) (label : String) (data : String) (presences : List runtime.Presence) (reliable : Bool) :
    Outcome (error) :=
  callFn nk.StreamSendFn fun fn => fn mode subject subcontext label data presences reliable

/-- Source line 284. -/
def MockNakamaModule.StreamSendRaw (nk : MockNakamaModule) (mode : Nat) (subject : String) (subcontext : String) (label : String) (msg : Option rtapi.Envelope) (presences : List runtime.Presence) (reliable : Bool) :
    Outcome (error) :=
  callFn nk.StreamSendRawFn fun fn => fn mode subject subcontext label msg presences reliable

/-- Source line 287. -/
def MockNakamaModule.SessionDisconnect (nk : MockNakamaModule) (ctx : context.Context) (sessionID : String) (reason : List runtime.PresenceReason) :
    Outcome (error) :=
  callFn nk.SessionDisconnectFn fun fn => fn ctx sessionID reason

/-- Source line 290. -/
def MockNakamaModule.SessionLogout (nk : MockNakamaModule) (userID : String) (token : String) (refreshToken : String) :
    Outcome (error) :=
  callFn nk.SessionLogoutFn fun fn => fn userID token refreshToken

/-- Source line 293. -/
def MockNakamaModule.MatchCreate (nk : MockNakamaModule) (ctx : context.Context) (module : String) (params : GoMap String AnyValue) :
    Outcome (String × error) :=
  callFn nk.MatchCreateFn fun fn => fn ctx module params

/-- Source line 296. -/
def MockNakamaModule.MatchGet (nk : MockNakamaModule) (ctx : context.Context) (id : String) :
    Outcome (Option api.Match × error) :=
  callFn nk.MatchGetFn fun fn => fn ctx id

/-- Source line 299. -/
def MockNakamaModule.MatchList (nk : MockNakamaModule) (ctx : context.Context) (limit : Int) (authoritative : Bool) (label : String) (minSize : Option Int) (maxSize : Option Int) (query : String) :
    Outcome (List (Option api.Match) × error) :=
  callFn nk.MatchListFn fun fn => fn ctx limit authoritative label minSize maxSize query

/-- Source line 302. -/
def MockNakamaModule.NotificationSend (nk : MockNakamaModule) (ctx : context.Context) (userID : String) (subject : String) (content : GoMap String AnyValue) (code : Int) (sender : String) (persistent : Bool) :
    Outcome (error) :=
  callFn nk.NotificationSendFn fun fn => fn ctx userID subject content code sender persistent

/-- Source line 305. -/
def MockNakamaModule.NotificationsSend (nk : MockNakamaModule) (ctx : context.Context) (notifications : List (Option runtime.NotificationSend)) :
    Outcome (error) :=
  callFn nk.NotificationsSendFn fun fn => fn ctx notifications

/-- Source line 308. -/
def MockNakamaModule.WalletUpdate (nk : MockNakamaModule) (ctx : context.Context) (userID : String) (changeset : GoMap String Int) (metadata : GoMap String AnyValue) (updateLedger : Bool) :
    Outcome (GoMap String Int × GoMap String Int × error) :=
  callFn nk.WalletUpdateFn fun fn => fn ctx userID changeset metadata updateLedger

/-- Source line 311. -/
def MockNakamaModule.WalletsUpdate (nk : MockNakamaModule) (ctx : context.Context) (updates : List (Option runtime.WalletUpdate)) (updateLedger : Bool) :
    Outcome (List (Option runtime.WalletUpdateResult) × error) :=
  callFn nk.WalletsUpdateFn fun fn => fn ctx updates updateLedger

/-- Source line 314. -/
def MockNakamaModule.WalletLedgerUpdate (nk : MockNakamaModule) (ctx : context.Context) (itemID : String) (metadata : GoMap String AnyValue) :
    Outcome (runtime.WalletLedgerItem × error) :=
  callFn nk.WalletLedgerUpdateFn fun fn => fn ctx itemID metadata

/-- Source line 317. -/
def MockNakamaModule.WalletLedgerList (nk : MockNakamaModule) (ctx : context.Context) (userID : String) (limit : Int) (cursor : String) :
    Outcome (List runtime.WalletLedgerItem × String × error) :=
  callFn nk.WalletLedgerListFn fun fn => fn ctx userID limit cursor

/-- Source line 320. -/
def MockNakamaModule.StorageList (nk : MockNakamaModule) (ctx : context.Context) (userID : String) (collection : String) (limit : Int) (cursor : String) :
    Outcome (List (Option api.StorageObject) × String × error) :=
  callFn nk.StorageListFn fun fn => fn ctx userID collection limit cursor

/-- Source line 323. -/
def MockNakamaModule.StorageRead (nk : MockNakamaModule) (ctx : context.Context) (reads : List (Option runtime.StorageRead)) :
    Outcome (List (Option api.StorageObject) × error) :=
  callFn nk.StorageReadFn fun fn => fn ctx reads

/-- Source line 326. -/
def MockNakamaModule.StorageWrite (nk : MockNakamaModule) (ctx : context.Context) (writes : List (Option runtime.StorageWrite)) :
    Outcome (List (Option api.StorageObjectAck) × error) :=
  callFn nk.StorageWriteFn fun fn => fn ctx writes

/-- Source line 329. -/
def MockNakamaModule.StorageDelete (nk : MockNakamaModule) (ctx : context.Context) (deletes : List (Option runtime.StorageDelete)) :
    Outcome (error) :=
  callFn nk.StorageDeleteFn fun fn => fn ctx deletes

/-- Source line 332. -/
def MockNakamaModule.MultiUpdate (nk : MockNakamaModule) (ctx : context.Context) (accountUpdates : List (Option runtime.AccountUpdate)) (storageWrites : List (Option runtime.StorageWrite)) (walletUpdates : List (Option runtime.WalletUpdate)) (updateLedger : Bool) :
    Outcome (List (Option api.StorageObjectAck) × List (Option runtime.WalletUpdateResult) × error) :=
  callFn nk.MultiUpdateFn fun fn => fn ctx accountUpdates storageWrites walletUpdates updateLedger

/-- Source line 335. -/
def MockNakamaModule.LeaderboardCreate (nk : MockNakamaModule) (ctx : context.Context) (id : String) (authoritative : Bool) (sortOrder : String) (operator : String) (resetSchedule : String) (metadata : GoMap String AnyValue) :
    Outcome (error) :=
  callFn nk.LeaderboardCreateFn fun fn => fn ctx id authoritative sortOrder operator resetSchedule metadata

/-- Source line 338. -/
def MockNakamaModule.LeaderboardDelete (nk : MockNakamaModule) (ctx : context.Context) (id : String) :
    Outcome (error) :=
  callFn nk.LeaderboardDeleteFn fun fn => fn ctx id

/-- Source line 341. -/
def MockNakamaModule.LeaderboardRecordsList (nk : MockNakamaModule) (ctx : context.Context) (id : String) (ownerIDs : List String) (limit : Int) (cursor : String) (expiry : Int) :
    Outcome (List (Option api.LeaderboardRecord) × List (Option api.LeaderboardRecord) × String × String × error) :=
  callFn nk.LeaderboardRecordsListFn fun fn => fn ctx id ownerIDs limit cursor expiry

/-- Source line 344. -/
def MockNakamaModule.LeaderboardRecordWrite (nk : MockNakamaModule) (ctx : context.Context) (id : String) (ownerID : String) (username : String) (score : Int) (subscore : Int) (metadata : GoMap String AnyValue) :
    Outcome (Option api.LeaderboardRecord × error) :=
  callFn nk.LeaderboardRecordWriteFn fun fn => fn ctx id ownerID username score subscore metadata

/-- Source line 347. -/
def MockNakamaModule.LeaderboardRecordDelete (nk : MockNakamaModule) (ctx : context.Context) (id : String) (ownerID : String) :
    Outcome (error) :=
  callFn nk.LeaderboardRecordDeleteFn fun fn => fn ctx id ownerID

/-- Source line 350. -/
def MockNakamaModule.PurchaseValidateApple (nk : MockNakamaModule) (ctx : context.Context) (userID : String) (receipt : String) :
    Outcome (Option api.ValidatePurchaseResponse × error) :=
  callFn nk.PurchaseValidateAppleFn fun fn => fn ctx userID receipt

/-- Source line 353. -/
def MockNakamaModule.PurchaseValidateGoogle (nk : MockNakamaModule) (ctx : context.Context) (userID : String) (receipt : String) :
    Outcome (Option api.ValidatePurchaseResponse × error) :=
  callFn nk.PurchaseValidateGoogleFn fun fn => fn ctx userID receipt

/-- Source line 356. -/
def MockNakamaModule.PurchaseValidateHuawei (nk : MockNakamaModule) (ctx : context.Context) (userID : String) (signature : String) (inAppPurchaseData : String) :
    Outcome (Option api.ValidatePurchaseResponse × error) :=
  callFn nk.PurchaseValidateHuaweiFn fun fn => fn ctx userID signature inAppPurchaseData

/-- Source line 359. -/
def MockNakamaModule.PurchasesList (nk : MockNakamaModule) (ctx : context.Context) (userID : String) (limit : Int) (cursor : String) :
    Outcome (Option api.PurchaseList × error) :=
  callFn nk.PurchasesListFn fun fn => fn ctx userID limit cursor

/-- Source line 362. -/
def MockNakamaModule.PurchaseGetByTransactionId (nk : MockNakamaModule) (ctx : context.Context) (transactionID : String) :
    Outcome (String × Option api.ValidatedPurchase × error) :=
  callFn nk.PurchaseGetByTransactionIdFn fun fn => fn ctx transactionID

/-- Source line 365. -/
def MockNakamaModule.TournamentCreate (nk : MockNakamaModule) (ctx : context.Context) (id : String) (sortOrder : String) (operator : String) (resetSchedule : String) (metadata : GoMap String AnyValue) (title : String) (description : String) (category : Int) (startTime : Int) (endTime : Int) (duration : Int) (maxSize : Int) (maxNumScore : Int) (joinRequired : Bool) :
    Outcome (error) :=
  callFn nk.TournamentCreateFn fun fn => fn ctx id sortOrder operator resetSchedule metadata title description category startTime endTime duration maxSize maxNumScore joinRequired

/-- Source line 368. -/
def MockNakamaModule.TournamentDelete (nk : MockNakamaModule) (ctx : context.Context) (id : String) :
    Outcome (error) :=
  callFn nk.TournamentDeleteFn fun fn => fn ctx id

/-- Source line 371. -/
def MockNakamaModule.TournamentAddAttempt (nk : MockNakamaModule) (ctx : context.Context) (id : String) (ownerID : String) (count : Int) :
    Outcome (error) :=
  callFn nk.TournamentAddAttemptFn fun fn => fn ctx id ownerID count

/-- Source line 374. -/
def MockNakamaModule.TournamentJoin (nk : MockNakamaModule) (ctx : context.Context) (id : String) (ownerID : String) (username : String) :
    Outcome (error) :=
  callFn nk.TournamentJoinFn fun fn => fn ctx id ownerID username

/-- Source line 377. -/
def MockNakamaModule.TournamentsGetId (nk : MockNakamaModule) (ctx : context.Context) (tournamentIDs : List String) :
    Outcome (List (Option api.Tournament) × error) :=
  callFn nk.TournamentsGetIdFn fun fn => fn ctx tournamentIDs

/-- Source line 380. -/
def MockNakamaModule.TournamentList (nk : MockNakamaModule) (ctx : context.Context) (categoryStart : Int) (categoryEnd : Int) (startTime : Int) (endTime : Int) (limit : Int) (cursor : String) :
    Outcome (Option api.TournamentList × error) :=
  callFn nk.TournamentListFn fun fn => fn ctx categoryStart categoryEnd startTime endTime limit cursor

/-- Source line 383. -/
def MockNakamaModule.TournamentRecordsList (nk : MockNakamaModule) (ctx : context.Context) (tournamentId : String) (ownerIDs : List String) (limit : Int) (cursor : String) (overrideExpiry : Int) :
    Outcome (List (Option api.LeaderboardRecord) × List (Option api.LeaderboardRecord) × String × String × error) :=
  callFn nk.TournamentRecordsListFn fun fn => fn ctx tournamentId ownerIDs limit cursor overrideExpiry

/-- Source line 386. -/
def MockNakamaModule.TournamentRecordWrite (nk : MockNakamaModule) (ctx : context.Context) (id : String) (ownerID : String) (username : String) (score : Int) (subscore : Int) (metadata : GoMap String AnyValue) :
    Outcome (Option api.LeaderboardRecord × error) :=
  callFn nk.TournamentRecordWriteFn fun fn => fn ctx id ownerID username score subscore metadata

/-- Source line 389. -/
def MockNakamaModule.TournamentRecordsHaystack (nk : MockNakamaModule) (ctx : context.Context) (id : String) (ownerID : String) (limit : Int) (expiry : Int) :
    Outcome (List (Option api.LeaderboardRecord) × error) :=
  callFn nk.TournamentRecordsHaystackFn fun fn => fn ctx id ownerID limit expiry

/-- Source line 392. -/
def MockNakamaModule.GroupsGetId (nk : MockNakamaModule) (ctx : context.Context) (groupIDs : List String) :
    Outcome (List (Option api.Group) × error) :=
  callFn nk.GroupsGetIdFn fun fn => fn ctx groupIDs

/-- Source line 395. -/
def MockNakamaModule.GroupCreate (nk : MockNakamaModule) (ctx : context.Context) (userID : String) (name : String) (creatorID : String) (langTag : String) (description : String) (avatarUrl : String) (open_ : Bool) (metadata : GoMap String AnyValue) (maxCount : Int) :
    Outcome (Option api.Group × error) :=
  callFn nk.GroupCreateFn fun fn => fn ctx userID name creatorID langTag description avatarUrl open_ metadata maxCount

/-- Source line 398. -/
def MockNakamaModule.GroupUpdate (nk : MockNakamaModule) (ctx : context.Context) (id : String) (name : String) (creatorID : String) (langTag : String) (description : String) (avatarUrl : String) (open_ : Bool) (metadata : GoMap String AnyValue) (maxCount : Int) :
    Outcome (error) :=
  callFn nk.GroupUpdateFn fun fn => fn ctx id name creatorID langTag description avatarUrl open_ metadata maxCount

/-- Source line 401. -/
def MockNakamaModule.GroupDelete (nk : MockNakamaModule) (ctx : context.Context) (id : String) :
    Outcome (error) :=
  callFn nk.GroupDeleteFn fun fn => fn ctx id

/-- Source line 404. -/
def MockNakamaModule.GroupUserJoin (nk : MockNakamaModule) (ctx : context.Context) (groupID : String) (userID : String) (username : String) :
    Outcome (error) :=
  callFn nk.GroupUserJoinFn fun fn => fn ctx groupID userID username

/-- Source line 407. -/
def MockNakamaModule.GroupUserLeave (nk : MockNakamaModule) (ctx : context.Context) (groupID : String) (userID : String) (username : String) :
    Outcome (error) :=
  callFn nk.GroupUserLeaveFn fun fn => fn ctx groupID userID username

/-- Source line 410. -/
def MockNakamaModule.GroupUsersAdd (nk : MockNakamaModule) (ctx : context.Context) (groupID : String) (userIDs : List String) :
    Outcome (error) :=
  callFn nk.GroupUsersAddFn fun fn => fn ctx groupID userIDs

/-- Source line 413. -/
def MockNakamaModule.GroupUsersKick (nk : MockNakamaModule) (ctx : context.Context) (groupID : String) (userIDs : List String) :
    Outcome (error) :=
  callFn nk.GroupUsersKickFn fun fn => fn ctx groupID userIDs

/-- Source line 416. -/
def MockNakamaModule.GroupUsersPromote (nk : MockNakamaModule) (ctx : context.Context) (groupID : String) (userIDs : List String) :
    Outcome (error) :=
  callFn nk.GroupUsersPromoteFn fun fn => fn ctx groupID userIDs

/-- Source line 419. -/
def MockNakamaModule.GroupUsersDemote (nk : MockNakamaModule) (ctx : context.Context) (groupID : String) (userIDs : List String) :
    Outcome (error) :=
  callFn nk.GroupUsersDemoteFn fun fn => fn ctx groupID userIDs

/-- Source line 422. -/
def MockNakamaModule.GroupUsersList (nk : MockNakamaModule) (ctx : context.Context) (id : String) (limit : Int) (state : Option Int) (cursor : String) :
    Outcome (List (Option api.GroupUserList_GroupUser) × String × error) :=
  callFn nk.GroupUsersListFn fun fn => fn ctx id limit state cursor

/-- Source line 425. -/
def MockNakamaModule.UserGroupsList (nk : MockNakamaModule) (ctx : context.Context) (userID : String) (limit : Int) (state : Option Int) (cursor : String) :
    Outcome (List (Option api.UserGroupList_UserGroup) × String × error) :=
  callFn nk.UserGroupsListFn fun fn => fn ctx userID limit state cursor

/-- Source line 428. -/
def MockNakamaModule.FriendsList (nk : MockNakamaModule) (ctx : context.Context) (userID : String) (limit : Int) (state : Option Int) (cursor : String) :
    Outcome (List (Option api.Friend) × String × error) :=
  callFn nk.FriendsListFn fun fn => fn ctx userID limit state cursor

/-- Source line 431: the body calls the method Event itself, with the same receiver and arguments. -/
def MockNakamaModule.Event (fuel : Nat) (nk : MockNakamaModule) (ctx : context.Context) (evt : Option api.Event) :
    Outcome (error) :=
  match fuel with
  | 0 => Outcome.outOfFuel
  | fuel + 1 => MockNakamaModule.Event fuel nk ctx evt
/-! ## Operations as data

The names of the 97 methods, so that statements can range over every operation. -/

/-- The operations of the double: one per method of MockNakamaModule, in source order. -/
inductive Op where
  | AuthenticateApple
  | AuthenticateCustom
  | AuthenticateDevice
  | AuthenticateEmail
  | AuthenticateFacebook
  | AuthenticateFacebookInstantGame
  | AuthenticateGameCenter
  | AuthenticateGoogle
  | AuthenticateSteam
  | AuthenticateTokenGenerate
  | AccountGetId
  | AccountsGetId
  | AccountUpdateId
  | AccountDeleteId
  | AccountExportId
  | UsersGetId
  | UsersGetUsername
  | UsersBanId
  | UsersUnbanId
  | LinkApple
  | LinkCustom
  | LinkDevice
  | LinkEmail
  | LinkFacebook
  | LinkFacebookInstantGame
  | LinkGameCenter
  | LinkGoogle
  | LinkSteam
  | ReadFile
  | UnlinkApple
  | UnlinkCustom
  | UnlinkDevice
  | UnlinkEmail
  | UnlinkFacebook
  | UnlinkFacebookInstantGame
  | UnlinkGameCenter
  | UnlinkGoogle
  | UnlinkSteam
  | StreamUserList
  | StreamUserGet
  | StreamUserJoin
  | StreamUserUpdate
  | StreamUserLeave
  | StreamUserKick
  | StreamCount
  | StreamClose
  | StreamSend
  | StreamSendRaw
  | SessionDisconnect
  | SessionLogout
  | MatchCreate
  | MatchGet
  | MatchList
  | NotificationSend
  | NotificationsSend
  | WalletUpdate
  | WalletsUpdate
  | WalletLedgerUpdate
  | WalletLedgerList
  | StorageList
  | StorageRead
  | StorageWrite
  | StorageDelete
  | MultiUpdate
  | LeaderboardCreate
  | LeaderboardDelete
  | LeaderboardRecordsList
  | LeaderboardRecordWrite
  | LeaderboardRecordDelete
  | PurchaseValidateApple
  | PurchaseValidateGoogle
  | PurchaseValidateHuawei
  | PurchasesList
  | PurchaseGetByTransactionId
  | TournamentCreate
  | TournamentDelete
  | TournamentAddAttempt
  | TournamentJoin
  | TournamentsGetId
  | TournamentList
  | TournamentRecordsList
  | TournamentRecordWrite
  | TournamentRecordsHaystack
  | GroupsGetId
  | GroupCreate
  | GroupUpdate
  | GroupDelete
  | GroupUserJoin
  | GroupUserLeave
  | GroupUsersAdd
  | GroupUsersKick
  | GroupUsersPromote
  | GroupUsersDemote
  | GroupUsersList
  | UserGroupsList
  | FriendsList
  | Event
  deriving DecidableEq, Repr

/-- The method name of an operation. -/
def Op.name : Op → String
  | Op.AuthenticateApple => "AuthenticateApple"
  | Op.AuthenticateCustom => "AuthenticateCustom"
  | Op.AuthenticateDevice => "AuthenticateDevice"
  | Op.AuthenticateEmail => "AuthenticateEmail"
  | Op.AuthenticateFacebook => "AuthenticateFacebook"
  | Op.AuthenticateFacebookInstantGame => "AuthenticateFacebookInstantGame"
  | Op.AuthenticateGameCenter => "AuthenticateGameCenter"
  | Op.AuthenticateGoogle => "AuthenticateGoogle"
  | Op.AuthenticateSteam => "AuthenticateSteam"
  | Op.AuthenticateTokenGenerate => "AuthenticateTokenGenerate"
  | Op.AccountGetId => "AccountGetId"
  | Op.AccountsGetId => "AccountsGetId"
  | Op.AccountUpdateId => "AccountUpdateId"
  | Op.AccountDeleteId => "AccountDeleteId"
  | Op.AccountExportId => "AccountExportId"
  | Op.UsersGetId => "UsersGetId"
  | Op.UsersGetUsername => "UsersGetUsername"
  | Op.UsersBanId => "UsersBanId"
  | Op.UsersUnbanId => "UsersUnbanId"
  | Op.LinkApple => "LinkApple"
  | Op.LinkCustom => "LinkCustom"
  | Op.LinkDevice => "LinkDevice"
  | Op.LinkEmail => "LinkEmail"
  | Op.LinkFacebook => "LinkFacebook"
  | Op.LinkFacebookInstantGame => "LinkFacebookInstantGame"
  | Op.LinkGameCenter => "LinkGameCenter"
  | Op.LinkGoogle => "LinkGoogle"
  | Op.LinkSteam => "LinkSteam"
  | Op.ReadFile => "ReadFile"
  | Op.UnlinkApple => "UnlinkApple"
  | Op.UnlinkCustom => "UnlinkCustom"
  | Op.UnlinkDevice => "UnlinkDevice"
  | Op.UnlinkEmail => "UnlinkEmail"
  | Op.UnlinkFacebook => "UnlinkFacebook"
  | Op.UnlinkFacebookInstantGame => "UnlinkFacebookInstantGame"
  | Op.UnlinkGameCenter => "UnlinkGameCenter"
  | Op.UnlinkGoogle => "UnlinkGoogle"
  | Op.UnlinkSteam => "UnlinkSteam"
  | Op.StreamUserList => "StreamUserList"
  | Op.StreamUserGet => "StreamUserGet"
  | Op.StreamUserJoin => "StreamUserJoin"
  | Op.StreamUserUpdate => "StreamUserUpdate"
  | Op.StreamUserLeave => "StreamUserLeave"
  | Op.StreamUserKick => "StreamUserKick"
  | Op.StreamCount => "StreamCount"
  | Op.StreamClose => "StreamClose"
  | Op.StreamSend => "StreamSend"
  | Op.StreamSendRaw => "StreamSendRaw"
  | Op.SessionDisconnect => "SessionDisconnect"
  | Op.SessionLogout => "SessionLogout"
  | Op.MatchCreate => "MatchCreate"
  | Op.MatchGet => "MatchGet"
  | Op.MatchList => "MatchList"
  | Op.NotificationSend => "NotificationSend"
  | Op.NotificationsSend => "NotificationsSend"
  | Op.WalletUpdate => "WalletUpdate"
  | Op.WalletsUpdate => "WalletsUpdate"
  | Op.WalletLedgerUpdate => "WalletLedgerUpdate"
  | Op.WalletLedgerList => "WalletLedgerList"
  | Op.StorageList => "StorageList"
  | Op.StorageRead => "StorageRead"
  | Op.StorageWrite => "StorageWrite"
  | Op.StorageDelete => "StorageDelete"
  | Op.MultiUpdate => "MultiUpdate"
  | Op.LeaderboardCreate => "LeaderboardCreate"
  | Op.LeaderboardDelete => "LeaderboardDelete"
  | Op.LeaderboardRecordsList => "LeaderboardRecordsList"
  | Op.LeaderboardRecordWrite => "LeaderboardRecordWrite"
  | Op.LeaderboardRecordDelete => "LeaderboardRecordDelete"
  | Op.PurchaseValidateApple => "PurchaseValidateApple"
  | Op.PurchaseValidateGoogle => "PurchaseValidateGoogle"
  | Op.PurchaseValidateHuawei => "PurchaseValidateHuawei"
  | Op.PurchasesList => "PurchasesList"
  | Op.PurchaseGetByTransactionId => "PurchaseGetByTransactionId"
  | Op.TournamentCreate => "TournamentCreate"
  | Op.TournamentDelete => "TournamentDelete"
  | Op.TournamentAddAttempt => "TournamentAddAttempt"
  | Op.TournamentJoin => "TournamentJoin"
  | Op.TournamentsGetId => "TournamentsGetId"
  | Op.TournamentList => "TournamentList"
  | Op.TournamentRecordsList => "TournamentRecordsList"
  | Op.TournamentRecordWrite => "TournamentRecordWrite"
  | Op.TournamentRecordsHaystack => "TournamentRecordsHaystack"
  | Op.GroupsGetId => "GroupsGetId"
  | Op.GroupCreate => "GroupCreate"
  | Op.GroupUpdate => "GroupUpdate"
  | Op.GroupDelete => "GroupDelete"
  | Op.GroupUserJoin => "GroupUserJoin"
  | Op.GroupUserLeave => "GroupUserLeave"
  | Op.GroupUsersAdd => "GroupUsersAdd"
  | Op.GroupUsersKick => "GroupUsersKick"
  | Op.GroupUsersPromote => "GroupUsersPromote"
  | Op.GroupUsersDemote => "GroupUsersDemote"
  | Op.GroupUsersList => "GroupUsersList"
  | Op.UserGroupsList => "UserGroupsList"
  | Op.FriendsList => "FriendsList"
  | Op.Event => "Event"

/-- Every operation, in source order. -/
def Op.all : List Op :=
  [Op.AuthenticateApple, Op.AuthenticateCustom, Op.AuthenticateDevice, Op.AuthenticateEmail,
   Op.AuthenticateFacebook, Op.AuthenticateFacebookInstantGame, Op.AuthenticateGameCenter, Op.AuthenticateGoogle,
   Op.AuthenticateSteam, Op.AuthenticateTokenGenerate, Op.AccountGetId, Op.AccountsGetId,
   Op.AccountUpdateId, Op.AccountDeleteId, Op.AccountExportId, Op.UsersGetId,
   Op.UsersGetUsername, Op.UsersBanId, Op.UsersUnbanId, Op.LinkApple,
   Op.LinkCustom, Op.LinkDevice, Op.LinkEmail, Op.LinkFacebook,
   Op.LinkFacebookInstantGame, Op.LinkGameCenter, Op.LinkGoogle, Op.LinkSteam,
   Op.ReadFile, Op.UnlinkApple, Op.UnlinkCustom, Op.UnlinkDevice,
   Op.UnlinkEmail, Op.UnlinkFacebook, Op.UnlinkFacebookInstantGame, Op.UnlinkGameCenter,
   Op.UnlinkGoogle, Op.UnlinkSteam, Op.StreamUserList, Op.StreamUserGet,
   Op.StreamUserJoin, Op.StreamUserUpdate, Op.StreamUserLeave, Op.StreamUserKick,
   Op.StreamCount, Op.StreamClose, Op.StreamSend, Op.StreamSendRaw,
   Op.SessionDisconnect, Op.SessionLogout, Op.MatchCreate, Op.MatchGet,
   Op.MatchList, Op.NotificationSend, Op.NotificationsSend, Op.WalletUpdate,
   Op.WalletsUpdate, Op.WalletLedgerUpdate, Op.WalletLedgerList, Op.StorageList,
   Op.StorageRead, Op.StorageWrite, Op.StorageDelete, Op.MultiUpdate,
   Op.LeaderboardCreate, Op.LeaderboardDelete, Op.LeaderboardRecordsList, Op.LeaderboardRecordWrite,
   Op.LeaderboardRecordDelete, Op.PurchaseValidateApple, Op.PurchaseValidateGoogle, Op.PurchaseValidateHuawei,
   Op.PurchasesList, Op.PurchaseGetByTransactionId, Op.TournamentCreate, Op.TournamentDelete,
   Op.TournamentAddAttempt, Op.TournamentJoin, Op.TournamentsGetId, Op.TournamentList,
   Op.TournamentRecordsList, Op.TournamentRecordWrite, Op.TournamentRecordsHaystack, Op.GroupsGetId,
   Op.GroupCreate, Op.GroupUpdate, Op.GroupDelete, Op.GroupUserJoin,
   Op.GroupUserLeave, Op.GroupUsersAdd, Op.GroupUsersKick, Op.GroupUsersPromote,
   Op.GroupUsersDemote, Op.GroupUsersList, Op.UserGroupsList, Op.FriendsList,
   Op.Event]

/-- The func type of the field XFn of operation X, as declared in the struct. -/
@[reducible] def Op.Fn : Op → Type
  | Op.AuthenticateApple => context.Context → String → String → Bool → (String × String × Bool × error)
  | Op.AuthenticateCustom => context.Context → String → String → Bool → (String × String × Bool × error)
  | Op.AuthenticateDevice => context.Context → String → String → Bool → (String × String × Bool × error)
  | Op.AuthenticateEmail => context.Context → String → String → String → Bool → (String × String × Bool × error)
  | Op.AuthenticateFacebook => context.Context → String → Bool → String → Bool → (String × String × Bool × error)
  | Op.AuthenticateFacebookInstantGame => context.Context → String → String → Bool → (String × String × Bool × error)
  | Op.AuthenticateGameCenter => context.Context → String → String → Int → String → String → String → String → Bool → (String × String × Bool × error)
  | Op.AuthenticateGoogle => context.Context → String → String → Bool → (String × String × Bool × error)
  | Op.AuthenticateSteam => context.Context → String → String → Bool → (String × String × Bool × error)
  | Op.AuthenticateTokenGenerate => String → String → Int → GoMap String String → (String × Int × error)
  | Op.AccountGetId => context.Context → String → (Option api.Account × error)
  | Op.AccountsGetId => context.Context → List String → (List (Option api.Account) × error)
  | Op.AccountUpdateId => context.Context → String → String → GoMap String AnyValue → String → String → String → String → String → error
  | Op.AccountDeleteId => context.Context → String → Bool → error
  | Op.AccountExportId => context.Context → String → (String × error)
  | Op.UsersGetId => context.Context → List String → List String → (List (Option api.User) × error)
  | Op.UsersGetUsername => context.Context → List String → (List (Option api.User) × error)
  | Op.UsersBanId => context.Context → List String → error
  | Op.UsersUnbanId => context.Context → List String → error
  | Op.LinkApple => context.Context → String → String → error
  | Op.LinkCustom => context.Context → String → String → error
  | Op.LinkDevice => context.Context → String → String → error
  | Op.LinkEmail => context.Context → String → String → String → error
  | Op.LinkFacebook => context.Context → String → String → String → Bool → error
  | Op.LinkFacebookInstantGame => context.Context → String → String → error
  | Op.LinkGameCenter => context.Context → String → String → String → Int → String → String → String → error
  | Op.LinkGoogle => context.Context → String → String → error
  | Op.LinkSteam => context.Context → String → String → String → Bool → error
  | Op.ReadFile => String → (Option os.File × error)
  | Op.UnlinkApple => context.Context → String → String → error
  | Op.UnlinkCustom => context.Context → String → String → error
  | Op.UnlinkDevice => context.Context → String → String → error
  | Op.UnlinkEmail => context.Context → String → String → error
  | Op.UnlinkFacebook => context.Context → String → String → error
  | Op.UnlinkFacebookInstantGame => context.Context → String → String → error
  | Op.UnlinkGameCenter => context.Context → String → String → String → Int → String → String → String → error
  | Op.UnlinkGoogle => context.Context → String → String → error
  | Op.UnlinkSteam => context.Context → String → String → error
  | Op.StreamUserList => Nat → String → String → String → Bool → Bool → (List runtime.Presence × error)
  | Op.StreamUserGet => Nat → String → String → String → String → String → (runtime.PresenceMeta × error)
  | Op.StreamUserJoin => Nat → String → String → String → String → String → Bool → Bool → String → (Bool × error)
  | Op.StreamUserUpdate => Nat → String → String → String → String → String → Bool → Bool → String → error
  | Op.StreamUserLeave => Nat → String → String → String → String → String → error
  | Op.StreamUserKick => Nat → String → String → String → runtime.Presence → error
  | Op.StreamCount => Nat → String → String → String → (Int × error)
  | Op.StreamClose => Nat → String → String → String → error
  | Op.StreamSend => Nat → String → String → String → String → List runtime.Presence → Bool → error
  | Op.StreamSendRaw => Nat → String → String → String → Option rtapi.Envelope → List runtime.Presence → Bool → error
  | Op.SessionDisconnect => context.Context → String → List runtime.PresenceReason → error
  | Op.SessionLogout => String → String → String → error
  | Op.MatchCreate => context.Context → String → GoMap String AnyValue → (String × error)
  | Op.MatchGet => context.Context → String → (Option api.Match × error)
  | Op.MatchList => context.Context → Int → Bool → String → Option Int → Option Int → String → (List (Option api.Match) × error)
  | Op.NotificationSend => context.Context → String → String → GoMap String AnyValue → Int → String → Bool → error
  | Op.NotificationsSend => context.Context → List (Option runtime.NotificationSend) → error
  | Op.WalletUpdate => context.Context → String → GoMap String Int → GoMap String AnyValue → Bool → (GoMap String Int × GoMap String Int × error)
  | Op.WalletsUpdate => context.Context → List (Option runtime.WalletUpdate) → Bool → (List (Option runtime.WalletUpdateResult) × error)
  | Op.WalletLedgerUpdate => context.Context → String → GoMap String AnyValue → (runtime.WalletLedgerItem × error)
  | Op.WalletLedgerList => context.Context → String → Int → String → (List runtime.WalletLedgerItem × String × error)
  | Op.StorageList => context.Context → String → String → Int → String → (List (Option api.StorageObject) × String × error)
  | Op.StorageRead => context.Context → List (Option runtime.StorageRead) → (List (Option api.StorageObject) × error)
  | Op.StorageWrite => context.Context → List (Option runtime.StorageWrite) → (List (Option api.StorageObjectAck) × error)
  | Op.StorageDelete => context.Context → List (Option runtime.StorageDelete) → error
  | Op.MultiUpdate => context.Context → List (Option runtime.AccountUpdate) → List (Option runtime.StorageWrite) → List (Option runtime.WalletUpdate) → Bool → (List (Option api.StorageObjectAck) × List (Option runtime.WalletUpdateResult) × error)
  | Op.LeaderboardCreate => context.Context → String → Bool → String → String → String → GoMap String AnyValue → error
  | Op.LeaderboardDelete => context.Context → String → error
  | Op.LeaderboardRecordsList => context.Context → String → List String → Int → String → Int → (List (Option api.LeaderboardRecord) × List (Option api.LeaderboardRecord) × String × String × error)
  | Op.LeaderboardRecordWrite => context.Context → String → String → String → Int → Int → GoMap String AnyValue → (Option api.LeaderboardRecord × error)
  | Op.LeaderboardRecordDelete => context.Context → String → String → error
  | Op.PurchaseValidateApple => context.Context → String → String → (Option api.ValidatePurchaseResponse × error)
  | Op.PurchaseValidateGoogle => context.Context → String → String → (Option api.ValidatePurchaseResponse × error)
  | Op.PurchaseValidateHuawei => context.Context → String → String → String → (Option api.ValidatePurchaseResponse × error)
  | Op.PurchasesList => context.Context → String → Int → String → (Option api.PurchaseList × error)
  | Op.PurchaseGetByTransactionId => context.Context → String → (String × Option api.ValidatedPurchase × error)
  | Op.TournamentCreate => context.Context → String → String → String → String → GoMap String AnyValue → String → String → Int → Int → Int → Int → Int → Int → Bool → error
  | Op.TournamentDelete => context.Context → String → error
  | Op.TournamentAddAttempt => context.Context → String → String → Int → error
  | Op.TournamentJoin => context.Context → String → String → String → error
  | Op.TournamentsGetId => context.Context → List String → (List (Option api.Tournament) × error)
  | Op.TournamentList => context.Context → Int → Int → Int → Int → Int → String → (Option api.TournamentList × error)
  | Op.TournamentRecordsList => context.Context → String → List String → Int → String → Int → (List (Option api.LeaderboardRecord) × List (Option api.LeaderboardRecord) × String × String × error)
  | Op.TournamentRecordWrite => context.Context → String → String → String → Int → Int → GoMap String AnyValue → (Option api.LeaderboardRecord × error)
  | Op.TournamentRecordsHaystack => context.Context → String → String → Int → Int → (List (Option api.LeaderboardRecord) × error)
  | Op.GroupsGetId => context.Context → List String → (List (Option api.Group) × error)
  | Op.GroupCreate => context.Context → String → String → String → String → String → String → Bool → GoMap String AnyValue → Int → (Option api.Group × error)
  | Op.GroupUpdate => context.Context → String → String → String → String → String → String → Bool → GoMap String AnyValue → Int → error
  | Op.GroupDelete => context.Context → String → error
  | Op.GroupUserJoin => context.Context → String → String → String → error
  | Op.GroupUserLeave => context.Context → String → String → String → error
  | Op.GroupUsersAdd => context.Context → String → List String → error
  | Op.GroupUsersKick => context.Context → String → List String → error
  | Op.GroupUsersPromote => context.Context → String → List String → error
  | Op.GroupUsersDemote => context.Context → String → List String → error
  | Op.GroupUsersList => context.Context → String → Int → Option Int → String → (List (Option api.GroupUserList_GroupUser) × String × error)
  | Op.UserGroupsList => context.Context → String → Int → Option Int → String → (List (Option api.UserGroupList_UserGroup) × String × error)
  | Op.FriendsList => context.Context → String → Int → Option Int → String → (List (Option api.Friend) × String × error)
  | Op.Event => context.Context → Option api.Event → error

/-- The parameter tuple of the method X, in declared order. -/
@[reducible] def Op.Args : Op → Type
  | Op.AuthenticateApple => context.Context × String × String × Bool
  | Op.AuthenticateCustom => context.Context × String × String × Bool
  | Op.AuthenticateDevice => context.Context × String × String × Bool
  | Op.AuthenticateEmail => context.Context × String × String × String × Bool
  | Op.AuthenticateFacebook => context.Context × String × Bool × String × Bool
  | Op.AuthenticateFacebookInstantGame => context.Context × String × String × Bool
  | Op.AuthenticateGameCenter => context.Context × String × String × Int × String × String × String × String × Bool
  | Op.AuthenticateGoogle => context.Context × String × String × Bool
  | Op.AuthenticateSteam => context.Context × String × String × Bool
  | Op.AuthenticateTokenGenerate => String × String × Int × GoMap String String
  | Op.AccountGetId => context.Context × String
  | Op.AccountsGetId => context.Context × List String
  | Op.AccountUpdateId => context.Context × String × String × GoMap String AnyValue × String × String × String × String × String
  | Op.AccountDeleteId => context.Context × String × Bool
  | Op.AccountExportId => context.Context × String
  | Op.UsersGetId => context.Context × List String × List String
  | Op.UsersGetUsername => context.Context × List String
  | Op.UsersBanId => context.Context × List String
  | Op.UsersUnbanId => context.Context × List String
  | Op.LinkApple => context.Context × String × String
  | Op.LinkCustom => context.Context × String × String
  | Op.LinkDevice => context.Context × String × String
  | Op.LinkEmail => context.Context × String × String × String
  | Op.LinkFacebook => context.Context × String × String × String × Bool
  | Op.LinkFacebookInstantGame => context.Context × String × String
  | Op.LinkGameCenter => context.Context × String × String × String × Int × String × String × String
  | Op.LinkGoogle => context.Context × String × String
  | Op.LinkSteam => context.Context × String × String × String × Bool
  | Op.ReadFile => String
  | Op.UnlinkApple => context.Context × String × String
  | Op.UnlinkCustom => context.Context × String × String
  | Op.UnlinkDevice => context.Context × String × String
  | Op.UnlinkEmail => context.Context × String × String
  | Op.UnlinkFacebook => context.Context × String × String
  | Op.UnlinkFacebookInstantGame => context.Context × String × String
  | Op.UnlinkGameCenter => context.Context × String × String × String × Int × String × String × String
  | Op.UnlinkGoogle => context.Context × String × String
  | Op.UnlinkSteam => context.Context × String × String
  | Op.StreamUserList => Nat × String × String × String × Bool × Bool
  | Op.StreamUserGet => Nat × String × String × String × String × String
  | Op.StreamUserJoin => Nat × String × String × String × String × String × Bool × Bool × String
  | Op.StreamUserUpdate => Nat × String × String × String × String × String × Bool × Bool × String
  | Op.StreamUserLeave => Nat × String × String × String × String × String
  | Op.StreamUserKick => Nat × String × String × String × runtime.Presence
  | Op.StreamCount => Nat × String × String × String
  | Op.StreamClose => Nat × String × String × String
  | Op.StreamSend => Nat × String × String × String × String × List runtime.Presence × Bool
  | Op.StreamSendRaw => Nat × String × String × String × Option rtapi.Envelope × List runtime.Presence × Bool
  | Op.SessionDisconnect => context.Context × String × List runtime.PresenceReason
  | Op.SessionLogout => String × String × String
  | Op.MatchCreate => context.Context × String × GoMap String AnyValue
  | Op.MatchGet => context.Context × String
  | Op.MatchList => context.Context × Int × Bool × String × Option Int × Option Int × String
  | Op.NotificationSend => context.Context × String × String × GoMap String AnyValue × Int × String × Bool
  | Op.NotificationsSend => context.Context × List (Option runtime.NotificationSend)
  | Op.WalletUpdate => context.Context × String × GoMap String Int × GoMap String AnyValue × Bool
  | Op.WalletsUpdate => context.Context × List (Option runtime.WalletUpdate) × Bool
  | Op.WalletLedgerUpdate => context.Context × String × GoMap String AnyValue
  | Op.WalletLedgerList => context.Context × String × Int × String
  | Op.StorageList => context.Context × String × String × Int × String
  | Op.StorageRead => context.Context × List (Option runtime.StorageRead)
  | Op.StorageWrite => context.Context × List (Option runtime.StorageWrite)
  | Op.StorageDelete => context.Context × List (Option runtime.StorageDelete)
  | Op.MultiUpdate => context.Context × List (Option runtime.AccountUpdate) × List (Option runtime.StorageWrite) × List (Option runtime.WalletUpdate) × Bool
  | Op.LeaderboardCreate => context.Context × String × Bool × String × String × String × GoMap String AnyValue
  | Op.LeaderboardDelete => context.Context × String
  | Op.LeaderboardRecordsList => context.Context × String × List String × Int × String × Int
  | Op.LeaderboardRecordWrite => context.Context × String × String × String × Int × Int × GoMap String AnyValue
  | Op.LeaderboardRecordDelete => context.Context × String × String
  | Op.PurchaseValidateApple => context.Context × String × String
  | Op.PurchaseValidateGoogle => context.Context × String × String
  | Op.PurchaseValidateHuawei => context.Context × String × String × String
  | Op.PurchasesList => context.Context × String × Int × String
  | Op.PurchaseGetByTransactionId => context.Context × String
  | Op.TournamentCreate => context.Context × String × String × String × String × GoMap String AnyValue × String × String × Int × Int × Int × Int × Int × Int × Bool
  | Op.TournamentDelete => context.Context × String
  | Op.TournamentAddAttempt => context.Context × String × String × Int
  | Op.TournamentJoin => context.Context × String × String × String
  | Op.TournamentsGetId => context.Context × List String
  | Op.TournamentList => context.Context × Int × Int × Int × Int × Int × String
  | Op.TournamentRecordsList => context.Context × String × List String × Int × String × Int
  | Op.TournamentRecordWrite => context.Context × String × String × String × Int × Int × GoMap String AnyValue
  | Op.TournamentRecordsHaystack => context.Context × String × String × Int × Int
  | Op.GroupsGetId => context.Context × List String
  | Op.GroupCreate => context.Context × String × String × String × String × String × String × Bool × GoMap String AnyValue × Int
  | Op.GroupUpdate => context.Context × String × String × String × String × String × String × Bool × GoMap String AnyValue × Int
  | Op.GroupDelete => context.Context × String
  | Op.GroupUserJoin => context.Context × String × String × String
  | Op.GroupUserLeave => context.Context × String × String × String
  | Op.GroupUsersAdd => context.Context × String × List String
  | Op.GroupUsersKick => context.Context × String × List String
  | Op.GroupUsersPromote => context.Context × String × List String
  | Op.GroupUsersDemote => context.Context × String × List String
  | Op.GroupUsersList => context.Context × String × Int × Option Int × String
  | Op.UserGroupsList => context.Context × String × Int × Option Int × String
  | Op.FriendsList => context.Context × String × Int × Option Int × String
  | Op.Event => context.Context × Option api.Event

/-- The result tuple of the method X, in declared order. -/
@[reducible] def Op.Res : Op → Type
  | Op.AuthenticateApple => String × String × Bool × error
  | Op.AuthenticateCustom => String × String × Bool × error
  | Op.AuthenticateDevice => String × String × Bool × error
  | Op.AuthenticateEmail => String × String × Bool × error
  | Op.AuthenticateFacebook => String × String × Bool × error
  | Op.AuthenticateFacebookInstantGame => String × String × Bool × error
  | Op.AuthenticateGameCenter => String × String × Bool × error
  | Op.AuthenticateGoogle => String × String × Bool × error
  | Op.AuthenticateSteam => String × String × Bool × error
  | Op.AuthenticateTokenGenerate => String × Int × error
  | Op.AccountGetId => Option api.Account × error
  | Op.AccountsGetId => List (Option api.Account) × error
  | Op.AccountUpdateId => error
  | Op.AccountDeleteId => error
  | Op.AccountExportId => String × error
  | Op.UsersGetId => List (Option api.User) × error
  | Op.UsersGetUsername => List (Option api.User) × error
  | Op.UsersBanId => error
  | Op.UsersUnbanId => error
  | Op.LinkApple => error
  | Op.LinkCustom => error
  | Op.LinkDevice => error
  | Op.LinkEmail => error
  | Op.LinkFacebook => error
  | Op.LinkFacebookInstantGame => error
  | Op.LinkGameCenter => error
  | Op.LinkGoogle => error
  | Op.LinkSteam => error
  | Op.ReadFile => Option os.File × error
  | Op.UnlinkApple => error
  | Op.UnlinkCustom => error
  | Op.UnlinkDevice => error
  | Op.UnlinkEmail => error
  | Op.UnlinkFacebook => error
  | Op.UnlinkFacebookInstantGame => error
  | Op.UnlinkGameCenter => error
  | Op.UnlinkGoogle => error
  | Op.UnlinkSteam => error
  | Op.StreamUserList => List runtime.Presence × error
  | Op.StreamUserGet => runtime.PresenceMeta × error
  | Op.StreamUserJoin => Bool × error
  | Op.StreamUserUpdate => error
  | Op.StreamUserLeave => error
  | Op.StreamUserKick => error
  | Op.StreamCount => Int × error
  | Op.StreamClose => error
  | Op.StreamSend => error
  | Op.StreamSendRaw => error
  | Op.SessionDisconnect => error
  | Op.SessionLogout => error
  | Op.MatchCreate => String × error
  | Op.MatchGet => Option api.Match × error
  | Op.MatchList => List (Option api.Match) × error
  | Op.NotificationSend => error
  | Op.NotificationsSend => error
  | Op.WalletUpdate => GoMap String Int × GoMap String Int × error
  | Op.WalletsUpdate => List (Option runtime.WalletUpdateResult) × error
  | Op.WalletLedgerUpdate => runtime.WalletLedgerItem × error
  | Op.WalletLedgerList => List runtime.WalletLedgerItem × String × error
  | Op.StorageList => List (Option api.StorageObject) × String × error
  | Op.StorageRead => List (Option api.StorageObject) × error
  | Op.StorageWrite => List (Option api.StorageObjectAck) × error
  | Op.StorageDelete => error
  | Op.MultiUpdate => List (Option api.StorageObjectAck) × List (Option runtime.WalletUpdateResult) × error
  | Op.LeaderboardCreate => error
  | Op.LeaderboardDelete => error
  | Op.LeaderboardRecordsList => List (Option api.LeaderboardRecord) × List (Option api.LeaderboardRecord) × String × String × error
  | Op.LeaderboardRecordWrite => Option api.LeaderboardRecord × error
  | Op.LeaderboardRecordDelete => error
  | Op.PurchaseValidateApple => Option api.ValidatePurchaseResponse × error
  | Op.PurchaseValidateGoogle => Option api.ValidatePurchaseResponse × error
  | Op.PurchaseValidateHuawei => Option api.ValidatePurchaseResponse × error
  | Op.PurchasesList => Option api.PurchaseList × error
  | Op.PurchaseGetByTransactionId => String × Option api.ValidatedPurchase × error
  | Op.TournamentCreate => error
  | Op.TournamentDelete => error
  | Op.TournamentAddAttempt => error
  | Op.TournamentJoin => error
  | Op.TournamentsGetId => List (Option api.Tournament) × error
  | Op.TournamentList => Option api.TournamentList × error
  | Op.TournamentRecordsList => List (Option api.LeaderboardRecord) × List (Option api.LeaderboardRecord) × String × String × error
  | Op.TournamentRecordWrite => Option api.LeaderboardRecord × error
  | Op.TournamentRecordsHaystack => List (Option api.LeaderboardRecord) × error
  | Op.GroupsGetId => List (Option api.Group) × error
  | Op.GroupCreate => Option api.Group × error
  | Op.GroupUpdate => error
  | Op.GroupDelete => error
  | Op.GroupUserJoin => error
  | Op.GroupUserLeave => error
  | Op.GroupUsersAdd => error
  | Op.GroupUsersKick => error
  | Op.GroupUsersPromote => error
  | Op.GroupUsersDemote => error
  | Op.GroupUsersList => List (Option api.GroupUserList_GroupUser) × String × error
  | Op.UserGroupsList => List (Option api.UserGroupList_UserGroup) × String × error
  | Op.FriendsList => List (Option api.Friend) × String × error
  | Op.Event => error

/-- The value B(A): a behaviour applied to an argument tuple, component by component in the
declared order. -/
def Op.apply : (o : Op) → o.Fn → o.Args → o.Res
  | Op.AuthenticateApple, fn, (ctx, token, username, create) => fn ctx token username create
  | Op.AuthenticateCustom, fn, (ctx, id, username, create) => fn ctx id username create
  | Op.AuthenticateDevice, fn, (ctx, id, username, create) => fn ctx id username create
  | Op.AuthenticateEmail, fn, (ctx, email, password, username, create) => fn ctx email password username create
  | Op.AuthenticateFacebook, fn, (ctx, token, importFriends, username, create) => fn ctx token importFriends username create
  | Op.AuthenticateFacebookInstantGame, fn, (ctx, signedPlayerInfo, username, create) => fn ctx signedPlayerInfo username create
  | Op.AuthenticateGameCenter, fn, (ctx, playerID, bundleID, timestamp, salt, signature, publicKeyUrl, username, create) => fn ctx playerID bundleID timestamp salt signature publicKeyUrl username create
  | Op.AuthenticateGoogle, fn, (ctx, token, username, create) => fn ctx token username create
  | Op.AuthenticateSteam, fn, (ctx, token, username, create) => fn ctx token username create
  | Op.AuthenticateTokenGenerate, fn, (userID, username, exp, vars) => fn userID username exp vars
  | Op.AccountGetId, fn, (ctx, userID) => fn ctx userID
  | Op.AccountsGetId, fn, (ctx, userIDs) => fn ctx userIDs
  | Op.AccountUpdateId, fn, (ctx, userID, username, metadata, displayName, timezone, location, langTag, avatarUrl) => fn ctx userID username metadata displayName timezone location langTag avatarUrl
  | Op.AccountDeleteId, fn, (ctx, userID, recorded) => fn ctx userID recorded
  | Op.AccountExportId, fn, (ctx, userID) => fn ctx userID
  | Op.UsersGetId, fn, (ctx, userIDs, facebookIDs) => fn ctx userIDs facebookIDs
  | Op.UsersGetUsername, fn, (ctx, usernames) => fn ctx usernames
  | Op.UsersBanId, fn, (ctx, userIDs) => fn ctx userIDs
  | Op.UsersUnbanId, fn, (ctx, userIDs) => fn ctx userIDs
  | Op.LinkApple, fn, (ctx, userID, token) => fn ctx userID token
  | Op.LinkCustom, fn, (ctx, userID, customID) => fn ctx userID customID
  | Op.LinkDevice, fn, (ctx, userID, deviceID) => fn ctx userID deviceID
  | Op.LinkEmail, fn, (ctx, userID, email, password) => fn ctx userID email password
  | Op.LinkFacebook, fn, (ctx, userID, username, token, importFriends) => fn ctx userID username token importFriends
  | Op.LinkFacebookInstantGame, fn, (ctx, userID, signedPlayerInfo) => fn ctx userID signedPlayerInfo
  | Op.LinkGameCenter, fn, (ctx, userID, playerID, bundleID, timestamp, salt, signature, publicKeyUrl) => fn ctx userID playerID bundleID timestamp salt signature publicKeyUrl
  | Op.LinkGoogle, fn, (ctx, userID, token) => fn ctx userID token
  | Op.LinkSteam, fn, (ctx, userID, username, token, importFriends) => fn ctx userID username token importFriends
  | Op.ReadFile, fn, path => fn path
  | Op.UnlinkApple, fn, (ctx, userID, token) => fn ctx userID token
  | Op.UnlinkCustom, fn, (ctx, userID, customID) => fn ctx userID customID
  | Op.UnlinkDevice, fn, (ctx, userID, deviceID) => fn ctx userID deviceID
  | Op.UnlinkEmail, fn, (ctx, userID, email) => fn ctx userID email
  | Op.UnlinkFacebook, fn, (ctx, userID, token) => fn ctx userID token
  | Op.UnlinkFacebookInstantGame, fn, (ctx, userID, signedPlayerInfo) => fn ctx userID signedPlayerInfo
  | Op.UnlinkGameCenter, fn, (ctx, userID, playerID, bundleID, timestamp, salt, signature, publicKeyUrl) => fn ctx userID playerID bundleID timestamp salt signature publicKeyUrl
  | Op.UnlinkGoogle, fn, (ctx, userID, token) => fn ctx userID token
  | Op.UnlinkSteam, fn, (ctx, userID, token) => fn ctx userID token
  | Op.StreamUserList, fn, (mode, subject, subcontext, label, includeHidden, includeNotHidden) => fn mode subject subcontext label includeHidden includeNotHidden
  | Op.StreamUserGet, fn, (mode, subject, subcontext, label, userID, sessionID) => fn mode subject subcontext label userID sessionID
  | Op.StreamUserJoin, fn, (mode, subject, subcontext, label, userID, sessionID, hidden, persistence, status) => fn mode subject subcontext label userID sessionID hidden persistence status
  | Op.StreamUserUpdate, fn, (mode, subject, subcontext, label, userID, sessionID, hidden, persistence, status) => fn mode subject subcontext label userID sessionID hidden persistence status
  | Op.StreamUserLeave, fn, (mode, subject, subcontext, label, userID, sessionID) => fn mode subject subcontext label userID sessionID
  | Op.StreamUserKick, fn, (mode, subject, subcontext, label, presence) => fn mode subject subcontext label presence
  | Op.StreamCount, fn, (mode, subject, subcontext, label) => fn mode subject subcontext label
  | Op.StreamClose, fn, (mode, subject, subcontext, label) => fn mode subject subcontext label
  | Op.StreamSend, fn, (mode, subject, subcontext, label, data, presences, reliable) => fn mode subject subcontext label data presences reliable
  | Op.StreamSendRaw, fn, (mode, subject, subcontext, label, msg, presences, reliable) => fn mode subject subcontext label msg presences reliable
  | Op.SessionDisconnect, fn, (ctx, sessionID, reason) => fn ctx sessionID reason
  | Op.SessionLogout, fn, (userID, token, refreshToken) => fn userID token refreshToken
  | Op.MatchCreate, fn, (ctx, module, params) => fn ctx module params
  | Op.MatchGet, fn, (ctx, id) => fn ctx id
  | Op.MatchList, fn, (ctx, limit, authoritative, label, minSize, maxSize, query) => fn ctx limit authoritative label minSize maxSize query
  | Op.NotificationSend, fn, (ctx, userID, subject, content, code, sender, persistent) => fn ctx userID subject content code sender persistent
  | Op.NotificationsSend, fn, (ctx, notifications) => fn ctx notifications
  | Op.WalletUpdate, fn, (ctx, userID, changeset, metadata, updateLedger) => fn ctx userID changeset metadata updateLedger
  | Op.WalletsUpdate, fn, (ctx, updates, updateLedger) => fn ctx updates updateLedger
  | Op.WalletLedgerUpdate, fn, (ctx, itemID, metadata) => fn ctx itemID metadata
  | Op.WalletLedgerList, fn, (ctx, userID, limit, cursor) => fn ctx userID limit cursor
  | Op.StorageList, fn, (ctx, userID, collection, limit, cursor) => fn ctx userID collection limit cursor
  | Op.StorageRead, fn, (ctx, reads) => fn ctx reads
  | Op.StorageWrite, fn, (ctx, writes) => fn ctx writes
  | Op.StorageDelete, fn, (ctx, deletes) => fn ctx deletes
  | Op.MultiUpdate, fn, (ctx, accountUpdates, storageWrites, walletUpdates, updateLedger) => fn ctx accountUpdates storageWrites walletUpdates updateLedger
  | Op.LeaderboardCreate, fn, (ctx, id, authoritative, sortOrder, operator, resetSchedule, metadata) => fn ctx id authoritative sortOrder operator resetSchedule metadata
  | Op.LeaderboardDelete, fn, (ctx, id) => fn ctx id
  | Op.LeaderboardRecordsList, fn, (ctx, id, ownerIDs, limit, cursor, expiry) => fn ctx id ownerIDs limit cursor expiry
  | Op.LeaderboardRecordWrite, fn, (ctx, id, ownerID, username, score, subscore, metadata) => fn ctx id ownerID username score subscore metadata
  | Op.LeaderboardRecordDelete, fn, (ctx, id, ownerID) => fn ctx id ownerID
  | Op.PurchaseValidateApple, fn, (ctx, userID, receipt) => fn ctx userID receipt
  | Op.PurchaseValidateGoogle, fn, (ctx, userID, receipt) => fn ctx userID receipt
  | Op.PurchaseValidateHuawei, fn, (ctx, userID, signature, inAppPurchaseData) => fn ctx userID signature inAppPurchaseData
  | Op.PurchasesList, fn, (ctx, userID, limit, cursor) => fn ctx userID limit cursor
  | Op.PurchaseGetByTransactionId, fn, (ctx, transactionID) => fn ctx transactionID
  | Op.TournamentCreate, fn, (ctx, id, sortOrder, operator, resetSchedule, metadata, title, description, category, startTime, endTime, duration, maxSize, maxNumScore, joinRequired) => fn ctx id sortOrder operator resetSchedule metadata title description category startTime endTime duration maxSize maxNumScore joinRequired
  | Op.TournamentDelete, fn, (ctx, id) => fn ctx id
  | Op.TournamentAddAttempt, fn, (ctx, id, ownerID, count) => fn ctx id ownerID count
  | Op.TournamentJoin, fn, (ctx, id, ownerID, username) => fn ctx id ownerID username
  | Op.TournamentsGetId, fn, (ctx, tournamentIDs) => fn ctx tournamentIDs
  | Op.TournamentList, fn, (ctx, categoryStart, categoryEnd, startTime, endTime, limit, cursor) => fn ctx categoryStart categoryEnd startTime endTime limit cursor
  | Op.TournamentRecordsList, fn, (ctx, tournamentId, ownerIDs, limit, cursor, overrideExpiry) => fn ctx tournamentId ownerIDs limit cursor overrideExpiry
  | Op.TournamentRecordWrite, fn, (ctx, id, ownerID, username, score, subscore, metadata) => fn ctx id ownerID username score subscore metadata
  | Op.TournamentRecordsHaystack, fn, (ctx, id, ownerID, limit, expiry) => fn ctx id ownerID limit expiry
  | Op.GroupsGetId, fn, (ctx, groupIDs) => fn ctx groupIDs
  | Op.GroupCreate, fn, (ctx, userID, name, creatorID, langTag, description, avatarUrl, open_, metadata, maxCount) => fn ctx userID name creatorID langTag description avatarUrl open_ metadata maxCount
  | Op.GroupUpdate, fn, (ctx, id, name, creatorID, langTag, description, avatarUrl, open_, metadata, maxCount) => fn ctx id name creatorID langTag description avatarUrl open_ metadata maxCount
  | Op.GroupDelete, fn, (ctx, id) => fn ctx id
  | Op.GroupUserJoin, fn, (ctx, groupID, userID, username) => fn ctx groupID userID username
  | Op.GroupUserLeave, fn, (ctx, groupID, userID, username) => fn ctx groupID userID username
  | Op.GroupUsersAdd, fn, (ctx, groupID, userIDs) => fn ctx groupID userIDs
  | Op.GroupUsersKick, fn, (ctx, groupID, userIDs) => fn ctx groupID userIDs
  | Op.GroupUsersPromote, fn, (ctx, groupID, userIDs) => fn ctx groupID userIDs
  | Op.GroupUsersDemote, fn, (ctx, groupID, userIDs) => fn ctx groupID userIDs
  | Op.GroupUsersList, fn, (ctx, id, limit, state, cursor) => fn ctx id limit state cursor
  | Op.UserGroupsList, fn, (ctx, userID, limit, state, cursor) => fn ctx userID limit state cursor
  | Op.FriendsList, fn, (ctx, userID, limit, state, cursor) => fn ctx userID limit state cursor
  | Op.Event, fn, (ctx, evt) => fn ctx evt

/-- The slot of an operation: the field XFn of the table. -/
def MockNakamaModule.slot (nk : MockNakamaModule) : (o : Op) → Option o.Fn
  | Op.AuthenticateApple => nk.AuthenticateAppleFn
  | Op.AuthenticateCustom => nk.AuthenticateCustomFn
  | Op.AuthenticateDevice => nk.AuthenticateDeviceFn
  | Op.AuthenticateEmail => nk.AuthenticateEmailFn
  | Op.AuthenticateFacebook => nk.AuthenticateFacebookFn
  | Op.AuthenticateFacebookInstantGame => nk.AuthenticateFacebookInstantGameFn
  | Op.AuthenticateGameCenter => nk.AuthenticateGameCenterFn
  | Op.AuthenticateGoogle => nk.AuthenticateGoogleFn
  | Op.AuthenticateSteam => nk.AuthenticateSteamFn
  | Op.AuthenticateTokenGenerate => nk.AuthenticateTokenGenerateFn
  | Op.AccountGetId => nk.AccountGetIdFn
  | Op.AccountsGetId => nk.AccountsGetIdFn
  | Op.AccountUpdateId => nk.AccountUpdateIdFn
  | Op.AccountDeleteId => nk.AccountDeleteIdFn
  | Op.AccountExportId => nk.AccountExportIdFn
  | Op.UsersGetId => nk.UsersGetIdFn
  | Op.UsersGetUsername => nk.UsersGetUsernameFn
  | Op.UsersBanId => nk.UsersBanIdFn
  | Op.UsersUnbanId => nk.UsersUnbanIdFn
  | Op.LinkApple => nk.LinkAppleFn
  | Op.LinkCustom => nk.LinkCustomFn
  | Op.LinkDevice => nk.LinkDeviceFn
  | Op.LinkEmail => nk.LinkEmailFn
  | Op.LinkFacebook => nk.LinkFacebookFn
  | Op.LinkFacebookInstantGame => nk.LinkFacebookInstantGameFn
  | Op.LinkGameCenter => nk.LinkGameCenterFn
  | Op.LinkGoogle => nk.LinkGoogleFn
  | Op.LinkSteam => nk.LinkSteamFn
  | Op.ReadFile => nk.ReadFileFn
  | Op.UnlinkApple => nk.UnlinkAppleFn
  | Op.UnlinkCustom => nk.UnlinkCustomFn
  | Op.UnlinkDevice => nk.UnlinkDeviceFn
  | Op.UnlinkEmail => nk.UnlinkEmailFn
  | Op.UnlinkFacebook => nk.UnlinkFacebookFn
  | Op.UnlinkFacebookInstantGame => nk.UnlinkFacebookInstantGameFn
  | Op.UnlinkGameCenter => nk.UnlinkGameCenterFn
  | Op.UnlinkGoogle => nk.UnlinkGoogleFn
  | Op.UnlinkSteam => nk.UnlinkSteamFn
  | Op.StreamUserList => nk.StreamUserListFn
  | Op.StreamUserGet => nk.StreamUserGetFn
  | Op.StreamUserJoin => nk.StreamUserJoinFn
  | Op.StreamUserUpdate => nk.StreamUserUpdateFn
  | Op.StreamUserLeave => nk.StreamUserLeaveFn
  | Op.StreamUserKick => nk.StreamUserKickFn
  | Op.StreamCount => nk.StreamCountFn
  | Op.StreamClose => nk.StreamCloseFn
  | Op.StreamSend => nk.StreamSendFn
  | Op.StreamSendRaw => nk.StreamSendRawFn
  | Op.SessionDisconnect => nk.SessionDisconnectFn
  | Op.SessionLogout => nk.SessionLogoutFn
  | Op.MatchCreate => nk.MatchCreateFn
  | Op.MatchGet => nk.MatchGetFn
  | Op.MatchList => nk.MatchListFn
  | Op.NotificationSend => nk.NotificationSendFn
  | Op.NotificationsSend => nk.NotificationsSendFn
  | Op.WalletUpdate => nk.WalletUpdateFn
  | Op.WalletsUpdate => nk.WalletsUpdateFn
  | Op.WalletLedgerUpdate => nk.WalletLedgerUpdateFn
  | Op.WalletLedgerList => nk.WalletLedgerListFn
  | Op.StorageList => nk.StorageListFn
  | Op.StorageRead => nk.StorageReadFn
  | Op.StorageWrite => nk.StorageWriteFn
  | Op.StorageDelete => nk.StorageDeleteFn
  | Op.MultiUpdate => nk.MultiUpdateFn
  | Op.LeaderboardCreate => nk.LeaderboardCreateFn
  | Op.LeaderboardDelete => nk.LeaderboardDeleteFn
  | Op.LeaderboardRecordsList => nk.LeaderboardRecordsListFn
  | Op.LeaderboardRecordWrite => nk.LeaderboardRecordWriteFn
  | Op.LeaderboardRecordDelete => nk.LeaderboardRecordDeleteFn
  | Op.PurchaseValidateApple => nk.PurchaseValidateAppleFn
  | Op.PurchaseValidateGoogle => nk.PurchaseValidateGoogleFn
  | Op.PurchaseValidateHuawei => nk.PurchaseValidateHuaweiFn
  | Op.PurchasesList => nk.PurchasesListFn
  | Op.PurchaseGetByTransactionId => nk.PurchaseGetByTransactionIdFn
  | Op.TournamentCreate => nk.TournamentCreateFn
  | Op.TournamentDelete => nk.TournamentDeleteFn
  | Op.TournamentAddAttempt => nk.TournamentAddAttemptFn
  | Op.TournamentJoin => nk.TournamentJoinFn
  | Op.TournamentsGetId => nk.TournamentsGetIdFn
  | Op.TournamentList => nk.TournamentListFn
  | Op.TournamentRecordsList => nk.TournamentRecordsListFn
  | Op.TournamentRecordWrite => nk.TournamentRecordWriteFn
  | Op.TournamentRecordsHaystack => nk.TournamentRecordsHaystackFn
  | Op.GroupsGetId => nk.GroupsGetIdFn
  | Op.GroupCreate => nk.GroupCreateFn
  | Op.GroupUpdate => nk.GroupUpdateFn
  | Op.GroupDelete => nk.GroupDeleteFn
  | Op.GroupUserJoin => nk.GroupUserJoinFn
  | Op.GroupUserLeave => nk.GroupUserLeaveFn
  | Op.GroupUsersAdd => nk.GroupUsersAddFn
  | Op.GroupUsersKick => nk.GroupUsersKickFn
  | Op.GroupUsersPromote => nk.GroupUsersPromoteFn
  | Op.GroupUsersDemote => nk.GroupUsersDemoteFn
  | Op.GroupUsersList => nk.GroupUsersListFn
  | Op.UserGroupsList => nk.UserGroupsListFn
  | Op.FriendsList => nk.FriendsListFn
  | Op.Event => nk.EventFn

/-- Binding a slot: the Go assignment nk.XFn = fn. -/
def MockNakamaModule.bind (nk : MockNakamaModule) : (o : Op) → o.Fn → MockNakamaModule
  | Op.AuthenticateApple, fn => { nk with AuthenticateAppleFn := some fn }
  | Op.AuthenticateCustom, fn => { nk with AuthenticateCustomFn := some fn }
  | Op.AuthenticateDevice, fn => { nk with AuthenticateDeviceFn := some fn }
  | Op.AuthenticateEmail, fn => { nk with AuthenticateEmailFn := some fn }
  | Op.AuthenticateFacebook, fn => { nk with AuthenticateFacebookFn := some fn }
  | Op.AuthenticateFacebookInstantGame, fn => { nk with AuthenticateFacebookInstantGameFn := some fn }
  | Op.AuthenticateGameCenter, fn => { nk with AuthenticateGameCenterFn := some fn }
  | Op.AuthenticateGoogle, fn => { nk with AuthenticateGoogleFn := some fn }
  | Op.AuthenticateSteam, fn => { nk with AuthenticateSteamFn := some fn }
  | Op.AuthenticateTokenGenerate, fn => { nk with AuthenticateTokenGenerateFn := some fn }
  | Op.AccountGetId, fn => { nk with AccountGetIdFn := some fn }
  | Op.AccountsGetId, fn => { nk with AccountsGetIdFn := some fn }
  | Op.AccountUpdateId, fn => { nk with AccountUpdateIdFn := some fn }
  | Op.AccountDeleteId, fn => { nk with AccountDeleteIdFn := some fn }
  | Op.AccountExportId, fn => { nk with AccountExportIdFn := some fn }
  | Op.UsersGetId, fn => { nk with UsersGetIdFn := some fn }
  | Op.UsersGetUsername, fn => { nk with UsersGetUsernameFn := some fn }
  | Op.UsersBanId, fn => { nk with UsersBanIdFn := some fn }
  | Op.UsersUnbanId, fn => { nk with UsersUnbanIdFn := some fn }
  | Op.LinkApple, fn => { nk with LinkAppleFn := some fn }
  | Op.LinkCustom, fn => { nk with LinkCustomFn := some fn }
  | Op.LinkDevice, fn => { nk with LinkDeviceFn := some fn }
  | Op.LinkEmail, fn => { nk with LinkEmailFn := some fn }
  | Op.LinkFacebook, fn => { nk with LinkFacebookFn := some fn }
  | Op.LinkFacebookInstantGame, fn => { nk with LinkFacebookInstantGameFn := some fn }
  | Op.LinkGameCenter, fn => { nk with LinkGameCenterFn := some fn }
  | Op.LinkGoogle, fn => { nk with LinkGoogleFn := some fn }
  | Op.LinkSteam, fn => { nk with LinkSteamFn := some fn }
  | Op.ReadFile, fn => { nk with ReadFileFn := some fn }
  | Op.UnlinkApple, fn => { nk with UnlinkAppleFn := some fn }
  | Op.UnlinkCustom, fn => { nk with UnlinkCustomFn := some fn }
  | Op.UnlinkDevice, fn => { nk with UnlinkDeviceFn := some fn }
  | Op.UnlinkEmail, fn => { nk with UnlinkEmailFn := some fn }
  | Op.UnlinkFacebook, fn => { nk with UnlinkFacebookFn := some fn }
  | Op.UnlinkFacebookInstantGame, fn => { nk with UnlinkFacebookInstantGameFn := some fn }
  | Op.UnlinkGameCenter, fn => { nk with UnlinkGameCenterFn := some fn }
  | Op.UnlinkGoogle, fn => { nk with UnlinkGoogleFn := some fn }
  | Op.UnlinkSteam, fn => { nk with UnlinkSteamFn := some fn }
  | Op.StreamUserList, fn => { nk with StreamUserListFn := some fn }
  | Op.StreamUserGet, fn => { nk with StreamUserGetFn := some fn }
  | Op.StreamUserJoin, fn => { nk with StreamUserJoinFn := some fn }
  | Op.StreamUserUpdate, fn => { nk with StreamUserUpdateFn := some fn }
  | Op.StreamUserLeave, fn => { nk with StreamUserLeaveFn := some fn }
  | Op.StreamUserKick, fn => { nk with StreamUserKickFn := some fn }
  | Op.StreamCount, fn => { nk with StreamCountFn := some fn }
  | Op.StreamClose, fn => { nk with StreamCloseFn := some fn }
  | Op.StreamSend, fn => { nk with StreamSendFn := some fn }
  | Op.StreamSendRaw, fn => { nk with StreamSendRawFn := some fn }
  | Op.SessionDisconnect, fn => { nk with SessionDisconnectFn := some fn }
  | Op.SessionLogout, fn => { nk with SessionLogoutFn := some fn }
  | Op.MatchCreate, fn => { nk with MatchCreateFn := some fn }
  | Op.MatchGet, fn => { nk with MatchGetFn := some fn }
  | Op.MatchList, fn => { nk with MatchListFn := some fn }
  | Op.NotificationSend, fn => { nk with NotificationSendFn := some fn }
  | Op.NotificationsSend, fn => { nk with NotificationsSendFn := some fn }
  | Op.WalletUpdate, fn => { nk with WalletUpdateFn := some fn }
  | Op.WalletsUpdate, fn => { nk with WalletsUpdateFn := some fn }
  | Op.WalletLedgerUpdate, fn => { nk with WalletLedgerUpdateFn := some fn }
  | Op.WalletLedgerList, fn => { nk with WalletLedgerListFn := some fn }
  | Op.StorageList, fn => { nk with StorageListFn := some fn }
  | Op.StorageRead, fn => { nk with StorageReadFn := some fn }
  | Op.StorageWrite, fn => { nk with StorageWriteFn := some fn }
  | Op.StorageDelete, fn => { nk with StorageDeleteFn := some fn }
  | Op.MultiUpdate, fn => { nk with MultiUpdateFn := some fn }
  | Op.LeaderboardCreate, fn => { nk with LeaderboardCreateFn := some fn }
  | Op.LeaderboardDelete, fn => { nk with LeaderboardDeleteFn := some fn }
  | Op.LeaderboardRecordsList, fn => { nk with LeaderboardRecordsListFn := some fn }
  | Op.LeaderboardRecordWrite, fn => { nk with LeaderboardRecordWriteFn := some fn }
  | Op.LeaderboardRecordDelete, fn => { nk with LeaderboardRecordDeleteFn := some fn }
  | Op.PurchaseValidateApple, fn => { nk with PurchaseValidateAppleFn := some fn }
  | Op.PurchaseValidateGoogle, fn => { nk with PurchaseValidateGoogleFn := some fn }
  | Op.PurchaseValidateHuawei, fn => { nk with PurchaseValidateHuaweiFn := some fn }
  | Op.PurchasesList, fn => { nk with PurchasesListFn := some fn }
  | Op.PurchaseGetByTransactionId, fn => { nk with PurchaseGetByTransactionIdFn := some fn }
  | Op.TournamentCreate, fn => { nk with TournamentCreateFn := some fn }
  | Op.TournamentDelete, fn => { nk with TournamentDeleteFn := some fn }
  | Op.TournamentAddAttempt, fn => { nk with TournamentAddAttemptFn := some fn }
  | Op.TournamentJoin, fn => { nk with TournamentJoinFn := some fn }
  | Op.TournamentsGetId, fn => { nk with TournamentsGetIdFn := some fn }
  | Op.TournamentList, fn => { nk with TournamentListFn := some fn }
  | Op.TournamentRecordsList, fn => { nk with TournamentRecordsListFn := some fn }
  | Op.TournamentRecordWrite, fn => { nk with TournamentRecordWriteFn := some fn }
  | Op.TournamentRecordsHaystack, fn => { nk with TournamentRecordsHaystackFn := some fn }
  | Op.GroupsGetId, fn => { nk with GroupsGetIdFn := some fn }
  | Op.GroupCreate, fn => { nk with GroupCreateFn := some fn }
  | Op.GroupUpdate, fn => { nk with GroupUpdateFn := some fn }
  | Op.GroupDelete, fn => { nk with GroupDeleteFn := some fn }
  | Op.GroupUserJoin, fn => { nk with GroupUserJoinFn := some fn }
  | Op.GroupUserLeave, fn => { nk with GroupUserLeaveFn := some fn }
  | Op.GroupUsersAdd, fn => { nk with GroupUsersAddFn := some fn }
  | Op.GroupUsersKick, fn => { nk with GroupUsersKickFn := some fn }
  | Op.GroupUsersPromote, fn => { nk with GroupUsersPromoteFn := some fn }
  | Op.GroupUsersDemote, fn => { nk with GroupUsersDemoteFn := some fn }
  | Op.GroupUsersList, fn => { nk with GroupUsersListFn := some fn }
  | Op.UserGroupsList, fn => { nk with UserGroupsListFn := some fn }
  | Op.FriendsList, fn => { nk with FriendsListFn := some fn }
  | Op.Event, fn => { nk with EventFn := some fn }

/-- Constructing a table from a set of bindings, as the Go composite literal
MockNakamaModule{XFn: ..., YFn: ...} does: a listed field holds the given func value, a field
that is not listed holds the nil func value. -/
def MockNakamaModule.construct (bindings : (o : Op) → Option o.Fn) : MockNakamaModule where
  AuthenticateAppleFn := bindings Op.AuthenticateApple
  AuthenticateCustomFn := bindings Op.AuthenticateCustom
  AuthenticateDeviceFn := bindings Op.AuthenticateDevice
  AuthenticateEmailFn := bindings Op.AuthenticateEmail
  AuthenticateFacebookFn := bindings Op.AuthenticateFacebook
  AuthenticateFacebookInstantGameFn := bindings Op.AuthenticateFacebookInstantGame
  AuthenticateGameCenterFn := bindings Op.AuthenticateGameCenter
  AuthenticateGoogleFn := bindings Op.AuthenticateGoogle
  AuthenticateSteamFn := bindings Op.AuthenticateSteam
  AuthenticateTokenGenerateFn := bindings Op.AuthenticateTokenGenerate
  AccountGetIdFn := bindings Op.AccountGetId
  AccountsGetIdFn := bindings Op.AccountsGetId
  AccountUpdateIdFn := bindings Op.AccountUpdateId
  AccountDeleteIdFn := bindings Op.AccountDeleteId
  AccountExportIdFn := bindings Op.AccountExportId
  UsersGetIdFn := bindings Op.UsersGetId
  UsersGetUsernameFn := bindings Op.UsersGetUsername
  UsersBanIdFn := bindings Op.UsersBanId
  UsersUnbanIdFn := bindings Op.UsersUnbanId
  LinkAppleFn := bindings Op.LinkApple
  LinkCustomFn := bindings Op.LinkCustom
  LinkDeviceFn := bindings Op.LinkDevice
  LinkEmailFn := bindings Op.LinkEmail
  LinkFacebookFn := bindings Op.LinkFacebook
  LinkFacebookInstantGameFn := bindings Op.LinkFacebookInstantGame
  LinkGameCenterFn := bindings Op.LinkGameCenter
  LinkGoogleFn := bindings Op.LinkGoogle
  LinkSteamFn := bindings Op.LinkSteam
  ReadFileFn := bindings Op.ReadFile
  UnlinkAppleFn := bindings Op.UnlinkApple
  UnlinkCustomFn := bindings Op.UnlinkCustom
  UnlinkDeviceFn := bindings Op.UnlinkDevice
  UnlinkEmailFn := bindings Op.UnlinkEmail
  UnlinkFacebookFn := bindings Op.UnlinkFacebook
  UnlinkFacebookInstantGameFn := bindings Op.UnlinkFacebookInstantGame
  UnlinkGameCenterFn := bindings Op.UnlinkGameCenter
  UnlinkGoogleFn := bindings Op.UnlinkGoogle
  UnlinkSteamFn := bindings Op.UnlinkSteam
  StreamUserListFn := bindings Op.StreamUserList
  StreamUserGetFn := bindings Op.StreamUserGet
  StreamUserJoinFn := bindings Op.StreamUserJoin
  StreamUserUpdateFn := bindings Op.StreamUserUpdate
  StreamUserLeaveFn := bindings Op.StreamUserLeave
  StreamUserKickFn := bindings Op.StreamUserKick
  StreamCountFn := bindings Op.StreamCount
  StreamCloseFn := bindings Op.StreamClose
  StreamSendFn := bindings Op.StreamSend
  StreamSendRawFn := bindings Op.StreamSendRaw
  SessionDisconnectFn := bindings Op.SessionDisconnect
  SessionLogoutFn := bindings Op.SessionLogout
  MatchCreateFn := bindings Op.MatchCreate
  MatchGetFn := bindings Op.MatchGet
  MatchListFn := bindings Op.MatchList
  NotificationSendFn := bindings Op.NotificationSend
  NotificationsSendFn := bindings Op.NotificationsSend
  WalletUpdateFn := bindings Op.WalletUpdate
  WalletsUpdateFn := bindings Op.WalletsUpdate
  WalletLedgerUpdateFn := bindings Op.WalletLedgerUpdate
  WalletLedgerListFn := bindings Op.WalletLedgerList
  StorageListFn := bindings Op.StorageList
  StorageReadFn := bindings Op.StorageRead
  StorageWriteFn := bindings Op.StorageWrite
  StorageDeleteFn := bindings Op.StorageDelete
  MultiUpdateFn := bindings Op.MultiUpdate
  LeaderboardCreateFn := bindings Op.LeaderboardCreate
  LeaderboardDeleteFn := bindings Op.LeaderboardDelete
  LeaderboardRecordsListFn := bindings Op.LeaderboardRecordsList
  LeaderboardRecordWriteFn := bindings Op.LeaderboardRecordWrite
  LeaderboardRecordDeleteFn := bindings Op.LeaderboardRecordDelete
  PurchaseValidateAppleFn := bindings Op.PurchaseValidateApple
  PurchaseValidateGoogleFn := bindings Op.PurchaseValidateGoogle
  PurchaseValidateHuaweiFn := bindings Op.PurchaseValidateHuawei
  PurchasesListFn := bindings Op.PurchasesList
  PurchaseGetByTransactionIdFn := bindings Op.PurchaseGetByTransactionId
  TournamentCreateFn := bindings Op.TournamentCreate
  TournamentDeleteFn := bindings Op.TournamentDelete
  TournamentAddAttemptFn := bindings Op.TournamentAddAttempt
  TournamentJoinFn := bindings Op.TournamentJoin
  TournamentsGetIdFn := bindings Op.TournamentsGetId
  TournamentListFn := bindings Op.TournamentList
  TournamentRecordsListFn := bindings Op.TournamentRecordsList
  TournamentRecordWriteFn := bindings Op.TournamentRecordWrite
  TournamentRecordsHaystackFn := bindings Op.TournamentRecordsHaystack
  GroupsGetIdFn := bindings Op.GroupsGetId
  GroupCreateFn := bindings Op.GroupCreate
  GroupUpdateFn := bindings Op.GroupUpdate
  GroupDeleteFn := bindings Op.GroupDelete
  GroupUserJoinFn := bindings Op.GroupUserJoin
  GroupUserLeaveFn := bindings Op.GroupUserLeave
  GroupUsersAddFn := bindings Op.GroupUsersAdd
  GroupUsersKickFn := bindings Op.GroupUsersKick
  GroupUsersPromoteFn := bindings Op.GroupUsersPromote
  GroupUsersDemoteFn := bindings Op.GroupUsersDemote
  GroupUsersListFn := bindings Op.GroupUsersList
  UserGroupsListFn := bindings Op.UserGroupsList
  FriendsListFn := bindings Op.FriendsList
  EventFn := bindings Op.Event

/-- The table with zero bindings, the Go literal MockNakamaModule{}. -/
def MockNakamaModule.empty : MockNakamaModule := {}

/-- Binding the operations of a list one after the other, each to the behaviour that an
assignment gives for it. -/
def MockNakamaModule.bindAll (behaviour : (o : Op) → o.Fn) (order : List Op) (nk : MockNakamaModule) :
    MockNakamaModule :=
  order.foldl (fun t o => t.bind o (behaviour o)) nk

/-- Invoking the method of an operation on an argument tuple. The budget is used by the one
method that calls itself. -/
def MockNakamaModule.invoke (fuel : Nat) (nk : MockNakamaModule) : (o : Op) → o.Args → Outcome o.Res
  | Op.AuthenticateApple, (ctx, token, username, create) => MockNakamaModule.AuthenticateApple nk ctx token username create
  | Op.AuthenticateCustom, (ctx, id, username, create) => MockNakamaModule.AuthenticateCustom nk ctx id username create
  | Op.AuthenticateDevice, (ctx, id, username, create) => MockNakamaModule.AuthenticateDevice nk ctx id username create
  | Op.AuthenticateEmail, (ctx, email, password, username, create) => MockNakamaModule.AuthenticateEmail nk ctx email password username create
  | Op.AuthenticateFacebook, (ctx, token, importFriends, username, create) => MockNakamaModule.AuthenticateFacebook nk ctx token importFriends username create
  | Op.AuthenticateFacebookInstantGame, (ctx, signedPlayerInfo, username, create) => MockNakamaModule.AuthenticateFacebookInstantGame nk ctx signedPlayerInfo username create
  | Op.AuthenticateGameCenter, (ctx, playerID, bundleID, timestamp, salt, signature, publicKeyUrl, username, create) => MockNakamaModule.AuthenticateGameCenter nk ctx playerID bundleID timestamp salt signature publicKeyUrl username create
  | Op.AuthenticateGoogle, (ctx, token, username, create) => MockNakamaModule.AuthenticateGoogle nk ctx token username create
  | Op.AuthenticateSteam, (ctx, token, username, create) => MockNakamaModule.AuthenticateSteam nk ctx token username create
  | Op.AuthenticateTokenGenerate, (userID, username, exp, vars) => MockNakamaModule.AuthenticateTokenGenerate nk userID username exp vars
  | Op.AccountGetId, (ctx, userID) => MockNakamaModule.AccountGetId nk ctx userID
  | Op.AccountsGetId, (ctx, userIDs) => MockNakamaModule.AccountsGetId nk ctx userIDs
  | Op.AccountUpdateId, (ctx, userID, username, metadata, displayName, timezone, location, langTag, avatarUrl) => MockNakamaModule.AccountUpdateId nk ctx userID username metadata displayName timezone location langTag avatarUrl
  | Op.AccountDeleteId, (ctx, userID, recorded) => MockNakamaModule.AccountDeleteId nk ctx userID recorded
  | Op.AccountExportId, (ctx, userID) => MockNakamaModule.AccountExportId nk ctx userID
  | Op.UsersGetId, (ctx, userIDs, facebookIDs) => MockNakamaModule.UsersGetId nk ctx userIDs facebookIDs
  | Op.UsersGetUsername, (ctx, usernames) => MockNakamaModule.UsersGetUsername nk ctx usernames
  | Op.UsersBanId, (ctx, userIDs) => MockNakamaModule.UsersBanId nk ctx userIDs
  | Op.UsersUnbanId, (ctx, userIDs) => MockNakamaModule.UsersUnbanId nk ctx userIDs
  | Op.LinkApple, (ctx, userID, token) => MockNakamaModule.LinkApple nk ctx userID token
  | Op.LinkCustom, (ctx, userID, customID) => MockNakamaModule.LinkCustom nk ctx userID customID
  | Op.LinkDevice, (ctx, userID, deviceID) => MockNakamaModule.LinkDevice nk ctx userID deviceID
  | Op.LinkEmail, (ctx, userID, email, password) => MockNakamaModule.LinkEmail nk ctx userID email password
  | Op.LinkFacebook, (ctx, userID, username, token, importFriends) => MockNakamaModule.LinkFacebook nk ctx userID username token importFriends
  | Op.LinkFacebookInstantGame, (ctx, userID, signedPlayerInfo) => MockNakamaModule.LinkFacebookInstantGame nk ctx userID signedPlayerInfo
  | Op.LinkGameCenter, (ctx, userID, playerID, bundleID, timestamp, salt, signature, publicKeyUrl) => MockNakamaModule.LinkGameCenter nk ctx userID playerID bundleID timestamp salt signature publicKeyUrl
  | Op.LinkGoogle, (ctx, userID, token) => MockNakamaModule.LinkGoogle nk ctx userID token
  | Op.LinkSteam, (ctx, userID, username, token, importFriends) => MockNakamaModule.LinkSteam nk ctx userID username token importFriends
  | Op.ReadFile, path => MockNakamaModule.ReadFile nk path
  | Op.UnlinkApple, (ctx, userID, token) => MockNakamaModule.UnlinkApple nk ctx userID token
  | Op.UnlinkCustom, (ctx, userID, customID) => MockNakamaModule.UnlinkCustom nk ctx userID customID
  | Op.UnlinkDevice, (ctx, userID, deviceID) => MockNakamaModule.UnlinkDevice nk ctx userID deviceID
  | Op.UnlinkEmail, (ctx, userID, email) => MockNakamaModule.UnlinkEmail nk ctx userID email
  | Op.UnlinkFacebook, (ctx, userID, token) => MockNakamaModule.UnlinkFacebook nk ctx userID token
  | Op.UnlinkFacebookInstantGame, (ctx, userID, signedPlayerInfo) => MockNakamaModule.UnlinkFacebookInstantGame nk ctx userID signedPlayerInfo
  | Op.UnlinkGameCenter, (ctx, userID, playerID, bundleID, timestamp, salt, signature, publicKeyUrl) => MockNakamaModule.UnlinkGameCenter nk ctx userID playerID bundleID timestamp salt signature publicKeyUrl
  | Op.UnlinkGoogle, (ctx, userID, token) => MockNakamaModule.UnlinkGoogle nk ctx userID token
  | Op.UnlinkSteam, (ctx, userID, token) => MockNakamaModule.UnlinkSteam nk ctx userID token
  | Op.StreamUserList, (mode, subject, subcontext, label, includeHidden, includeNotHidden) => MockNakamaModule.StreamUserList nk mode subject subcontext label includeHidden includeNotHidden
  | Op.StreamUserGet, (mode, subject, subcontext, label, userID, sessionID) => MockNakamaModule.StreamUserGet nk mode subject subcontext label userID sessionID
  | Op.StreamUserJoin, (mode, subject, subcontext, label, userID, sessionID, hidden, persistence, status) => MockNakamaModule.StreamUserJoin nk mode subject subcontext label userID sessionID hidden persistence status
  | Op.StreamUserUpdate, (mode, subject, subcontext, label, userID, sessionID, hidden, persistence, status) => MockNakamaModule.StreamUserUpdate nk mode subject subcontext label userID sessionID hidden persistence status
  | Op.StreamUserLeave, (mode, subject, subcontext, label, userID, sessionID) => MockNakamaModule.StreamUserLeave nk mode subject subcontext label userID sessionID
  | Op.StreamUserKick, (mode, subject, subcontext, label, presence) => MockNakamaModule.StreamUserKick nk mode subject subcontext label presence
  | Op.StreamCount, (mode, subject, subcontext, label) => MockNakamaModule.StreamCount nk mode subject subcontext label
  | Op.StreamClose, (mode, subject, subcontext, label) => MockNakamaModule.StreamClose nk mode subject subcontext label
  | Op.StreamSend, (mode, subject, subcontext, label, data, presences, reliable) => MockNakamaModule.StreamSend nk mode subject subcontext label data presences reliable
  | Op.StreamSendRaw, (mode, subject, subcontext, label, msg, presences, reliable) => MockNakamaModule.StreamSendRaw nk mode subject subcontext label msg presences reliable
  | Op.SessionDisconnect, (ctx, sessionID, reason) => MockNakamaModule.SessionDisconnect nk ctx sessionID reason
  | Op.SessionLogout, (userID, token, refreshToken) => MockNakamaModule.SessionLogout nk userID token refreshToken
  | Op.MatchCreate, (ctx, module, params) => MockNakamaModule.MatchCreate nk ctx module params
  | Op.MatchGet, (ctx, id) => MockNakamaModule.MatchGet nk ctx id
  | Op.MatchList, (ctx, limit, authoritative, label, minSize, maxSize, query) => MockNakamaModule.MatchList nk ctx limit authoritative label minSize maxSize query
  | Op.NotificationSend, (ctx, userID, subject, content, code, sender, persistent) => MockNakamaModule.NotificationSend nk ctx userID subject content code sender persistent
  | Op.NotificationsSend, (ctx, notifications) => MockNakamaModule.NotificationsSend nk ctx notifications
  | Op.WalletUpdate, (ctx, userID, changeset, metadata, updateLedger) => MockNakamaModule.WalletUpdate nk ctx userID changeset metadata updateLedger
  | Op.WalletsUpdate, (ctx, updates, updateLedger) => MockNakamaModule.WalletsUpdate nk ctx updates updateLedger
  | Op.WalletLedgerUpdate, (ctx, itemID, metadata) => MockNakamaModule.WalletLedgerUpdate nk ctx itemID metadata
  | Op.WalletLedgerList, (ctx, userID, limit, cursor) => MockNakamaModule.WalletLedgerList nk ctx userID limit cursor
  | Op.StorageList, (ctx, userID, collection, limit, cursor) => MockNakamaModule.StorageList nk ctx userID collection limit cursor
  | Op.StorageRead, (ctx, reads) => MockNakamaModule.StorageRead nk ctx reads
  | Op.StorageWrite, (ctx, writes) => MockNakamaModule.StorageWrite nk ctx writes
  | Op.StorageDelete, (ctx, deletes) => MockNakamaModule.StorageDelete nk ctx deletes
  | Op.MultiUpdate, (ctx, accountUpdates, storageWrites, walletUpdates, updateLedger) => MockNakamaModule.MultiUpdate nk ctx accountUpdates storageWrites walletUpdates updateLedger
  | Op.LeaderboardCreate, (ctx, id, authoritative, sortOrder, operator, resetSchedule, metadata) => MockNakamaModule.LeaderboardCreate nk ctx id authoritative sortOrder operator resetSchedule metadata
  | Op.LeaderboardDelete, (ctx, id) => MockNakamaModule.LeaderboardDelete nk ctx id
  | Op.LeaderboardRecordsList, (ctx, id, ownerIDs, limit, cursor, expiry) => MockNakamaModule.LeaderboardRecordsList nk ctx id ownerIDs limit cursor expiry
  | Op.LeaderboardRecordWrite, (ctx, id, ownerID, username, score, subscore, metadata) => MockNakamaModule.LeaderboardRecordWrite nk ctx id ownerID username score subscore metadata
  | Op.LeaderboardRecordDelete, (ctx, id, ownerID) => MockNakamaModule.LeaderboardRecordDelete nk ctx id ownerID
  | Op.PurchaseValidateApple, (ctx, userID, receipt) => MockNakamaModule.PurchaseValidateApple nk ctx userID receipt
  | Op.PurchaseValidateGoogle, (ctx, userID, receipt) => MockNakamaModule.PurchaseValidateGoogle nk ctx userID receipt
  | Op.PurchaseValidateHuawei, (ctx, userID, signature, inAppPurchaseData) => MockNakamaModule.PurchaseValidateHuawei nk ctx userID signature inAppPurchaseData
  | Op.PurchasesList, (ctx, userID, limit, cursor) => MockNakamaModule.PurchasesList nk ctx userID limit cursor
  | Op.PurchaseGetByTransactionId, (ctx, transactionID) => MockNakamaModule.PurchaseGetByTransactionId nk ctx transactionID
  | Op.TournamentCreate, (ctx, id, sortOrder, operator, resetSchedule, metadata, title, description, category, startTime, endTime, duration, maxSize, maxNumScore, joinRequired) => MockNakamaModule.TournamentCreate nk ctx id sortOrder operator resetSchedule metadata title description category startTime endTime duration maxSize maxNumScore joinRequired
  | Op.TournamentDelete, (ctx, id) => MockNakamaModule.TournamentDelete nk ctx id
  | Op.TournamentAddAttempt, (ctx, id, ownerID, count) => MockNakamaModule.TournamentAddAttempt nk ctx id ownerID count
  | Op.TournamentJoin, (ctx, id, ownerID, username) => MockNakamaModule.TournamentJoin nk ctx id ownerID username
  | Op.TournamentsGetId, (ctx, tournamentIDs) => MockNakamaModule.TournamentsGetId nk ctx tournamentIDs
  | Op.TournamentList, (ctx, categoryStart, categoryEnd, startTime, endTime, limit, cursor) => MockNakamaModule.TournamentList nk ctx categoryStart categoryEnd startTime endTime limit cursor
  | Op.TournamentRecordsList, (ctx, tournamentId, ownerIDs, limit, cursor, overrideExpiry) => MockNakamaModule.TournamentRecordsList nk ctx tournamentId ownerIDs limit cursor overrideExpiry
  | Op.TournamentRecordWrite, (ctx, id, ownerID, username, score, subscore, metadata) => MockNakamaModule.TournamentRecordWrite nk ctx id ownerID username score subscore metadata
  | Op.TournamentRecordsHaystack, (ctx, id, ownerID, limit, expiry) => MockNakamaModule.TournamentRecordsHaystack nk ctx id ownerID limit expiry
  | Op.GroupsGetId, (ctx, groupIDs) => MockNakamaModule.GroupsGetId nk ctx groupIDs
  | Op.GroupCreate, (ctx, userID, name, creatorID, langTag, description, avatarUrl, open_, metadata, maxCount) => MockNakamaModule.GroupCreate nk ctx userID name creatorID langTag description avatarUrl open_ metadata maxCount
  | Op.GroupUpdate, (ctx, id, name, creatorID, langTag, description, avatarUrl, open_, metadata, maxCount) => MockNakamaModule.GroupUpdate nk ctx id name creatorID langTag description avatarUrl open_ metadata maxCount
  | Op.GroupDelete, (ctx, id) => MockNakamaModule.GroupDelete nk ctx id
  | Op.GroupUserJoin, (ctx, groupID, userID, username) => MockNakamaModule.GroupUserJoin nk ctx groupID userID username
  | Op.GroupUserLeave, (ctx, groupID, userID, username) => MockNakamaModule.GroupUserLeave nk ctx groupID userID username
  | Op.GroupUsersAdd, (ctx, groupID, userIDs) => MockNakamaModule.GroupUsersAdd nk ctx groupID userIDs
  | Op.GroupUsersKick, (ctx, groupID, userIDs) => MockNakamaModule.GroupUsersKick nk ctx groupID userIDs
  | Op.GroupUsersPromote, (ctx, groupID, userIDs) => MockNakamaModule.GroupUsersPromote nk ctx groupID userIDs
  | Op.GroupUsersDemote, (ctx, groupID, userIDs) => MockNakamaModule.GroupUsersDemote nk ctx groupID userIDs
  | Op.GroupUsersList, (ctx, id, limit, state, cursor) => MockNakamaModule.GroupUsersList nk ctx id limit state cursor
  | Op.UserGroupsList, (ctx, userID, limit, state, cursor) => MockNakamaModule.UserGroupsList nk ctx userID limit state cursor
  | Op.FriendsList, (ctx, userID, limit, state, cursor) => MockNakamaModule.FriendsList nk ctx userID limit state cursor
  | Op.Event, (ctx, evt) => MockNakamaModule.Event fuel nk ctx evt

/-- The behaviour that ignores its arguments and returns the zero value of every result. -/
def Op.zeroFn : (o : Op) → o.Fn
  | Op.AuthenticateApple => fun _ _ _ _ => default
  | Op.AuthenticateCustom => fun _ _ _ _ => default
  | Op.AuthenticateDevice => fun _ _ _ _ => default
  | Op.AuthenticateEmail => fun _ _ _ _ _ => default
  | Op.AuthenticateFacebook => fun _ _ _ _ _ => default
  | Op.AuthenticateFacebookInstantGame => fun _ _ _ _ => default
  | Op.AuthenticateGameCenter => fun _ _ _ _ _ _ _ _ _ => default
  | Op.AuthenticateGoogle => fun _ _ _ _ => default
  | Op.AuthenticateSteam => fun _ _ _ _ => default
  | Op.AuthenticateTokenGenerate => fun _ _ _ _ => default
  | Op.AccountGetId => fun _ _ => default
  | Op.AccountsGetId => fun _ _ => default
  | Op.AccountUpdateId => fun _ _ _ _ _ _ _ _ _ => default
  | Op.AccountDeleteId => fun _ _ _ => default
  | Op.AccountExportId => fun _ _ => default
  | Op.UsersGetId => fun _ _ _ => default
  | Op.UsersGetUsername => fun _ _ => default
  | Op.UsersBanId => fun _ _ => default
  | Op.UsersUnbanId => fun _ _ => default
  | Op.LinkApple => fun _ _ _ => default
  | Op.LinkCustom => fun _ _ _ => default
  | Op.LinkDevice => fun _ _ _ => default
  | Op.LinkEmail => fun _ _ _ _ => default
  | Op.LinkFacebook => fun _ _ _ _ _ => default
  | Op.LinkFacebookInstantGame => fun _ _ _ => default
  | Op.LinkGameCenter => fun _ _ _ _ _ _ _ _ => default
  | Op.LinkGoogle => fun _ _ _ => default
  | Op.LinkSteam => fun _ _ _ _ _ => default
  | Op.ReadFile => fun _ => default
  | Op.UnlinkApple => fun _ _ _ => default
  | Op.UnlinkCustom => fun _ _ _ => default
  | Op.UnlinkDevice => fun _ _ _ => default
  | Op.UnlinkEmail => fun _ _ _ => default
  | Op.UnlinkFacebook => fun _ _ _ => default
  | Op.UnlinkFacebookInstantGame => fun _ _ _ => default
  | Op.UnlinkGameCenter => fun _ _ _ _ _ _ _ _ => default
  | Op.UnlinkGoogle => fun _ _ _ => default
  | Op.UnlinkSteam => fun _ _ _ => default
  | Op.StreamUserList => fun _ _ _ _ _ _ => default
  | Op.StreamUserGet => fun _ _ _ _ _ _ => default
  | Op.StreamUserJoin => fun _ _ _ _ _ _ _ _ _ => default
  | Op.StreamUserUpdate => fun _ _ _ _ _ _ _ _ _ => default
  | Op.StreamUserLeave => fun _ _ _ _ _ _ => default
  | Op.StreamUserKick => fun _ _ _ _ _ => default
  | Op.StreamCount => fun _ _ _ _ => default
  | Op.StreamClose => fun _ _ _ _ => default
  | Op.StreamSend => fun _ _ _ _ _ _ _ => default
  | Op.StreamSendRaw => fun _ _ _ _ _ _ _ => default
  | Op.SessionDisconnect => fun _ _ _ => default
  | Op.SessionLogout => fun _ _ _ => default
  | Op.MatchCreate => fun _ _ _ => default
  | Op.MatchGet => fun _ _ => default
  | Op.MatchList => fun _ _ _ _ _ _ _ => default
  | Op.NotificationSend => fun _ _ _ _ _ _ _ => default
  | Op.NotificationsSend => fun _ _ => default
  | Op.WalletUpdate => fun _ _ _ _ _ => default
  | Op.WalletsUpdate => fun _ _ _ => default
  | Op.WalletLedgerUpdate => fun _ _ _ => default
  | Op.WalletLedgerList => fun _ _ _ _ => default
  | Op.StorageList => fun _ _ _ _ _ => default
  | Op.StorageRead => fun _ _ => default
  | Op.StorageWrite => fun _ _ => default
  | Op.StorageDelete => fun _ _ => default
  | Op.MultiUpdate => fun _ _ _ _ _ => default
  | Op.LeaderboardCreate => fun _ _ _ _ _ _ _ => default
  | Op.LeaderboardDelete => fun _ _ => default
  | Op.LeaderboardRecordsList => fun _ _ _ _ _ _ => default
  | Op.LeaderboardRecordWrite => fun _ _ _ _ _ _ _ => default
  | Op.LeaderboardRecordDelete => fun _ _ _ => default
  | Op.PurchaseValidateApple => fun _ _ _ => default
  | Op.PurchaseValidateGoogle => fun _ _ _ => default
  | Op.PurchaseValidateHuawei => fun _ _ _ _ => default
  | Op.PurchasesList => fun _ _ _ _ => default
  | Op.PurchaseGetByTransactionId => fun _ _ => default
  | Op.TournamentCreate => fun _ _ _ _ _ _ _ _ _ _ _ _ _ _ _ => default
  | Op.TournamentDelete => fun _ _ => default
  | Op.TournamentAddAttempt => fun _ _ _ _ => default
  | Op.TournamentJoin => fun _ _ _ _ => default
  | Op.TournamentsGetId => fun _ _ => default
  | Op.TournamentList => fun _ _ _ _ _ _ _ => default
  | Op.TournamentRecordsList => fun _ _ _ _ _ _ => default
  | Op.TournamentRecordWrite => fun _ _ _ _ _ _ _ => default
  | Op.TournamentRecordsHaystack => fun _ _ _ _ _ => default
  | Op.GroupsGetId => fun _ _ => default
  | Op.GroupCreate => fun _ _ _ _ _ _ _ _ _ _ => default
  | Op.GroupUpdate => fun _ _ _ _ _ _ _ _ _ _ => default
  | Op.GroupDelete => fun _ _ => default
  | Op.GroupUserJoin => fun _ _ _ _ => default
  | Op.GroupUserLeave => fun _ _ _ _ => default
  | Op.GroupUsersAdd => fun _ _ _ => default
  | Op.GroupUsersKick => fun _ _ _ => default
  | Op.GroupUsersPromote => fun _ _ _ => default
  | Op.GroupUsersDemote => fun _ _ _ => default
  | Op.GroupUsersList => fun _ _ _ _ _ => default
  | Op.UserGroupsList => fun _ _ _ _ _ => default
  | Op.FriendsList => fun _ _ _ _ _ => default
  | Op.Event => fun _ _ => default

/-! ## Tables and values used in the statements -/

/-- The wallet behaviour of the documentation example (source lines 37 to 39): it returns the
map with the one entry gems = 10, the nil map and the nil error. -/
def walletGemsFn : context.Context → String → GoMap String Int → GoMap String AnyValue → Bool →
    (GoMap String Int × GoMap String Int × error) :=
  fun _ctx _userID _changeset _metadata _updateLedger => (some [("gems", 10)], none, none)

/-- The purchase behaviour of the documentation example (source lines 32 to 36): it returns a
response whose list of validated purchases holds one purchase, and the nil error. -/
def purchaseAppleFn : context.Context → String → String →
    (Option api.ValidatePurchaseResponse × error) :=
  fun _ctx _userID _receipt =>
    (some { ValidatedPurchases := [some { ProductId := "my-test-product-id" }] }, none)

/-- The table of the documentation example (source lines 31 to 40). -/
def mockNkModule : MockNakamaModule :=
  { PurchaseValidateAppleFn := some purchaseAppleFn
    WalletUpdateFn := some walletGemsFn }

/-- A table on which only WalletUpdateFn is bound. -/
def onlyWalletUpdate : MockNakamaModule :=
  { WalletUpdateFn := some walletGemsFn }

/-- A failure identifies an operation when its text contains the name of the operation. -/
def Panic.identifies (p : Panic) (o : Op) : Prop :=
  o.name.toList <:+: p.message.toList

/-- An outcome is a configuration error for an operation when the call failed with a failure
that identifies the operation. -/
def Outcome.isConfigurationErrorFor {ρ : Type} (out : Outcome ρ) (o : Op) : Prop :=
  ∃ p, out = Outcome.panicked p ∧ p.identifies o

/-- An Event behaviour that reports a failure. -/
def eventRejectFn : context.Context → Option api.Event → error :=
  fun _ctx _evt => some "event rejected"

/-- An Event behaviour that reports success. -/
def eventAcceptFn : context.Context → Option api.Event → error :=
  fun _ctx _evt => none

/-- A table on which only EventFn is bound. -/
def onlyEvent : MockNakamaModule :=
  { EventFn := some eventRejectFn }

/-- A SessionDisconnect behaviour that reports how many reasons it received. -/
def countReasonsFn : context.Context → String → List runtime.PresenceReason → error :=
  fun _ctx _sessionID reason => some (toString reason.length)

/-- A records behaviour with five pairwise different results. -/
def recordsFn : context.Context → String → List String → Int → String → Int →
    (List (Option api.LeaderboardRecord) × List (Option api.LeaderboardRecord) × String × String × error) :=
  fun _ctx _id _ownerIDs _limit _cursor _expiry =>
    ([some ⟨1⟩], [some ⟨2⟩], "next", "prev", some "failed")

/-- A MultiUpdate behaviour with three pairwise different results. -/
def multiUpdateFn : context.Context → List (Option runtime.AccountUpdate) →
    List (Option runtime.StorageWrite) → List (Option runtime.WalletUpdate) → Bool →
    (List (Option api.StorageObjectAck) × List (Option runtime.WalletUpdateResult) × error) :=
  fun _ctx _accountUpdates _storageWrites _walletUpdates _updateLedger =>
    ([some ⟨1⟩], [some ⟨2⟩, some ⟨3⟩], some "failed")

/-- A table on which the three operations with several results are bound. -/
def recordsTable : MockNakamaModule :=
  { LeaderboardRecordsListFn := some recordsFn
    TournamentRecordsListFn := some recordsFn
    MultiUpdateFn := some multiUpdateFn }

/-- The names of the fields of the struct, in source order (lines 44 to 140). -/
def MockNakamaModule.fieldNames : List String :=
  ["AuthenticateAppleFn", "AuthenticateCustomFn", "AuthenticateDeviceFn", "AuthenticateEmailFn",
   "AuthenticateFacebookFn", "AuthenticateFacebookInstantGameFn", "AuthenticateGameCenterFn", "AuthenticateGoogleFn",
   "AuthenticateSteamFn", "AuthenticateTokenGenerateFn", "AccountGetIdFn", "AccountsGetIdFn",
   "AccountUpdateIdFn", "AccountDeleteIdFn", "AccountExportIdFn", "UsersGetIdFn",
   "UsersGetUsernameFn", "UsersBanIdFn", "UsersUnbanIdFn", "LinkAppleFn",
   "LinkCustomFn", "LinkDeviceFn", "LinkEmailFn", "LinkFacebookFn",
   "LinkFacebookInstantGameFn", "LinkGameCenterFn", "LinkGoogleFn", "LinkSteamFn",
   "ReadFileFn", "UnlinkAppleFn", "UnlinkCustomFn", "UnlinkDeviceFn",
   "UnlinkEmailFn", "UnlinkFacebookFn", "UnlinkFacebookInstantGameFn", "UnlinkGameCenterFn",
   "UnlinkGoogleFn", "UnlinkSteamFn", "StreamUserListFn", "StreamUserGetFn",
   "StreamUserJoinFn", "StreamUserUpdateFn", "StreamUserLeaveFn", "StreamUserKickFn",
   "StreamCountFn", "StreamCloseFn", "StreamSendFn", "StreamSendRawFn",
   "SessionDisconnectFn", "SessionLogoutFn", "MatchCreateFn", "MatchGetFn",
   "MatchListFn", "NotificationSendFn", "NotificationsSendFn", "WalletUpdateFn",
   "WalletsUpdateFn", "WalletLedgerUpdateFn", "WalletLedgerListFn", "StorageListFn",
   "StorageReadFn", "StorageWriteFn", "StorageDeleteFn", "MultiUpdateFn",
   "LeaderboardCreateFn", "LeaderboardDeleteFn", "LeaderboardRecordsListFn", "LeaderboardRecordWriteFn",
   "LeaderboardRecordDeleteFn", "PurchaseValidateAppleFn", "PurchaseValidateGoogleFn", "PurchaseValidateHuaweiFn",
   "PurchasesListFn", "PurchaseGetByTransactionIdFn", "TournamentCreateFn", "TournamentDeleteFn",
   "TournamentAddAttemptFn", "TournamentJoinFn", "TournamentsGetIdFn", "TournamentListFn",
   "TournamentRecordsListFn", "TournamentRecordWriteFn", "TournamentRecordsHaystackFn", "GroupsGetIdFn",
   "GroupCreateFn", "GroupUpdateFn", "GroupDeleteFn", "GroupUserJoinFn",
   "GroupUserLeaveFn", "GroupUsersAddFn", "GroupUsersKickFn", "GroupUsersPromoteFn",
   "GroupUsersDemoteFn", "GroupUsersListFn", "UserGroupsListFn", "FriendsListFn",
   "EventFn"]

/-- The names of the methods, in source order (lines 143 to 431). -/
def MockNakamaModule.methodNames : List String :=
  Op.all.map Op.name

/-- The name of the field that goes with a method name: X is sent to XFn. -/
def slotName (method : String) : String :=
  method ++ "Fn"

/-- A call: an operation together with an argument tuple. -/
abbrev Call := (o : Op) × o.Args

/-- The outcome of a call, together with its operation. -/
abbrev CallOutcome := (o : Op) × Outcome o.Res

/-- What running a bound behaviour does to the table. A Go func value may hold a pointer to the
table and assign to its fields; the Lean function of a slot gives the results only, so the
table that the behaviour leaves behind is given next to it: for an operation, the behaviour
of its slot, the arguments and the table before, the table after. -/
abbrev TableEffect := (o : Op) → o.Fn → o.Args → MockNakamaModule → MockNakamaModule

/-- The effect of behaviours that do not touch the table. -/
def TableEffect.untouched : TableEffect :=
  fun _o _fn _a nk => nk

/-- The effect of behaviours that bind EventFn while they run. -/
def TableEffect.bindsEvent : TableEffect :=
  fun _o _fn _a nk => nk.bind Op.Event eventAcceptFn

/-- The Go statement return nk.XFn(args) in state-passing form, given the table before, the
func value read from the field, the call on the parameters and what the behaviour does to the
table: calling the nil func value panics and leaves the table as it is; otherwise the
behaviour runs, the statement returns what it returns, and the table after is the one the
behaviour leaves. -/
def execFn {φ ρ : Type} (nk : MockNakamaModule) (field : Option φ) (call : φ → ρ)
    (touch : φ → MockNakamaModule → MockNakamaModule) : Outcome ρ × MockNakamaModule :=
  match field with
  | none => (Outcome.panicked Panic.nilDereference, nk)
  | some fn => (Outcome.returned (call fn), touch fn nk)

/-! ## The methods in state-passing form (source lines 143 to 433)

The methods have a pointer receiver, so a body could assign to the fields of the table. Each
method is embedded a second time as a function that also gives the table after the call: the
statements of its body, run on the table before. -/

/-- Source line 143 in state-passing form. -/
def StatePassing.AuthenticateApple (effect : TableEffect) (nk : MockNakamaModule) (ctx : context.Context) (token : String) (username : String) (create : Bool) :
    Outcome (String × String × Bool × error) × MockNakamaModule :=
  execFn nk nk.AuthenticateAppleFn (fun fn => fn ctx token username create) (fun fn => effect Op.AuthenticateApple fn (ctx, token, username, create))

/-- Source line 146 in state-passing form. -/
def StatePassing.AuthenticateCustom (effect : TableEffect) (nk : MockNakamaModule) (ctx : context.Context) (id : String) (username : String) (create : Bool) :
    Outcome (String × String × Bool × error) × MockNakamaModule :=
  execFn nk nk.AuthenticateCustomFn (fun fn => fn ctx id username create) (fun fn => effect Op.AuthenticateCustom fn (ctx, id, username, create))

/-- Source line 149 in state-passing form. -/
def StatePassing.AuthenticateDevice (effect : TableEffect) (nk : MockNakamaModule) (ctx : context.Context) (id : String) (username : String) (create : Bool) :
    Outcome (String × String × Bool × error) × MockNakamaModule :=
  execFn nk nk.AuthenticateDeviceFn (fun fn => fn ctx id username create) (fun fn => effect Op.AuthenticateDevice fn (ctx, id, username, create))

/-- Source line 152 in state-passing form. -/
def StatePassing.AuthenticateEmail (effect : TableEffect) (nk : MockNakamaModule) (ctx : context.Context) (email : String) (password : String) (username : String) (create : Bool) :
    Outcome (String × String × Bool × error) × MockNakamaModule :=
  execFn nk nk.AuthenticateEmailFn (fun fn => fn ctx email password username create) (fun fn => effect Op.AuthenticateEmail fn (ctx, email, password, username, create))

/-- Source line 155 in state-passing form. -/
def StatePassing.AuthenticateFacebook (effect : TableEffect) (nk : MockNakamaModule) (ctx : context.Context) (token : String) (importFriends : Bool) (username : String) (create : Bool) :
    Outcome (String × String × Bool × error) × MockNakamaModule :=
  execFn nk nk.AuthenticateFacebookFn (fun fn => fn ctx token importFriends username create) (fun fn => effect Op.AuthenticateFacebook fn (ctx, token, importFriends, username, create))

/-- Source line 158 in state-passing form. -/
def StatePassing.AuthenticateFacebookInstantGame (effect : TableEffect) (nk : MockNakamaModule) (ctx : context.Context) (signedPlayerInfo : String) (username : String) (create : Bool) :
    Outcome (String × String × Bool × error) × MockNakamaModule :=
  execFn nk nk.AuthenticateFacebookInstantGameFn (fun fn => fn ctx signedPlayerInfo username create) (fun fn => effect Op.AuthenticateFacebookInstantGame fn (ctx, signedPlayerInfo, username, create))

/-- Source line 161 in state-passing form. -/
def StatePassing.AuthenticateGameCenter (effect : TableEffect) (nk : MockNakamaModule) (ctx : context.Context) (playerID : String) (bundleID : String) (timestamp : Int) (salt : String) (signature : String) (publicKeyUrl : String) (username : String) (create : Bool) :
    Outcome (String × String × Bool × error) × MockNakamaModule :=
  execFn nk nk.AuthenticateGameCenterFn (fun fn => fn ctx playerID bundleID timestamp salt signature publicKeyUrl username create) (fun fn => effect Op.AuthenticateGameCenter fn (ctx, playerID, bundleID, timestamp, salt, signature, publicKeyUrl, username, create))

/-- Source line 164 in state-passing form. -/
def StatePassing.AuthenticateGoogle (effect : TableEffect) (nk : MockNakamaModule) (ctx : context.Context) (token : String) (username : String) (create : Bool) :
    Outcome (String × String × Bool × error) × MockNakamaModule :=
  execFn nk nk.AuthenticateGoogleFn (fun fn => fn ctx token username create) (fun fn => effect Op.AuthenticateGoogle fn (ctx, token, username, create))

/-- Source line 167 in state-passing form. -/
def StatePassing.AuthenticateSteam (effect : TableEffect) (nk : MockNakamaModule) (ctx : context.Context) (token : String) (username : String) (create : Bool) :
    Outcome (String × String × Bool × error) × MockNakamaModule :=
  execFn nk nk.AuthenticateSteamFn (fun fn => fn ctx token username create) (fun fn => effect Op.AuthenticateSteam fn (ctx, token, username, create))

/-- Source line 170 in state-passing form. -/
def StatePassing.AuthenticateTokenGenerate (effect : TableEffect) (nk : MockNakamaModule) (userID : String) (username : String) (exp : Int) (vars : GoMap String String) :
    Outcome (String × Int × error) × MockNakamaModule :=
  execFn nk nk.AuthenticateTokenGenerateFn (fun fn => fn userID username exp vars) (fun fn => effect Op.AuthenticateTokenGenerate fn (userID, username, exp, vars))

/-- Source line 173 in state-passing form. -/
def StatePassing.AccountGetId (effect : TableEffect) (nk : MockNakamaModule) (ctx : context.Context) (userID : String) :
    Outcome (Option api.Account × error) × MockNakamaModule :=
  execFn nk nk.AccountGetIdFn (fun fn => fn ctx userID) (fun fn => effect Op.AccountGetId fn (ctx, userID))

/-- Source line 176 in state-passing form. -/
def StatePassing.AccountsGetId (effect : TableEffect) (nk : MockNakamaModule) (ctx : context.Context) (userIDs : List String) :
    Outcome (List (Option api.Account) × error) × MockNakamaModule :=
  execFn nk nk.AccountsGetIdFn (fun fn => fn ctx userIDs) (fun fn => effect Op.AccountsGetId fn (ctx, userIDs))

/-- Source line 179 in state-passing form. -/
def StatePassing.AccountUpdateId (effect : TableEffect) (nk : MockNakamaModule) (ctx : context.Context) (userID : String) (username : String) (metadata : GoMap String AnyValue) (displayName : String) (timezone : String) (location : String) (langTag : String) (avatarUrl : String) :
    Outcome (error) × MockNakamaModule :=
  execFn nk nk.AccountUpdateIdFn (fun fn => fn ctx userID username metadata displayName timezone location langTag avatarUrl) (fun fn => effect Op.AccountUpdateId fn (ctx, userID, username, metadata, displayName, timezone, location, langTag, avatarUrl))

/-- Source line 182 in state-passing form. -/
def StatePassing.AccountDeleteId (effect : TableEffect) (nk : MockNakamaModule) (ctx : context.Context) (userID : String) (recorded : Bool) :
    Outcome (error) × MockNakamaModule :=
  execFn nk nk.AccountDeleteIdFn (fun fn => fn ctx userID recorded) (fun fn => effect Op.AccountDeleteId fn (ctx, userID, recorded))

/-- Source line 185 in state-passing form. -/
def StatePassing.AccountExportId (effect : TableEffect) (nk : MockNakamaModule) (ctx : context.Context) (userID : String) :
    Outcome (String × error) × MockNakamaModule :=
  execFn nk nk.AccountExportIdFn (fun fn => fn ctx userID) (fun fn => effect Op.AccountExportId fn (ctx, userID))

/-- Source line 188 in state-passing form. -/
def StatePassing.UsersGetId (effect : TableEffect) (nk : MockNakamaModule) (ctx : context.Context) (userIDs : List String) (facebookIDs : List String) :
    Outcome (List (Option api.User) × error) × MockNakamaModule :=
  execFn nk nk.UsersGetIdFn (fun fn => fn ctx userIDs facebookIDs) (fun fn => effect Op.UsersGetId fn (ctx, userIDs, facebookIDs))

/-- Source line 191 in state-passing form. -/
def StatePassing.UsersGetUsername (effect : TableEffect) (nk : MockNakamaModule) (ctx : context.Context) (usernames : List String) :
    Outcome (List (Option api.User) × error) × MockNakamaModule :=
  execFn nk nk.UsersGetUsernameFn (fun fn => fn ctx usernames) (fun fn => effect Op.UsersGetUsername fn (ctx, usernames))

/-- Source line 194 in state-passing form. -/
def StatePassing.UsersBanId (effect : TableEffect) (nk : MockNakamaModule) (ctx : context.Context) (userIDs : List String) :
    Outcome (error) × MockNakamaModule :=
  execFn nk nk.UsersBanIdFn (fun fn => fn ctx userIDs) (fun fn => effect Op.UsersBanId fn (ctx, userIDs))

/-- Source line 197 in state-passing form. -/
def StatePassing.UsersUnbanId (effect : TableEffect) (nk : MockNakamaModule) (ctx : context.Context) (userIDs : List String) :
    Outcome (error) × MockNakamaModule :=
  execFn nk nk.UsersUnbanIdFn (fun fn => fn ctx userIDs) (fun fn => effect Op.UsersUnbanId fn (ctx, userIDs))

/-- Source line 200 in state-passing form. -/
def StatePassing.LinkApple (effect : TableEffect) (nk : MockNakamaModule) (ctx : context.Context) (userID : String) (token : String) :
    Outcome (error) × MockNakamaModule :=
  execFn nk nk.LinkAppleFn (fun fn => fn ctx userID token) (fun fn => effect Op.LinkApple fn (ctx, userID, token))

/-- Source line 203 in state-passing form. -/
def StatePassing.LinkCustom (effect : TableEffect) (nk : MockNakamaModule) (ctx : context.Context) (userID : String) (customID : String) :
    Outcome (error) × MockNakamaModule :=
  execFn nk nk.LinkCustomFn (fun fn => fn ctx userID customID) (fun fn => effect Op.LinkCustom fn (ctx, userID, customID))

/-- Source line 206 in state-passing form. -/
def StatePassing.LinkDevice (effect : TableEffect) (nk : MockNakamaModule) (ctx : context.Context) (userID : String) (deviceID : String) :
    Outcome (error) × MockNakamaModule :=
  execFn nk nk.LinkDeviceFn (fun fn => fn ctx userID deviceID) (fun fn => effect Op.LinkDevice fn (ctx, userID, deviceID))

/-- Source line 209 in state-passing form. -/
def StatePassing.LinkEmail (effect : TableEffect) (nk : MockNakamaModule) (ctx : context.Context) (userID : String) (email : String) (password : String) :
    Outcome (error) × MockNakamaModule :=
  execFn nk nk.LinkEmailFn (fun fn => fn ctx userID email password) (fun fn => effect Op.LinkEmail fn (ctx, userID, email, password))

/-- Source line 212 in state-passing form. -/
def StatePassing.LinkFacebook (effect : TableEffect) (nk : MockNakamaModule) (ctx : context.Context) (userID : String) (username : String) (token : String) (importFriends : Bool) :
    Outcome (error) × MockNakamaModule :=
  execFn nk nk.LinkFacebookFn (fun fn => fn ctx userID username token importFriends) (fun fn => effect Op.LinkFacebook fn (ctx, userID, username, token, importFriends))

/-- Source line 215 in state-passing form. -/
def StatePassing.LinkFacebookInstantGame (effect : TableEffect) (nk : MockNakamaModule) (ctx : context.Context) (userID : String) (signedPlayerInfo : String) :
    Outcome (error) × MockNakamaModule :=
  execFn nk nk.LinkFacebookInstantGameFn (fun fn => fn ctx userID signedPlayerInfo) (fun fn => effect Op.LinkFacebookInstantGame fn (ctx, userID, signedPlayerInfo))

/-- Source line 218 in state-passing form. -/
def StatePassing.LinkGameCenter (effect : TableEffect) (nk : MockNakamaModule) (ctx : context.Context) (userID : String) (playerID : String) (bundleID : String) (timestamp : Int) (salt : String) (signature : String) (publicKeyUrl : String) :
    Outcome (error) × MockNakamaModule :=
  execFn nk nk.LinkGameCenterFn (fun fn => fn ctx userID playerID bundleID timestamp salt signature publicKeyUrl) (fun fn => effect Op.LinkGameCenter fn (ctx, userID, playerID, bundleID, timestamp, salt, signature, publicKeyUrl))

/-- Source line 221 in state-passing form. -/
def StatePassing.LinkGoogle (effect : TableEffect) (nk : MockNakamaModule) (ctx : context.Context) (userID : String) (token : String) :
    Outcome (error) × MockNakamaModule :=
  execFn nk nk.LinkGoogleFn (fun fn => fn ctx userID token) (fun fn => effect Op.LinkGoogle fn (ctx, userID, token))

/-- Source line 224 in state-passing form. -/
def StatePassing.LinkSteam (effect : TableEffect) (nk : MockNakamaModule) (ctx : context.Context) (userID : String) (username : String) (token : String) (importFriends : Bool) :
    Outcome (error) × MockNakamaModule :=
  execFn nk nk.LinkSteamFn (fun fn => fn ctx userID username token importFriends) (fun fn => effect Op.LinkSteam fn (ctx, userID, username, token, importFriends))

/-- Source line 227 in state-passing form. -/
def StatePassing.ReadFile (effect : TableEffect) (nk : MockNakamaModule) (path : String) :
    Outcome (Option os.File × error) × MockNakamaModule :=
  execFn nk nk.ReadFileFn (fun fn => fn path) (fun fn => effect Op.ReadFile fn path)

/-- Source line 230 in state-passing form. -/
def StatePassing.UnlinkApple (effect : TableEffect) (nk : MockNakamaModule) (ctx : context.Context) (userID : String) (token : String) :
    Outcome (error) × MockNakamaModule :=
  execFn nk nk.UnlinkAppleFn (fun fn => fn ctx userID token) (fun fn => effect Op.UnlinkApple fn (ctx, userID, token))

/-- Source line 233 in state-passing form. -/
def StatePassing.UnlinkCustom (effect : TableEffect) (nk : MockNakamaModule) (ctx : context.Context) (userID : String) (customID : String) :
    Outcome (error) × MockNakamaModule :=
  execFn nk nk.UnlinkCustomFn (fun fn => fn ctx userID customID) (fun fn => effect Op.UnlinkCustom fn (ctx, userID, customID))

/-- Source line 236 in state-passing form. -/
def StatePassing.UnlinkDevice (effect : TableEffect) (nk : MockNakamaModule) (ctx : context.Context) (userID : String) (deviceID : String) :
    Outcome (error) × MockNakamaModule :=
  execFn nk nk.UnlinkDeviceFn (fun fn => fn ctx userID deviceID) (fun fn => effect Op.UnlinkDevice fn (ctx, userID, deviceID))

/-- Source line 239 in state-passing form. -/
def StatePassing.UnlinkEmail (effect : TableEffect) (nk : MockNakamaModule) (ctx : context.Context) (userID : String) (email : String) :
    Outcome (error) × MockNakamaModule :=
  execFn nk nk.UnlinkEmailFn (fun fn => fn ctx userID email) (fun fn => effect Op.UnlinkEmail fn (ctx, userID, email))

/-- Source line 242 in state-passing form. -/
def StatePassing.UnlinkFacebook (effect : TableEffect) (nk : MockNakamaModule) (ctx : context.Context) (userID : String) (token : String) :
    Outcome (error) × MockNakamaModule :=
  execFn nk nk.UnlinkFacebookFn (fun fn => fn ctx userID token) (fun fn => effect Op.UnlinkFacebook fn (ctx, userID, token))

/-- Source line 245 in state-passing form. -/
def StatePassing.UnlinkFacebookInstantGame (effect : TableEffect) (nk : MockNakamaModule) (ctx : context.Context) (userID : String) (signedPlayerInfo : String) :
    Outcome (error) × MockNakamaModule :=
  execFn nk nk.UnlinkFacebookInstantGameFn (fun fn => fn ctx userID signedPlayerInfo) (fun fn => effect Op.UnlinkFacebookInstantGame fn (ctx, userID, signedPlayerInfo))

/-- Source line 248 in state-passing form. -/
def StatePassing.UnlinkGameCenter (effect : TableEffect) (nk : MockNakamaModule) (ctx : context.Context) (userID : String) (playerID : String) (bundleID : String) (timestamp : Int) (salt : String) (signature : String) (publicKeyUrl : String) :
    Outcome (error) × MockNakamaModule :=
  execFn nk nk.UnlinkGameCenterFn (fun fn => fn ctx userID playerID bundleID timestamp salt signature publicKeyUrl) (fun fn => effect Op.UnlinkGameCenter fn (ctx, userID, playerID, bundleID, timestamp, salt, signature, publicKeyUrl))

/-- Source line 251 in state-passing form. -/
def StatePassing.UnlinkGoogle (effect : TableEffect) (nk : MockNakamaModule) (ctx : context.Context) (userID : String) (token : String) :
    Outcome (error) × MockNakamaModule :=
  execFn nk nk.UnlinkGoogleFn (fun fn => fn ctx userID token) (fun fn => effect Op.UnlinkGoogle fn (ctx, userID, token))

/-- Source line 254 in state-passing form. -/
def StatePassing.UnlinkSteam (effect : TableEffect) (nk : MockNakamaModule) (ctx : context.Context) (userID : String) (token : String) :
    Outcome (error) × MockNakamaModule :=
  execFn nk nk.UnlinkSteamFn (fun fn => fn ctx userID token) (fun fn => effect Op.UnlinkSteam fn (ctx, userID, token))

/-- Source line 257 in state-passing form. -/
def StatePassing.StreamUserList (effect : TableEffect) (nk : MockNakamaModule) (mode : Nat) (subject : String) (subcontext : String) (label : String) (includeHidden : Bool) (includeNotHidden : Bool) :
    Outcome (List runtime.Presence × error) × MockNakamaModule :=
  execFn nk nk.StreamUserListFn (fun fn => fn mode subject subcontext label includeHidden includeNotHidden) (fun fn => effect Op.StreamUserList fn (mode, subject, subcontext, label, includeHidden, includeNotHidden))

/-- Source line 260 in state-passing form. -/
def StatePassing.StreamUserGet (effect : TableEffect) (nk : MockNakamaModule) (mode : Nat) (subject : String) (subcontext : String) (label : String) (userID : String) (sessionID : String) :
    Outcome (runtime.PresenceMeta × error) × MockNakamaModule :=
  execFn nk nk.StreamUserGetFn (fun fn => fn mode subject subcontext label userID sessionID) (fun fn => effect Op.StreamUserGet fn (mode, subject, subcontext, label, userID, sessionID))

/-- Source line 263 in state-passing form. -/
def StatePassing.StreamUserJoin (effect : TableEffect) (nk : MockNakamaModule) (mode : Nat) (subject : String) (subcontext : String) (label : String) (userID : String) (sessionID : String) (hidden : Bool) (persistence : Bool) (status : String) :
    Outcome (Bool × error) × MockNakamaModule :=
  execFn nk nk.StreamUserJoinFn (fun fn => fn mode subject subcontext label userID sessionID hidden persistence status) (fun fn => effect Op.StreamUserJoin fn (mode, subject, subcontext, label, userID, sessionID, hidden, persistence, status))

/-- Source line 266 in state-passing form. -/
def StatePassing.StreamUserUpdate (effect : TableEffect) (nk : MockNakamaModule) (mode : Nat) (subject : String) (subcontext : String) (label : String) (userID : String) (sessionID : String) (hidden : Bool) (persistence : Bool) (status : String) :
    Outcome (error) × MockNakamaModule :=
  execFn nk nk.StreamUserUpdateFn (fun fn => fn mode subject subcontext label userID sessionID hidden persistence status) (fun fn => effect Op.StreamUserUpdate fn (mode, subject, subcontext, label, userID, sessionID, hidden, persistence, status))

/-- Source line 269 in state-passing form. -/
def StatePassing.StreamUserLeave (effect : TableEffect) (nk : MockNakamaModule) (mode : Nat) (subject : String) (subcontext : String) (label : String) (userID : String) (sessionID : String) :
    Outcome (error) × MockNakamaModule :=
  execFn nk nk.StreamUserLeaveFn (fun fn => fn mode subject subcontext label userID sessionID) (fun fn => effect Op.StreamUserLeave fn (mode, subject, subcontext, label, userID, sessionID))

/-- Source line 272 in state-passing form. -/
def StatePassing.StreamUserKick (effect : TableEffect) (nk : MockNakamaModule) (mode : Nat) (subject : String) (subcontext : String) (label : String) (presence : runtime.Presence) :
    Outcome (error) × MockNakamaModule :=
  execFn nk nk.StreamUserKickFn (fun fn => fn mode subject subcontext label presence) (fun fn => effect Op.StreamUserKick fn (mode, subject, subcontext, label, presence))

/-- Source line 275 in state-passing form. -/
def StatePassing.StreamCount (effect : TableEffect) (nk : MockNakamaModule) (mode : Nat) (subject : String) (subcontext : String) (label : String) :
    Outcome (Int × error) × MockNakamaModule :=
  execFn nk nk.StreamCountFn (fun fn => fn mode subject subcontext label) (fun fn => effect Op.StreamCount fn (mode, subject, subcontext, label))

/-- Source line 278 in state-passing form. -/
def StatePassing.StreamClose (effect : TableEffect) (nk : MockNakamaModule) (mode : Nat) (subject : String) (subcontext : String) (label : String) :
    Outcome (error) × MockNakamaModule :=
  execFn nk nk.StreamCloseFn (fun fn => fn mode subject subcontext label) (fun fn => effect Op.StreamClose fn (mode, subject, subcontext, label))

/-- Source line 281 in state-passing form. -/
def StatePassing.StreamSend (effect : TableEffect) (nk : MockNakamaModule) (mode : Nat) (subject : String) (subcontext : String) (label : String) (data : String) (presences : List runtime.Presence) (reliable : Bool) :
    Outcome (error) × MockNakamaModule :=
  execFn nk nk.StreamSendFn (fun fn => fn mode subject subcontext label data presences reliable) (fun fn => effect Op.StreamSend fn (mode, subject, subcontext, label, data, presences, reliable))

/-- Source line 284 in state-passing form. -/
def StatePassing.StreamSendRaw (effect : TableEffect) (nk : MockNakamaModule) (mode : Nat) (subject : String) (subcontext : String) (label : String) (msg : Option rtapi.Envelope) (presences : List runtime.Presence) (reliable : Bool) :
    Outcome (error) × MockNakamaModule :=
  execFn nk nk.StreamSendRawFn (fun fn => fn mode subject subcontext label msg presences reliable) (fun fn => effect Op.StreamSendRaw fn (mode, subject, subcontext, label, msg, presences, reliable))

/-- Source line 287 in state-passing form. -/
def StatePassing.SessionDisconnect (effect : TableEffect) (nk : MockNakamaModule) (ctx : context.Context) (sessionID : String) (reason : List runtime.PresenceReason) :
    Outcome (error) × MockNakamaModule :=
  execFn nk nk.SessionDisconnectFn (fun fn => fn ctx sessionID reason) (fun fn => effect Op.SessionDisconnect fn (ctx, sessionID, reason))

/-- Source line 290 in state-passing form. -/
def StatePassing.SessionLogout (effect : TableEffect) (nk : MockNakamaModule) (userID : String) (token : String) (refreshToken : String) :
    Outcome (error) × MockNakamaModule :=
  execFn nk nk.SessionLogoutFn (fun fn => fn userID token refreshToken) (fun fn => effect Op.SessionLogout fn (userID, token, refreshToken))

/-- Source line 293 in state-passing form. -/
def StatePassing.MatchCreate (effect : TableEffect) (nk : MockNakamaModule) (ctx : context.Context) (module : String) (params : GoMap String AnyValue) :
    Outcome (String × error) × MockNakamaModule :=
  execFn nk nk.MatchCreateFn (fun fn => fn ctx module params) (fun fn => effect Op.MatchCreate fn (ctx, module, params))

/-- Source line 296 in state-passing form. -/
def StatePassing.MatchGet (effect : TableEffect) (nk : MockNakamaModule) (ctx : context.Context) (id : String) :
    Outcome (Option api.Match × error) × MockNakamaModule :=
  execFn nk nk.MatchGetFn (fun fn => fn ctx id) (fun fn => effect Op.MatchGet fn (ctx, id))

/-- Source line 299 in state-passing form. -/
def StatePassing.MatchList (effect : TableEffect) (nk : MockNakamaModule) (ctx : context.Context) (limit : Int) (authoritative : Bool) (label : String) (minSize : Option Int) (maxSize : Option Int) (query : String) :
    Outcome (List (Option api.Match) × error) × MockNakamaModule :=
  execFn nk nk.MatchListFn (fun fn => fn ctx limit authoritative label minSize maxSize query) (fun fn => effect Op.MatchList fn (ctx, limit, authoritative, label, minSize, maxSize, query))

/-- Source line 302 in state-passing form. -/
def StatePassing.NotificationSend (effect : TableEffect) (nk : MockNakamaModule) (ctx : context.Context) (userID : String) (subject : String) (content : GoMap String AnyValue) (code : Int) (sender : String) (persistent : Bool) :
    Outcome (error) × MockNakamaModule :=
  execFn nk nk.NotificationSendFn (fun fn => fn ctx userID subject content code sender persistent) (fun fn => effect Op.NotificationSend fn (ctx, userID, subject, content, code, sender, persistent))

/-- Source line 305 in state-passing form. -/
def StatePassing.NotificationsSend (effect : TableEffect) (nk : MockNakamaModule) (ctx : context.Context) (notifications : List (Option runtime.NotificationSend)) :
    Outcome (error) × MockNakamaModule :=
  execFn nk nk.NotificationsSendFn (fun fn => fn ctx notifications) (fun fn => effect Op.NotificationsSend fn (ctx, notifications))

/-- Source line 308 in state-passing form. -/
def StatePassing.WalletUpdate (effect : TableEffect) (nk : MockNakamaModule) (ctx : context.Context) (userID : String) (changeset : GoMap String Int) (metadata : GoMap String AnyValue) (updateLedger : Bool) :
    Outcome (GoMap String Int × GoMap String Int × error) × MockNakamaModule :=
  execFn nk nk.WalletUpdateFn (fun fn => fn ctx userID changeset metadata updateLedger) (fun fn => effect Op.WalletUpdate fn (ctx, userID, changeset, metadata, updateLedger))

/-- Source line 311 in state-passing form. -/
def StatePassing.WalletsUpdate (effect : TableEffect) (nk : MockNakamaModule) (ctx : context.Context) (updates : List (Option runtime.WalletUpdate)) (updateLedger : Bool) :
    Outcome (List (Option runtime.WalletUpdateResult) × error) × MockNakamaModule :=
  execFn nk nk.WalletsUpdateFn (fun fn => fn ctx updates updateLedger) (fun fn => effect Op.WalletsUpdate fn (ctx, updates, updateLedger))

/-- Source line 314 in state-passing form. -/
def StatePassing.WalletLedgerUpdate (effect : TableEffect) (nk : MockNakamaModule) (ctx : context.Context) (itemID : String) (metadata : GoMap String AnyValue) :
    Outcome (runtime.WalletLedgerItem × error) × MockNakamaModule :=
  execFn nk nk.WalletLedgerUpdateFn (fun fn => fn ctx itemID metadata) (fun fn => effect Op.WalletLedgerUpdate fn (ctx, itemID, metadata))

/-- Source line 317 in state-passing form. -/
def StatePassing.WalletLedgerList (effect : TableEffect) (nk : MockNakamaModule) (ctx : context.Context) (userID : String) (limit : Int) (cursor : String) :
    Outcome (List runtime.WalletLedgerItem × String × error) × MockNakamaModule :=
  execFn nk nk.WalletLedgerListFn (fun fn => fn ctx userID limit cursor) (fun fn => effect Op.WalletLedgerList fn (ctx, userID, limit, cursor))

/-- Source line 320 in state-passing form. -/
def StatePassing.StorageList (effect : TableEffect) (nk : MockNakamaModule) (ctx : context.Context) (userID : String) (collection : String) (limit : Int) (cursor : String) :
    Outcome (List (Option api.StorageObject) × String × error) × MockNakamaModule :=
  execFn nk nk.StorageListFn (fun fn => fn ctx userID collection limit cursor) (fun fn => effect Op.StorageList fn (ctx, userID, collection, limit, cursor))

/-- Source line 323 in state-passing form. -/
def StatePassing.StorageRead (effect : TableEffect) (nk : MockNakamaModule) (ctx : context.Context) (reads : List (Option runtime.StorageRead)) :
    Outcome (List (Option api.StorageObject) × error) × MockNakamaModule :=
  execFn nk nk.StorageReadFn (fun fn => fn ctx reads) (fun fn => effect Op.StorageRead fn (ctx, reads))

/-- Source line 326 in state-passing form. -/
def StatePassing.StorageWrite (effect : TableEffect) (nk : MockNakamaModule) (ctx : context.Context) (writes : List (Option runtime.StorageWrite)) :
    Outcome (List (Option api.StorageObjectAck) × error) × MockNakamaModule :=
  execFn nk nk.StorageWriteFn (fun fn => fn ctx writes) (fun fn => effect Op.StorageWrite fn (ctx, writes))

/-- Source line 329 in state-passing form. -/
def StatePassing.StorageDelete (effect : TableEffect) (nk : MockNakamaModule) (ctx : context.Context) (deletes : List (Option runtime.StorageDelete)) :
    Outcome (error) × MockNakamaModule :=
  execFn nk nk.StorageDeleteFn (fun fn => fn ctx deletes) (fun fn => effect Op.StorageDelete fn (ctx, deletes))

/-- Source line 332 in state-passing form. -/
def StatePassing.MultiUpdate (effect : TableEffect) (nk : MockNakamaModule) (ctx : context.Context) (accountUpdates : List (Option runtime.AccountUpdate)) (storageWrites : List (Option runtime.StorageWrite)) (walletUpdates : List (Option runtime.WalletUpdate)) (updateLedger : Bool) :
    Outcome (List (Option api.StorageObjectAck) × List (Option runtime.WalletUpdateResult) × error) × MockNakamaModule :=
  execFn nk nk.MultiUpdateFn (fun fn => fn ctx accountUpdates storageWrites walletUpdates updateLedger) (fun fn => effect Op.MultiUpdate fn (ctx, accountUpdates, storageWrites, walletUpdates, updateLedger))

/-- Source line 335 in state-passing form. -/
def StatePassing.LeaderboardCreate (effect : TableEffect) (nk : MockNakamaModule) (ctx : context.Context) (id : String) (authoritative : Bool) (sortOrder : String) (operator : String) (resetSchedule : String) (metadata : GoMap String AnyValue) :
    Outcome (error) × MockNakamaModule :=
  execFn nk nk.LeaderboardCreateFn (fun fn => fn ctx id authoritative sortOrder operator resetSchedule metadata) (fun fn => effect Op.LeaderboardCreate fn (ctx, id, authoritative, sortOrder, operator, resetSchedule, metadata))

/-- Source line 338 in state-passing form. -/
def StatePassing.LeaderboardDelete (effect : TableEffect) (nk : MockNakamaModule) (ctx : context.Context) (id : String) :
    Outcome (error) × MockNakamaModule :=
  execFn nk nk.LeaderboardDeleteFn (fun fn => fn ctx id) (fun fn => effect Op.LeaderboardDelete fn (ctx, id))

/-- Source line 341 in state-passing form. -/
def StatePassing.LeaderboardRecordsList (effect : TableEffect) (nk : MockNakamaModule) (ctx : context.Context) (id : String) (ownerIDs : List String) (limit : Int) (cursor : String) (expiry : Int) :
    Outcome (List (Option api.LeaderboardRecord) × List (Option api.LeaderboardRecord) × String × String × error) × MockNakamaModule :=
  execFn nk nk.LeaderboardRecordsListFn (fun fn => fn ctx id ownerIDs limit cursor expiry) (fun fn => effect Op.LeaderboardRecordsList fn (ctx, id, ownerIDs, limit, cursor, expiry))

/-- Source line 344 in state-passing form. -/
def StatePassing.LeaderboardRecordWrite (effect : TableEffect) (nk : MockNakamaModule) (ctx : context.Context) (id : String) (ownerID : String) (username : String) (score : Int) (subscore : Int) (metadata : GoMap String AnyValue) :
    Outcome (Option api.LeaderboardRecord × error) × MockNakamaModule :=
  execFn nk nk.LeaderboardRecordWriteFn (fun fn => fn ctx id ownerID username score subscore metadata) (fun fn => effect Op.LeaderboardRecordWrite fn (ctx, id, ownerID, username, score, subscore, metadata))

/-- Source line 347 in state-passing form. -/
def StatePassing.LeaderboardRecordDelete (effect : TableEffect) (nk : MockNakamaModule) (ctx : context.Context) (id : String) (ownerID : String) :
    Outcome (error) × MockNakamaModule :=
  execFn nk nk.LeaderboardRecordDeleteFn (fun fn => fn ctx id ownerID) (fun fn => effect Op.LeaderboardRecordDelete fn (ctx, id, ownerID))

/-- Source line 350 in state-passing form. -/
def StatePassing.PurchaseValidateApple (effect : TableEffect) (nk : MockNakamaModule) (ctx : context.Context) (userID : String) (receipt : String) :
    Outcome (Option api.ValidatePurchaseResponse × error) × MockNakamaModule :=
  execFn nk nk.PurchaseValidateAppleFn (fun fn => fn ctx userID receipt) (fun fn => effect Op.PurchaseValidateApple fn (ctx, userID, receipt))

/-- Source line 353 in state-passing form. -/
def StatePassing.PurchaseValidateGoogle (effect : TableEffect) (nk : MockNakamaModule) (ctx : context.Context) (userID : String) (receipt : String) :
    Outcome (Option api.ValidatePurchaseResponse × error) × MockNakamaModule :=
  execFn nk nk.PurchaseValidateGoogleFn (fun fn => fn ctx userID receipt) (fun fn => effect Op.PurchaseValidateGoogle fn (ctx, userID, receipt))

/-- Source line 356 in state-passing form. -/
def StatePassing.PurchaseValidateHuawei (effect : TableEffect) (nk : MockNakamaModule) (ctx : context.Context) (userID : String) (signature : String) (inAppPurchaseData : String) :
    Outcome (Option api.ValidatePurchaseResponse × error) × MockNakamaModule :=
  execFn nk nk.PurchaseValidateHuaweiFn (fun fn => fn ctx userID signature inAppPurchaseData) (fun fn => effect Op.PurchaseValidateHuawei fn (ctx, userID, signature, inAppPurchaseData))

/-- Source line 359 in state-passing form. -/
def StatePassing.PurchasesList (effect : TableEffect) (nk : MockNakamaModule) (ctx : context.Context) (userID : String) (limit : Int) (cursor : String) :
    Outcome (Option api.PurchaseList × error) × MockNakamaModule :=
  execFn nk nk.PurchasesListFn (fun fn => fn ctx userID limit cursor) (fun fn => effect Op.PurchasesList fn (ctx, userID, limit, cursor))

/-- Source line 362 in state-passing form. -/
def StatePassing.PurchaseGetByTransactionId (effect : TableEffect) (nk : MockNakamaModule) (ctx : context.Context) (transactionID : String) :
    Outcome (String × Option api.ValidatedPurchase × error) × MockNakamaModule :=
  execFn nk nk.PurchaseGetByTransactionIdFn (fun fn => fn ctx transactionID) (fun fn => effect Op.PurchaseGetByTransactionId fn (ctx, transactionID))

/-- Source line 365 in state-passing form. -/
def StatePassing.TournamentCreate (effect : TableEffect) (nk : MockNakamaModule) (ctx : context.Context) (id : String) (sortOrder : String) (operator : String) (resetSchedule : String) (metadata : GoMap String AnyValue) (title : String) (description : String) (category : Int) (startTime : Int) (endTime : Int) (duration : Int) (maxSize : Int) (maxNumScore : Int) (joinRequired : Bool) :
    Outcome (error) × MockNakamaModule :=
  execFn nk nk.TournamentCreateFn (fun fn => fn ctx id sortOrder operator resetSchedule metadata title description category startTime endTime duration maxSize maxNumScore joinRequired) (fun fn => effect Op.TournamentCreate fn (ctx, id, sortOrder, operator, resetSchedule, metadata, title, description, category, startTime, endTime, duration, maxSize, maxNumScore, joinRequired))

/-- Source line 368 in state-passing form. -/
def StatePassing.TournamentDelete (effect : TableEffect) (nk : MockNakamaModule) (ctx : context.Context) (id : String) :
    Outcome (error) × MockNakamaModule :=
  execFn nk nk.TournamentDeleteFn (fun fn => fn ctx id) (fun fn => effect Op.TournamentDelete fn (ctx, id))

/-- Source line 371 in state-passing form. -/
def StatePassing.TournamentAddAttempt (effect : TableEffect) (nk : MockNakamaModule) (ctx : context.Context) (id : String) (ownerID : String) (count : Int) :
    Outcome (error) × MockNakamaModule :=
  execFn nk nk.TournamentAddAttemptFn (fun fn => fn ctx id ownerID count) (fun fn => effect Op.TournamentAddAttempt fn (ctx, id, ownerID, count))

/-- Source line 374 in state-passing form. -/
def StatePassing.TournamentJoin (effect : TableEffect) (nk : MockNakamaModule) (ctx : context.Context) (id : String) (ownerID : String) (username : String) :
    Outcome (error) × MockNakamaModule :=
  execFn nk nk.TournamentJoinFn (fun fn => fn ctx id ownerID username) (fun fn => effect Op.TournamentJoin fn (ctx, id, ownerID, username))

/-- Source line 377 in state-passing form. -/
def StatePassing.TournamentsGetId (effect : TableEffect) (nk : MockNakamaModule) (ctx : context.Context) (tournamentIDs : List String) :
    Outcome (List (Option api.Tournament) × error) × MockNakamaModule :=
  execFn nk nk.TournamentsGetIdFn (fun fn => fn ctx tournamentIDs) (fun fn => effect Op.TournamentsGetId fn (ctx, tournamentIDs))

/-- Source line 380 in state-passing form. -/
def StatePassing.TournamentList (effect : TableEffect) (nk : MockNakamaModule) (ctx : context.Context) (categoryStart : Int) (categoryEnd : Int) (startTime : Int) (endTime : Int) (limit : Int) (cursor : String) :
    Outcome (Option api.TournamentList × error) × MockNakamaModule :=
  execFn nk nk.TournamentListFn (fun fn => fn ctx categoryStart categoryEnd startTime endTime limit cursor) (fun fn => effect Op.TournamentList fn (ctx, categoryStart, categoryEnd, startTime, endTime, limit, cursor))

/-- Source line 383 in state-passing form. -/
def StatePassing.TournamentRecordsList (effect : TableEffect) (nk : MockNakamaModule) (ctx : context.Context) (tournamentId : String) (ownerIDs : List String) (limit : Int) (cursor : String) (overrideExpiry : Int) :
    Outcome (List (Option api.LeaderboardRecord) × List (Option api.LeaderboardRecord) × String × String × error) × MockNakamaModule :=
  execFn nk nk.TournamentRecordsListFn (fun fn => fn ctx tournamentId ownerIDs limit cursor overrideExpiry) (fun fn => effect Op.TournamentRecordsList fn (ctx, tournamentId, ownerIDs, limit, cursor, overrideExpiry))

/-- Source line 386 in state-passing form. -/
def StatePassing.TournamentRecordWrite (effect : TableEffect) (nk : MockNakamaModule) (ctx : context.Context) (id : String) (ownerID : String) (username : String) (score : Int) (subscore : Int) (metadata : GoMap String AnyValue) :
    Outcome (Option api.LeaderboardRecord × error) × MockNakamaModule :=
  execFn nk nk.TournamentRecordWriteFn (fun fn => fn ctx id ownerID username score subscore metadata) (fun fn => effect Op.TournamentRecordWrite fn (ctx, id, ownerID, username, score, subscore, metadata))

/-- Source line 389 in state-passing form. -/
def StatePassing.TournamentRecordsHaystack (effect : TableEffect) (nk : MockNakamaModule) (ctx : context.Context) (id : String) (ownerID : String) (limit : Int) (expiry : Int) :
    Outcome (List (Option api.LeaderboardRecord) × error) × MockNakamaModule :=
  execFn nk nk.TournamentRecordsHaystackFn (fun fn => fn ctx id ownerID limit expiry) (fun fn => effect Op.TournamentRecordsHaystack fn (ctx, id, ownerID, limit, expiry))

/-- Source line 392 in state-passing form. -/
def StatePassing.GroupsGetId (effect : TableEffect) (nk : MockNakamaModule) (ctx : context.Context) (groupIDs : List String) :
    Outcome (List (Option api.Group) × error) × MockNakamaModule :=
  execFn nk nk.GroupsGetIdFn (fun fn => fn ctx groupIDs) (fun fn => effect Op.GroupsGetId fn (ctx, groupIDs))

/-- Source line 395 in state-passing form. -/
def StatePassing.GroupCreate (effect : TableEffect) (nk : MockNakamaModule) (ctx : context.Context) (userID : String) (name : String) (creatorID : String) (langTag : String) (description : String) (avatarUrl : String) (open_ : Bool) (metadata : GoMap String AnyValue) (maxCount : Int) :
    Outcome (Option api.Group × error) × MockNakamaModule :=
  execFn nk nk.GroupCreateFn (fun fn => fn ctx userID name creatorID langTag description avatarUrl open_ metadata maxCount) (fun fn => effect Op.GroupCreate fn (ctx, userID, name, creatorID, langTag, description, avatarUrl, open_, metadata, maxCount))

/-- Source line 398 in state-passing form. -/
def StatePassing.GroupUpdate (effect : TableEffect) (nk : MockNakamaModule) (ctx : context.Context) (id : String) (name : String) (creatorID : String) (langTag : String) (description : String) (avatarUrl : String) (open_ : Bool) (metadata : GoMap String AnyValue) (maxCount : Int) :
    Outcome (error) × MockNakamaModule :=
  execFn nk nk.GroupUpdateFn (fun fn => fn ctx id name creatorID langTag description avatarUrl open_ metadata maxCount) (fun fn => effect Op.GroupUpdate fn (ctx, id, name, creatorID, langTag, description, avatarUrl, open_, metadata, maxCount))

/-- Source line 401 in state-passing form. -/
def StatePassing.GroupDelete (effect : TableEffect) (nk : MockNakamaModule) (ctx : context.Context) (id : String) :
    Outcome (error) × MockNakamaModule :=
  execFn nk nk.GroupDeleteFn (fun fn => fn ctx id) (fun fn => effect Op.GroupDelete fn (ctx, id))

/-- Source line 404 in state-passing form. -/
def StatePassing.GroupUserJoin (effect : TableEffect) (nk : MockNakamaModule) (ctx : context.Context) (groupID : String) (userID : String) (username : String) :
    Outcome (error) × MockNakamaModule :=
  execFn nk nk.GroupUserJoinFn (fun fn => fn ctx groupID userID username) (fun fn => effect Op.GroupUserJoin fn (ctx, groupID, userID, username))

/-- Source line 407 in state-passing form. -/
def StatePassing.GroupUserLeave (effect : TableEffect) (nk : MockNakamaModule) (ctx : context.Context) (groupID : String) (userID : String) (username : String) :
    Outcome (error) × MockNakamaModule :=
  execFn nk nk.GroupUserLeaveFn (fun fn => fn ctx groupID userID username) (fun fn => effect Op.GroupUserLeave fn (ctx, groupID, userID, username))

/-- Source line 410 in state-passing form. -/
def StatePassing.GroupUsersAdd (effect : TableEffect) (nk : MockNakamaModule) (ctx : context.Context) (groupID : String) (userIDs : List String) :
    Outcome (error) × MockNakamaModule :=
  execFn nk nk.GroupUsersAddFn (fun fn => fn ctx groupID userIDs) (fun fn => effect Op.GroupUsersAdd fn (ctx, groupID, userIDs))

/-- Source line 413 in state-passing form. -/
def StatePassing.GroupUsersKick (effect : TableEffect) (nk : MockNakamaModule) (ctx : context.Context) (groupID : String) (userIDs : List String) :
    Outcome (error) × MockNakamaModule :=
  execFn nk nk.GroupUsersKickFn (fun fn => fn ctx groupID userIDs) (fun fn => effect Op.GroupUsersKick fn (ctx, groupID, userIDs))

/-- Source line 416 in state-passing form. -/
def StatePassing.GroupUsersPromote (effect : TableEffect) (nk : MockNakamaModule) (ctx : context.Context) (groupID : String) (userIDs : List String) :
    Outcome (error) × MockNakamaModule :=
  execFn nk nk.GroupUsersPromoteFn (fun fn => fn ctx groupID userIDs) (fun fn => effect Op.GroupUsersPromote fn (ctx, groupID, userIDs))

/-- Source line 419 in state-passing form. -/
def StatePassing.GroupUsersDemote (effect : TableEffect) (nk : MockNakamaModule) (ctx : context.Context) (groupID : String) (userIDs : List String) :
    Outcome (error) × MockNakamaModule :=
  execFn nk nk.GroupUsersDemoteFn (fun fn => fn ctx groupID userIDs) (fun fn => effect Op.GroupUsersDemote fn (ctx, groupID, userIDs))

/-- Source line 422 in state-passing form. -/
def StatePassing.GroupUsersList (effect : TableEffect) (nk : MockNakamaModule) (ctx : context.Context) (id : String) (limit : Int) (state : Option Int) (cursor : String) :
    Outcome (List (Option api.GroupUserList_GroupUser) × String × error) × MockNakamaModule :=
  execFn nk nk.GroupUsersListFn (fun fn => fn ctx id limit state cursor) (fun fn => effect Op.GroupUsersList fn (ctx, id, limit, state, cursor))

/-- Source line 425 in state-passing form. -/
def StatePassing.UserGroupsList (effect : TableEffect) (nk : MockNakamaModule) (ctx : context.Context) (userID : String) (limit : Int) (state : Option Int) (cursor : String) :
    Outcome (List (Option api.UserGroupList_UserGroup) × String × error) × MockNakamaModule :=
  execFn nk nk.UserGroupsListFn (fun fn => fn ctx userID limit state cursor) (fun fn => effect Op.UserGroupsList fn (ctx, userID, limit, state, cursor))

/-- Source line 428 in state-passing form. -/
def StatePassing.FriendsList (effect : TableEffect) (nk : MockNakamaModule) (ctx : context.Context) (userID : String) (limit : Int) (state : Option Int) (cursor : String) :
    Outcome (List (Option api.Friend) × String × error) × MockNakamaModule :=
  execFn nk nk.FriendsListFn (fun fn => fn ctx userID limit state cursor) (fun fn => effect Op.FriendsList fn (ctx, userID, limit, state, cursor))

/-- Source line 431 in state-passing form: the body calls the method Event itself, on the same table
and arguments; it reads no field and assigns to none. -/
def StatePassing.Event (effect : TableEffect) (fuel : Nat) (nk : MockNakamaModule) (ctx : context.Context) (evt : Option api.Event) :
    Outcome (error) × MockNakamaModule :=
  match fuel with
  | 0 => (Outcome.outOfFuel, nk)
  | fuel + 1 => StatePassing.Event effect fuel nk ctx evt
/-- One call as a step on the table: the method of the operation in state-passing form, run on
the table and the argument tuple; the outcome of the call and the table after it. -/
def MockNakamaModule.step (effect : TableEffect) (fuel : Nat) (nk : MockNakamaModule) :
    (o : Op) → o.Args → Outcome o.Res × MockNakamaModule
  | Op.AuthenticateApple, (ctx, token, username, create) => StatePassing.AuthenticateApple effect nk ctx token username create
  | Op.AuthenticateCustom, (ctx, id, username, create) => StatePassing.AuthenticateCustom effect nk ctx id username create
  | Op.AuthenticateDevice, (ctx, id, username, create) => StatePassing.AuthenticateDevice effect nk ctx id username create
  | Op.AuthenticateEmail, (ctx, email, password, username, create) => StatePassing.AuthenticateEmail effect nk ctx email password username create
  | Op.AuthenticateFacebook, (ctx, token, importFriends, username, create) => StatePassing.AuthenticateFacebook effect nk ctx token importFriends username create
  | Op.AuthenticateFacebookInstantGame, (ctx, signedPlayerInfo, username, create) => StatePassing.AuthenticateFacebookInstantGame effect nk ctx signedPlayerInfo username create
  | Op.AuthenticateGameCenter, (ctx, playerID, bundleID, timestamp, salt, signature, publicKeyUrl, username, create) => StatePassing.AuthenticateGameCenter effect nk ctx playerID bundleID timestamp salt signature publicKeyUrl username create
  | Op.AuthenticateGoogle, (ctx, token, username, create) => StatePassing.AuthenticateGoogle effect nk ctx token username create
  | Op.AuthenticateSteam, (ctx, token, username, create) => StatePassing.AuthenticateSteam effect nk ctx token username create
  | Op.AuthenticateTokenGenerate, (userID, username, exp, vars) => StatePassing.AuthenticateTokenGenerate effect nk userID username exp vars
  | Op.AccountGetId, (ctx, userID) => StatePassing.AccountGetId effect nk ctx userID
  | Op.AccountsGetId, (ctx, userIDs) => StatePassing.AccountsGetId effect nk ctx userIDs
  | Op.AccountUpdateId, (ctx, userID, username, metadata, displayName, timezone, location, langTag, avatarUrl) => StatePassing.AccountUpdateId effect nk ctx userID username metadata displayName timezone location langTag avatarUrl
  | Op.AccountDeleteId, (ctx, userID, recorded) => StatePassing.AccountDeleteId effect nk ctx userID recorded
  | Op.AccountExportId, (ctx, userID) => StatePassing.AccountExportId effect nk ctx userID
  | Op.UsersGetId, (ctx, userIDs, facebookIDs) => StatePassing.UsersGetId effect nk ctx userIDs facebookIDs
  | Op.UsersGetUsername, (ctx, usernames) => StatePassing.UsersGetUsername effect nk ctx usernames
  | Op.UsersBanId, (ctx, userIDs) => StatePassing.UsersBanId effect nk ctx userIDs
  | Op.UsersUnbanId, (ctx, userIDs) => StatePassing.UsersUnbanId effect nk ctx userIDs
  | Op.LinkApple, (ctx, userID, token) => StatePassing.LinkApple effect nk ctx userID token
  | Op.LinkCustom, (ctx, userID, customID) => StatePassing.LinkCustom effect nk ctx userID customID
  | Op.LinkDevice, (ctx, userID, deviceID) => StatePassing.LinkDevice effect nk ctx userID deviceID
  | Op.LinkEmail, (ctx, userID, email, password) => StatePassing.LinkEmail effect nk ctx userID email password
  | Op.LinkFacebook, (ctx, userID, username, token, importFriends) => StatePassing.LinkFacebook effect nk ctx userID username token importFriends
  | Op.LinkFacebookInstantGame, (ctx, userID, signedPlayerInfo) => StatePassing.LinkFacebookInstantGame effect nk ctx userID signedPlayerInfo
  | Op.LinkGameCenter, (ctx, userID, playerID, bundleID, timestamp, salt, signature, publicKeyUrl) => StatePassing.LinkGameCenter effect nk ctx userID playerID bundleID timestamp salt signature publicKeyUrl
  | Op.LinkGoogle, (ctx, userID, token) => StatePassing.LinkGoogle effect nk ctx userID token
  | Op.LinkSteam, (ctx, userID, username, token, importFriends) => StatePassing.LinkSteam effect nk ctx userID username token importFriends
  | Op.ReadFile, path => StatePassing.ReadFile effect nk path
  | Op.UnlinkApple, (ctx, userID, token) => StatePassing.UnlinkApple effect nk ctx userID token
  | Op.UnlinkCustom, (ctx, userID, customID) => StatePassing.UnlinkCustom effect nk ctx userID customID
  | Op.UnlinkDevice, (ctx, userID, deviceID) => StatePassing.UnlinkDevice effect nk ctx userID deviceID
  | Op.UnlinkEmail, (ctx, userID, email) => StatePassing.UnlinkEmail effect nk ctx userID email
  | Op.UnlinkFacebook, (ctx, userID, token) => StatePassing.UnlinkFacebook effect nk ctx userID token
  | Op.UnlinkFacebookInstantGame, (ctx, userID, signedPlayerInfo) => StatePassing.UnlinkFacebookInstantGame effect nk ctx userID signedPlayerInfo
  | Op.UnlinkGameCenter, (ctx, userID, playerID, bundleID, timestamp, salt, signature, publicKeyUrl) => StatePassing.UnlinkGameCenter effect nk ctx userID playerID bundleID timestamp salt signature publicKeyUrl
  | Op.UnlinkGoogle, (ctx, userID, token) => StatePassing.UnlinkGoogle effect nk ctx userID token
  | Op.UnlinkSteam, (ctx, userID, token) => StatePassing.UnlinkSteam effect nk ctx userID token
  | Op.StreamUserList, (mode, subject, subcontext, label, includeHidden, includeNotHidden) => StatePassing.StreamUserList effect nk mode subject subcontext label includeHidden includeNotHidden
  | Op.StreamUserGet, (mode, subject, subcontext, label, userID, sessionID) => StatePassing.StreamUserGet effect nk mode subject subcontext label userID sessionID
  | Op.StreamUserJoin, (mode, subject, subcontext, label, userID, sessionID, hidden, persistence, status) => StatePassing.StreamUserJoin effect nk mode subject subcontext label userID sessionID hidden persistence status
  | Op.StreamUserUpdate, (mode, subject, subcontext, label, userID, sessionID, hidden, persistence, status) => StatePassing.StreamUserUpdate effect nk mode subject subcontext label userID sessionID hidden persistence status
  | Op.StreamUserLeave, (mode, subject, subcontext, label, userID, sessionID) => StatePassing.StreamUserLeave effect nk mode subject subcontext label userID sessionID
  | Op.StreamUserKick, (mode, subject, subcontext, label, presence) => StatePassing.StreamUserKick effect nk mode subject subcontext label presence
  | Op.StreamCount, (mode, subject, subcontext, label) => StatePassing.StreamCount effect nk mode subject subcontext label
  | Op.StreamClose, (mode, subject, subcontext, label) => StatePassing.StreamClose effect nk mode subject subcontext label
  | Op.StreamSend, (mode, subject, subcontext, label, data, presences, reliable) => StatePassing.StreamSend effect nk mode subject subcontext label data presences reliable
  | Op.StreamSendRaw, (mode, subject, subcontext, label, msg, presences, reliable) => StatePassing.StreamSendRaw effect nk mode subject subcontext label msg presences reliable
  | Op.SessionDisconnect, (ctx, sessionID, reason) => StatePassing.SessionDisconnect effect nk ctx sessionID reason
  | Op.SessionLogout, (userID, token, refreshToken) => StatePassing.SessionLogout effect nk userID token refreshToken
  | Op.MatchCreate, (ctx, module, params) => StatePassing.MatchCreate effect nk ctx module params
  | Op.MatchGet, (ctx, id) => StatePassing.MatchGet effect nk ctx id
  | Op.MatchList, (ctx, limit, authoritative, label, minSize, maxSize, query) => StatePassing.MatchList effect nk ctx limit authoritative label minSize maxSize query
  | Op.NotificationSend, (ctx, userID, subject, content, code, sender, persistent) => StatePassing.NotificationSend effect nk ctx userID subject content code sender persistent
  | Op.NotificationsSend, (ctx, notifications) => StatePassing.NotificationsSend effect nk ctx notifications
  | Op.WalletUpdate, (ctx, userID, changeset, metadata, updateLedger) => StatePassing.WalletUpdate effect nk ctx userID changeset metadata updateLedger
  | Op.WalletsUpdate, (ctx, updates, updateLedger) => StatePassing.WalletsUpdate effect nk ctx updates updateLedger
  | Op.WalletLedgerUpdate, (ctx, itemID, metadata) => StatePassing.WalletLedgerUpdate effect nk ctx itemID metadata
  | Op.WalletLedgerList, (ctx, userID, limit, cursor) => StatePassing.WalletLedgerList effect nk ctx userID limit cursor
  | Op.StorageList, (ctx, userID, collection, limit, cursor) => StatePassing.StorageList effect nk ctx userID collection limit cursor
  | Op.StorageRead, (ctx, reads) => StatePassing.StorageRead effect nk ctx reads
  | Op.StorageWrite, (ctx, writes) => StatePassing.StorageWrite effect nk ctx writes
  | Op.StorageDelete, (ctx, deletes) => StatePassing.StorageDelete effect nk ctx deletes
  | Op.MultiUpdate, (ctx, accountUpdates, storageWrites, walletUpdates, updateLedger) => StatePassing.MultiUpdate effect nk ctx accountUpdates storageWrites walletUpdates updateLedger
  | Op.LeaderboardCreate, (ctx, id, authoritative, sortOrder, operator, resetSchedule, metadata) => StatePassing.LeaderboardCreate effect nk ctx id authoritative sortOrder operator resetSchedule metadata
  | Op.LeaderboardDelete, (ctx, id) => StatePassing.LeaderboardDelete effect nk ctx id
  | Op.LeaderboardRecordsList, (ctx, id, ownerIDs, limit, cursor, expiry) => StatePassing.LeaderboardRecordsList effect nk ctx id ownerIDs limit cursor expiry
  | Op.LeaderboardRecordWrite, (ctx, id, ownerID, username, score, subscore, metadata) => StatePassing.LeaderboardRecordWrite effect nk ctx id ownerID username score subscore metadata
  | Op.LeaderboardRecordDelete, (ctx, id, ownerID) => StatePassing.LeaderboardRecordDelete effect nk ctx id ownerID
  | Op.PurchaseValidateApple, (ctx, userID, receipt) => StatePassing.PurchaseValidateApple effect nk ctx userID receipt
  | Op.PurchaseValidateGoogle, (ctx, userID, receipt) => StatePassing.PurchaseValidateGoogle effect nk ctx userID receipt
  | Op.PurchaseValidateHuawei, (ctx, userID, signature, inAppPurchaseData) => StatePassing.PurchaseValidateHuawei effect nk ctx userID signature inAppPurchaseData
  | Op.PurchasesList, (ctx, userID, limit, cursor) => StatePassing.PurchasesList effect nk ctx userID limit cursor
  | Op.PurchaseGetByTransactionId, (ctx, transactionID) => StatePassing.PurchaseGetByTransactionId effect nk ctx transactionID
  | Op.TournamentCreate, (ctx, id, sortOrder, operator, resetSchedule, metadata, title, description, category, startTime, endTime, duration, maxSize, maxNumScore, joinRequired) => StatePassing.TournamentCreate effect nk ctx id sortOrder operator resetSchedule metadata title description category startTime endTime duration maxSize maxNumScore joinRequired
  | Op.TournamentDelete, (ctx, id) => StatePassing.TournamentDelete effect nk ctx id
  | Op.TournamentAddAttempt, (ctx, id, ownerID, count) => StatePassing.TournamentAddAttempt effect nk ctx id ownerID count
  | Op.TournamentJoin, (ctx, id, ownerID, username) => StatePassing.TournamentJoin effect nk ctx id ownerID username
  | Op.TournamentsGetId, (ctx, tournamentIDs) => StatePassing.TournamentsGetId effect nk ctx tournamentIDs
  | Op.TournamentList, (ctx, categoryStart, categoryEnd, startTime, endTime, limit, cursor) => StatePassing.TournamentList effect nk ctx categoryStart categoryEnd startTime endTime limit cursor
  | Op.TournamentRecordsList, (ctx, tournamentId, ownerIDs, limit, cursor, overrideExpiry) => StatePassing.TournamentRecordsList effect nk ctx tournamentId ownerIDs limit cursor overrideExpiry
  | Op.TournamentRecordWrite, (ctx, id, ownerID, username, score, subscore, metadata) => StatePassing.TournamentRecordWrite effect nk ctx id ownerID username score subscore metadata
  | Op.TournamentRecordsHaystack, (ctx, id, ownerID, limit, expiry) => StatePassing.TournamentRecordsHaystack effect nk ctx id ownerID limit expiry
  | Op.GroupsGetId, (ctx, groupIDs) => StatePassing.GroupsGetId effect nk ctx groupIDs
  | Op.GroupCreate, (ctx, userID, name, creatorID, langTag, description, avatarUrl, open_, metadata, maxCount) => StatePassing.GroupCreate effect nk ctx userID name creatorID langTag description avatarUrl open_ metadata maxCount
  | Op.GroupUpdate, (ctx, id, name, creatorID, langTag, description, avatarUrl, open_, metadata, maxCount) => StatePassing.GroupUpdate effect nk ctx id name creatorID langTag description avatarUrl open_ metadata maxCount
  | Op.GroupDelete, (ctx, id) => StatePassing.GroupDelete effect nk ctx id
  | Op.GroupUserJoin, (ctx, groupID, userID, username) => StatePassing.GroupUserJoin effect nk ctx groupID userID username
  | Op.GroupUserLeave, (ctx, groupID, userID, username) => StatePassing.GroupUserLeave effect nk ctx groupID userID username
  | Op.GroupUsersAdd, (ctx, groupID, userIDs) => StatePassing.GroupUsersAdd effect nk ctx groupID userIDs
  | Op.GroupUsersKick, (ctx, groupID, userIDs) => StatePassing.GroupUsersKick effect nk ctx groupID userIDs
  | Op.GroupUsersPromote, (ctx, groupID, userIDs) => StatePassing.GroupUsersPromote effect nk ctx groupID userIDs
  | Op.GroupUsersDemote, (ctx, groupID, userIDs) => StatePassing.GroupUsersDemote effect nk ctx groupID userIDs
  | Op.GroupUsersList, (ctx, id, limit, state, cursor) => StatePassing.GroupUsersList effect nk ctx id limit state cursor
  | Op.UserGroupsList, (ctx, userID, limit, state, cursor) => StatePassing.UserGroupsList effect nk ctx userID limit state cursor
  | Op.FriendsList, (ctx, userID, limit, state, cursor) => StatePassing.FriendsList effect nk ctx userID limit state cursor
  | Op.Event, (ctx, evt) => StatePassing.Event effect fuel nk ctx evt

/-- A sequence of calls, each made on the table that the call before it left: the outcomes in
order and the table after the last call. -/
def MockNakamaModule.run (effect : TableEffect) (fuel : Nat) :
    MockNakamaModule → List Call → List CallOutcome × MockNakamaModule
  | nk, [] => ([], nk)
  | nk, c :: cs =>
    ((⟨c.1, (nk.step effect fuel c.1 c.2).1⟩ : CallOutcome) ::
        (MockNakamaModule.run effect fuel (nk.step effect fuel c.1 c.2).2 cs).1,
      (MockNakamaModule.run effect fuel (nk.step effect fuel c.1 c.2).2 cs).2)

/-- A table on which only LinkAppleFn is bound, to a behaviour that reports a failure. -/
def onlyLinkApple : MockNakamaModule :=
  { LinkAppleFn := some (fun _ctx _userID _token => some "link rejected") }

/-- A table on which only AuthenticateAppleFn is bound. -/
def onlyAuthenticateApple : MockNakamaModule :=
  { AuthenticateAppleFn := some (fun _ctx _token _username _create => ("user-1", "name", true, none)) }

/-- A table on which only LeaderboardRecordsListFn is bound. -/
def onlyLeaderboardRecordsList : MockNakamaModule :=
  { LeaderboardRecordsListFn := some recordsFn }

/-- A table on which only TournamentRecordsListFn is bound. -/
def onlyTournamentRecordsList : MockNakamaModule :=
  { TournamentRecordsListFn := some recordsFn }

/-- A table on which only MultiUpdateFn is bound. -/
def onlyMultiUpdate : MockNakamaModule :=
  { MultiUpdateFn := some multiUpdateFn }

/-! ## Shared lemmas -/

/-- Every method but Event calls the func value of its own field on its parameters, in the
declared order. -/
theorem MockNakamaModule.invoke_eq_callFn (fuel : Nat) (nk : MockNakamaModule) (o : Op)
    (h : o ≠ Op.Event) (a : o.Args) :
    nk.invoke fuel o a = callFn (nk.slot o) fun fn => o.apply fn a := by
  cases o <;> first
    | rfl
    | exact absurd rfl h

/-- The method Event uses up every recursion budget, whatever the table holds. -/
theorem MockNakamaModule.Event_outOfFuel (fuel : Nat) (nk : MockNakamaModule)
    (ctx : context.Context) (evt : Option api.Event) :
    MockNakamaModule.Event fuel nk ctx evt = Outcome.outOfFuel := by
  induction fuel with
  | zero => rfl
  | succ n ih => simpa [MockNakamaModule.Event] using ih

/-- Invoking the operation Event uses up every recursion budget. -/
theorem MockNakamaModule.invoke_Event (fuel : Nat) (nk : MockNakamaModule) (a : Op.Event.Args) :
    nk.invoke fuel Op.Event a = Outcome.outOfFuel :=
  MockNakamaModule.Event_outOfFuel fuel nk a.1 a.2

/-- A bound operation other than Event returns what its behaviour returns. -/
theorem MockNakamaModule.invoke_of_bound (fuel : Nat) (nk : MockNakamaModule) (o : Op)
    (h : o ≠ Op.Event) (fn : o.Fn) (hs : nk.slot o = some fn) (a : o.Args) :
    nk.invoke fuel o a = Outcome.returned (o.apply fn a) := by
  rw [MockNakamaModule.invoke_eq_callFn fuel nk o h a, hs]
  rfl

/-- An unbound operation other than Event panics on the nil func value. -/
theorem MockNakamaModule.invoke_of_unbound (fuel : Nat) (nk : MockNakamaModule) (o : Op)
    (h : o ≠ Op.Event) (hs : nk.slot o = none) (a : o.Args) :
    nk.invoke fuel o a = Outcome.panicked Panic.nilDereference := by
  rw [MockNakamaModule.invoke_eq_callFn fuel nk o h a, hs]
  rfl

/-- The slots of a constructed table are the bindings it was constructed from. -/
theorem MockNakamaModule.slot_construct (bindings : (o : Op) → Option o.Fn) (o : Op) :
    (MockNakamaModule.construct bindings).slot o = bindings o := by
  cases o <;> rfl

/-- A table is the table constructed from its own slots. -/
theorem MockNakamaModule.construct_slot (nk : MockNakamaModule) :
    MockNakamaModule.construct nk.slot = nk := by
  cases nk; rfl

/-- Two tables with the same slots are the same table. -/
theorem MockNakamaModule.ext_slot (nk nk' : MockNakamaModule)
    (h : ∀ o, nk.slot o = nk'.slot o) : nk = nk' := by
  rw [← MockNakamaModule.construct_slot nk, ← MockNakamaModule.construct_slot nk', funext h]

set_option maxRecDepth 100000 in
/-- Binding a slot is a point update of the slots of the table. -/
theorem MockNakamaModule.bind_eq_construct (nk : MockNakamaModule) (o : Op) (fn : o.Fn) :
    nk.bind o fn = MockNakamaModule.construct (Function.update nk.slot o (some fn)) := by
  cases o <;> rfl

/-- After binding, the slot of the bound operation holds the new behaviour. -/
theorem MockNakamaModule.slot_bind_self (nk : MockNakamaModule) (o : Op) (fn : o.Fn) :
    (nk.bind o fn).slot o = some fn := by
  rw [MockNakamaModule.bind_eq_construct, MockNakamaModule.slot_construct, Function.update_same]

/-- After binding, the slot of any other operation is what it was. -/
theorem MockNakamaModule.slot_bind_of_ne (nk : MockNakamaModule) (o o' : Op) (fn : o.Fn)
    (h : o' ≠ o) : (nk.bind o fn).slot o' = nk.slot o' := by
  rw [MockNakamaModule.bind_eq_construct, MockNakamaModule.slot_construct,
    Function.update_noteq h]

/-- The text of the nil func panic contains the name of no operation. -/
theorem Panic.nilDereference_identifies_none (o : Op) : ¬ Panic.nilDereference.identifies o := by
  cases o <;> (unfold Panic.identifies; decide)

/-- The slots of a table after binding the operations of a list one after the other. -/
theorem MockNakamaModule.slot_bindAll (behaviour : (o : Op) → o.Fn) (order : List Op)
    (nk : MockNakamaModule) (o : Op) :
    (nk.bindAll behaviour order).slot o =
      if o ∈ order then some (behaviour o) else nk.slot o := by
  induction order generalizing nk with
  | nil => simp [MockNakamaModule.bindAll]
  | cons x xs ih =>
    have step : nk.bindAll behaviour (x :: xs) = (nk.bind x (behaviour x)).bindAll behaviour xs := rfl
    rw [step, ih]
    by_cases hxs : o ∈ xs
    · simp [hxs]
    · by_cases hx : o = x
      · subst hx
        simp [hxs, MockNakamaModule.slot_bind_self]
      · simp [hxs, hx, MockNakamaModule.slot_bind_of_ne nk x o (behaviour x) hx]

/-- The outcome of an operation is decided by its own slot. -/
theorem MockNakamaModule.invoke_congr_slot (fuel : Nat) (nk nk' : MockNakamaModule) (o : Op)
    (h : nk.slot o = nk'.slot o) (a : o.Args) : nk.invoke fuel o a = nk'.invoke fuel o a := by
  by_cases he : o = Op.Event
  · subst he
    rw [MockNakamaModule.invoke_Event, MockNakamaModule.invoke_Event]
  · rw [MockNakamaModule.invoke_eq_callFn fuel nk o he a,
      MockNakamaModule.invoke_eq_callFn fuel nk' o he a, h]

/-- Rebinding an operation other than Event replaces its behaviour: the call after the rebind
returns what the second behaviour returns, the call before it what the first returns. -/
theorem MockNakamaModule.invoke_rebind_of_ne_Event (fuel : Nat) (nk : MockNakamaModule) (o : Op)
    (h : o ≠ Op.Event) (fn₁ fn₂ : o.Fn) (a : o.Args) :
    (nk.bind o fn₁).invoke fuel o a = Outcome.returned (o.apply fn₁ a) ∧
      ((nk.bind o fn₁).bind o fn₂).invoke fuel o a = Outcome.returned (o.apply fn₂ a) :=
  ⟨MockNakamaModule.invoke_of_bound fuel _ o h fn₁ (MockNakamaModule.slot_bind_self nk o fn₁) a,
   MockNakamaModule.invoke_of_bound fuel _ o h fn₂
     (MockNakamaModule.slot_bind_self (nk.bind o fn₁) o fn₂) a⟩

/-- The list Op.all holds every operation. -/
theorem Op.mem_all (o : Op) : o ∈ Op.all := by
  cases o <;> simp [Op.all]

/-! ## The claims -/

/-- C1 (the claim fails for the operation Event): on a table whose EventFn is bound to a
behaviour, invoking Event on an argument tuple does not return what the behaviour returns on
that tuple; whatever the recursion budget, the call uses it up without returning. -/
theorem C1_invoke_Event_bound_never_returns (fuel : Nat) :
    onlyEvent.slot Op.Event = some eventRejectFn ∧
      onlyEvent.invoke fuel Op.Event (⟨0⟩, none) = Outcome.outOfFuel ∧
      onlyEvent.invoke fuel Op.Event (⟨0⟩, none) ≠
        Outcome.returned (Op.Event.apply eventRejectFn (⟨0⟩, none)) := by
  refine ⟨rfl, MockNakamaModule.invoke_Event fuel _ _, ?_⟩
  rw [MockNakamaModule.invoke_Event]
  exact fun h => Outcome.noConfusion h

/-- C2 (counterexample): on the table where only WalletUpdateFn is bound, the call
AccountGetId(ctx, userID) is not a configuration error that identifies AccountGetId: it is
the nil func panic of the Go runtime, whose text does not contain the name AccountGetId. -/
theorem C2_AccountGetId_unbound_not_named :
    onlyWalletUpdate.AccountGetId ⟨0⟩ "user-1" = Outcome.panicked Panic.nilDereference ∧
      ¬ (onlyWalletUpdate.AccountGetId ⟨0⟩ "user-1").isConfigurationErrorFor Op.AccountGetId := by
  refine ⟨rfl, ?_⟩
  rintro ⟨p, -, hp⟩
  cases p
  exact Panic.nilDereference_identifies_none _ hp

/-- C2 (amended): for every operation other than Event whose slot is unbound, and for every
argument tuple, invoking the operation returns no result at all, so never a zero-valued one:
the call panics with the nil func panic of the Go runtime, the same for every operation and
every argument tuple, and the text of that panic does not name the operation. -/
theorem C2_unbound_panics_on_nil_func (fuel : Nat) (nk : MockNakamaModule) (o : Op)
    (h : o ≠ Op.Event) (hs : nk.slot o = none) (a : o.Args) :
    nk.invoke fuel o a = Outcome.panicked Panic.nilDereference ∧
      (∀ r, nk.invoke fuel o a ≠ Outcome.returned r) ∧
      ¬ (nk.invoke fuel o a).isConfigurationErrorFor o := by
  have hp := MockNakamaModule.invoke_of_unbound fuel nk o h hs a
  refine ⟨hp, ?_, ?_⟩
  · intro r hr
    rw [hp] at hr
    exact Outcome.noConfusion hr
  · rintro ⟨p, -, hid⟩
    cases p
    exact Panic.nilDereference_identifies_none _ hid

/-- C2 (amended), at the table where only WalletUpdateFn is bound and the call
AccountGetId(ctx, userID). -/
theorem C2_unbound_panics_on_nil_func_witness :
    Op.AccountGetId ≠ Op.Event ∧ onlyWalletUpdate.slot Op.AccountGetId = none ∧
      (onlyWalletUpdate.invoke 0 Op.AccountGetId (⟨0⟩, "user-1") =
          Outcome.panicked Panic.nilDereference ∧
        (∀ r, onlyWalletUpdate.invoke 0 Op.AccountGetId (⟨0⟩, "user-1") ≠ Outcome.returned r) ∧
        ¬ (onlyWalletUpdate.invoke 0 Op.AccountGetId (⟨0⟩, "user-1")).isConfigurationErrorFor
            Op.AccountGetId) :=
  ⟨by decide, rfl,
    C2_unbound_panics_on_nil_func 0 onlyWalletUpdate Op.AccountGetId (by decide) rfl (⟨0⟩, "user-1")⟩

/-- C3 (the claim fails): on a table whose EventFn is bound to a behaviour that reports a
failure, the method Event does not return what the behaviour returns; whatever the recursion
budget, the call uses it up without returning, and EventFn is not called. -/
theorem C3_Event_does_not_delegate_to_EventFn (fuel : Nat) :
    onlyEvent.EventFn = some eventRejectFn ∧
      MockNakamaModule.Event fuel onlyEvent ⟨0⟩ none = Outcome.outOfFuel ∧
      MockNakamaModule.Event fuel onlyEvent ⟨0⟩ none ≠
        Outcome.returned (eventRejectFn ⟨0⟩ none) := by
  refine ⟨rfl, MockNakamaModule.Event_outOfFuel fuel _ _ _, ?_⟩
  rw [MockNakamaModule.Event_outOfFuel]
  exact fun h => Outcome.noConfusion h

/-- C4: on a table whose WalletUpdateFn is bound to the behaviour that returns the map with
gems = 10, the nil map and the nil error, WalletUpdate returns exactly these three results for
every ctx, userID, changeset, metadata and updateLedger. -/
theorem C4_WalletUpdate_returns_gems (nk : MockNakamaModule)
    (h : nk.WalletUpdateFn = some walletGemsFn) (ctx : context.Context) (userID : String)
    (changeset : GoMap String Int) (metadata : GoMap String AnyValue) (updateLedger : Bool) :
    nk.WalletUpdate ctx userID changeset metadata updateLedger =
      Outcome.returned (some [("gems", 10)], none, none) := by
  unfold MockNakamaModule.WalletUpdate
  rw [h]
  rfl

/-- C4, at the table of the documentation example. -/
theorem C4_WalletUpdate_returns_gems_witness :
    mockNkModule.WalletUpdateFn = some walletGemsFn ∧
      mockNkModule.WalletUpdate ⟨7⟩ "user-1" (some [("gems", -5)]) none true =
        Outcome.returned (some [("gems", 10)], none, none) :=
  ⟨rfl, C4_WalletUpdate_returns_gems mockNkModule rfl ⟨7⟩ "user-1" (some [("gems", -5)]) none true⟩

/-- C5: on a table whose PurchaseValidateAppleFn is bound to the behaviour of the
documentation example, PurchaseValidateApple returns, for every ctx, userID and receipt, the
nil error and a response whose list of validated purchases has length exactly 1 and whose
single entry has the product identifier my-test-product-id. -/
theorem C5_PurchaseValidateApple_returns_one_purchase (nk : MockNakamaModule)
    (h : nk.PurchaseValidateAppleFn = some purchaseAppleFn) (ctx : context.Context)
    (userID : String) (receipt : String) :
    ∃ resp purchase,
      nk.PurchaseValidateApple ctx userID receipt = Outcome.returned (some resp, none) ∧
      resp.ValidatedPurchases.length = 1 ∧
      resp.ValidatedPurchases = [some purchase] ∧
      purchase.ProductId = "my-test-product-id" := by
  refine ⟨{ ValidatedPurchases := [some { ProductId := "my-test-product-id" }] },
    { ProductId := "my-test-product-id" }, ?_, rfl, rfl, rfl⟩
  unfold MockNakamaModule.PurchaseValidateApple
  rw [h]
  rfl

/-- C5, at the table of the documentation example. -/
theorem C5_PurchaseValidateApple_returns_one_purchase_witness :
    mockNkModule.PurchaseValidateAppleFn = some purchaseAppleFn ∧
      ∃ resp purchase,
        mockNkModule.PurchaseValidateApple ⟨7⟩ "user-1" "receipt-data" =
          Outcome.returned (some resp, none) ∧
        resp.ValidatedPurchases.length = 1 ∧
        resp.ValidatedPurchases = [some purchase] ∧
        purchase.ProductId = "my-test-product-id" :=
  ⟨rfl, C5_PurchaseValidateApple_returns_one_purchase mockNkModule rfl ⟨7⟩ "user-1" "receipt-data"⟩

/-- C6: SessionDisconnect forwards its whole variadic tail. For every behaviour bound to
SessionDisconnectFn, every ctx, every sessionID and every sequence of reasons, of any length,
the method returns what the behaviour returns on ctx, sessionID and that very sequence. -/
theorem C6_SessionDisconnect_forwards_all_reasons (nk : MockNakamaModule)
    (fn : context.Context → String → List runtime.PresenceReason → error)
    (h : nk.SessionDisconnectFn = some fn) (ctx : context.Context) (sessionID : String)
    (reason : List runtime.PresenceReason) :
    nk.SessionDisconnect ctx sessionID reason = Outcome.returned (fn ctx sessionID reason) := by
  unfold MockNakamaModule.SessionDisconnect
  rw [h]
  rfl

/-- C6, at a behaviour that reports the number of reasons it received and a call with two
reasons: the behaviour reports 2. -/
theorem C6_SessionDisconnect_forwards_all_reasons_witness :
    ({ SessionDisconnectFn := some countReasonsFn } : MockNakamaModule).SessionDisconnectFn =
        some countReasonsFn ∧
      ({ SessionDisconnectFn := some countReasonsFn } : MockNakamaModule).SessionDisconnect
          ⟨0⟩ "session-1" [⟨1⟩, ⟨2⟩] =
        Outcome.returned (countReasonsFn ⟨0⟩ "session-1" [⟨1⟩, ⟨2⟩]) :=
  ⟨rfl, C6_SessionDisconnect_forwards_all_reasons _ countReasonsFn rfl ⟨0⟩ "session-1" [⟨1⟩, ⟨2⟩]⟩

/-- C7: the operations with several results return every result of the bound behaviour in its
own position, each operation on its own, whatever the other slots hold. On every table,
LeaderboardRecordsList with its slot bound returns the five results (records, ownerRecords,
nextCursor, prevCursor, error) of its behaviour in this order; so does TournamentRecordsList
with its slot bound; and MultiUpdate with its slot bound returns the three results (storage
acks, wallet results, error) of its behaviour in this order. -/
theorem C7_several_results_in_position (nk : MockNakamaModule) :
    (∀ (lfn : context.Context → String → List String → Int → String → Int →
          (List (Option api.LeaderboardRecord) × List (Option api.LeaderboardRecord) ×
            String × String × error))
        (ctx : context.Context) (id : String) (ownerIDs : List String) (limit : Int)
        (cursor : String) (expiry : Int),
        nk.LeaderboardRecordsListFn = some lfn →
        nk.LeaderboardRecordsList ctx id ownerIDs limit cursor expiry =
          Outcome.returned
            ((lfn ctx id ownerIDs limit cursor expiry).1,
             (lfn ctx id ownerIDs limit cursor expiry).2.1,
             (lfn ctx id ownerIDs limit cursor expiry).2.2.1,
             (lfn ctx id ownerIDs limit cursor expiry).2.2.2.1,
             (lfn ctx id ownerIDs limit cursor expiry).2.2.2.2)) ∧
      (∀ (tfn : context.Context → String → List String → Int → String → Int →
          (List (Option api.LeaderboardRecord) × List (Option api.LeaderboardRecord) ×
            String × String × error))
        (ctx : context.Context) (tournamentId : String) (ownerIDs : List String) (limit : Int)
        (cursor : String) (overrideExpiry : Int),
        nk.TournamentRecordsListFn = some tfn →
        nk.TournamentRecordsList ctx tournamentId ownerIDs limit cursor overrideExpiry =
          Outcome.returned
            ((tfn ctx tournamentId ownerIDs limit cursor overrideExpiry).1,
             (tfn ctx tournamentId ownerIDs limit cursor overrideExpiry).2.1,
             (tfn ctx tournamentId ownerIDs limit cursor overrideExpiry).2.2.1,
             (tfn ctx tournamentId ownerIDs limit cursor overrideExpiry).2.2.2.1,
             (tfn ctx tournamentId ownerIDs limit cursor overrideExpiry).2.2.2.2)) ∧
      (∀ (mfn : context.Context → List (Option runtime.AccountUpdate) →
          List (Option runtime.StorageWrite) → List (Option runtime.WalletUpdate) → Bool →
          (List (Option api.StorageObjectAck) × List (Option runtime.WalletUpdateResult) × error))
        (ctx : context.Context) (accountUpdates : List (Option runtime.AccountUpdate))
        (storageWrites : List (Option runtime.StorageWrite))
        (walletUpdates : List (Option runtime.WalletUpdate)) (updateLedger : Bool),
        nk.MultiUpdateFn = some mfn →
        nk.MultiUpdate ctx accountUpdates storageWrites walletUpdates updateLedger =
          Outcome.returned
            ((mfn ctx accountUpdates storageWrites walletUpdates updateLedger).1,
             (mfn ctx accountUpdates storageWrites walletUpdates updateLedger).2.1,
             (mfn ctx accountUpdates storageWrites walletUpdates updateLedger).2.2)) := by
  refine ⟨?_, ?_, ?_⟩
  · intro lfn ctx id ownerIDs limit cursor expiry hl
    unfold MockNakamaModule.LeaderboardRecordsList
    rw [hl]
    rfl
  · intro tfn ctx tournamentId ownerIDs limit cursor overrideExpiry ht
    unfold MockNakamaModule.TournamentRecordsList
    rw [ht]
    rfl
  · intro mfn ctx accountUpdates storageWrites walletUpdates updateLedger hm
    unfold MockNakamaModule.MultiUpdate
    rw [hm]
    rfl

/-- C7, at three tables that each bind one of the three slots and nothing else, with
behaviours that return pairwise different results: on each table the bound operation returns
every result in its own position; and at the table that binds all three. -/
theorem C7_several_results_in_position_witness :
    onlyLeaderboardRecordsList.LeaderboardRecordsList ⟨0⟩ "board" ["owner"] 10 "" 0 =
        Outcome.returned ([some ⟨1⟩], [some ⟨2⟩], "next", "prev", some "failed") ∧
      onlyTournamentRecordsList.TournamentRecordsList ⟨0⟩ "board" ["owner"] 10 "" 0 =
        Outcome.returned ([some ⟨1⟩], [some ⟨2⟩], "next", "prev", some "failed") ∧
      onlyMultiUpdate.MultiUpdate ⟨0⟩ [] [] [] true =
        Outcome.returned ([some ⟨1⟩], [some ⟨2⟩, some ⟨3⟩], some "failed") ∧
      recordsTable.MultiUpdate ⟨0⟩ [] [] [] true =
        Outcome.returned ([some ⟨1⟩], [some ⟨2⟩, some ⟨3⟩], some "failed") :=
  ⟨(C7_several_results_in_position onlyLeaderboardRecordsList).1 recordsFn
      ⟨0⟩ "board" ["owner"] 10 "" 0 rfl,
    (C7_several_results_in_position onlyTournamentRecordsList).2.1 recordsFn
      ⟨0⟩ "board" ["owner"] 10 "" 0 rfl,
    (C7_several_results_in_position onlyMultiUpdate).2.2 multiUpdateFn ⟨0⟩ [] [] [] true rfl,
    (C7_several_results_in_position recordsTable).2.2 multiUpdateFn ⟨0⟩ [] [] [] true rfl⟩

/-- C8: slot independence. For every table, every operation O and every behaviour, binding the
slot of O leaves the slot of every other operation exactly as it was: a bound slot keeps its
behaviour and an unbound slot stays unbound. -/
theorem C8_binding_leaves_other_slots (nk : MockNakamaModule) (o o' : Op) (fn : o.Fn)
    (h : o' ≠ o) : (nk.bind o fn).slot o' = nk.slot o' :=
  MockNakamaModule.slot_bind_of_ne nk o o' fn h

/-- C8, at the table of the documentation example: binding EventFn leaves the slot of
WalletUpdate bound to the wallet behaviour. -/
theorem C8_binding_leaves_other_slots_witness :
    Op.WalletUpdate ≠ Op.Event ∧
      (mockNkModule.bind Op.Event eventAcceptFn).slot Op.WalletUpdate =
        mockNkModule.slot Op.WalletUpdate :=
  ⟨by decide, C8_binding_leaves_other_slots mockNkModule Op.Event Op.WalletUpdate eventAcceptFn
    (by decide)⟩

/-- C9 (the claim fails for the operation Event): after binding EventFn to a first behaviour
and then to a second one, the slot holds the second behaviour, yet invoking Event does not
return what the second behaviour returns, and the call made before the rebind did not return
what the first behaviour returns: whatever the recursion budget, both calls use it up. -/
theorem C9_rebinding_Event_never_returns (fuel : Nat) :
    ((MockNakamaModule.empty.bind Op.Event eventRejectFn).bind Op.Event eventAcceptFn).slot
        Op.Event = some eventAcceptFn ∧
      ((MockNakamaModule.empty.bind Op.Event eventRejectFn).bind Op.Event eventAcceptFn).invoke
        fuel Op.Event (⟨0⟩, none) ≠
          Outcome.returned (Op.Event.apply eventAcceptFn (⟨0⟩, none)) ∧
      (MockNakamaModule.empty.bind Op.Event eventRejectFn).invoke fuel Op.Event (⟨0⟩, none) ≠
          Outcome.returned (Op.Event.apply eventRejectFn (⟨0⟩, none)) := by
  refine ⟨rfl, ?_, ?_⟩ <;>
  · rw [MockNakamaModule.invoke_Event]
    exact fun h => Outcome.noConfusion h

/-- C10: incremental and all-at-once construction agree. For every assignment of behaviours to
all operations and every order that lists every operation, binding the operations one at a
time in that order, starting from the table with zero bindings, gives the table constructed
with all the bindings at once; so the two tables give the same outcome for every operation
and every argument tuple. -/
theorem C10_incremental_equals_all_at_once (behaviour : (o : Op) → o.Fn) (order : List Op)
    (h : ∀ o, o ∈ order) :
    MockNakamaModule.empty.bindAll behaviour order =
        MockNakamaModule.construct (fun o => some (behaviour o)) ∧
      ∀ (fuel : Nat) (o : Op) (a : o.Args),
        (MockNakamaModule.empty.bindAll behaviour order).invoke fuel o a =
          (MockNakamaModule.construct (fun o => some (behaviour o))).invoke fuel o a := by
  have key : MockNakamaModule.empty.bindAll behaviour order =
      MockNakamaModule.construct (fun o => some (behaviour o)) := by
    apply MockNakamaModule.ext_slot
    intro o
    rw [MockNakamaModule.slot_bindAll, MockNakamaModule.slot_construct, if_pos (h o)]
  exact ⟨key, fun fuel o a => by rw [key]⟩

/-- C10, at the assignment of the zero behaviour to every operation and the source order of
the operations. -/
theorem C10_incremental_equals_all_at_once_witness :
    (∀ o, o ∈ Op.all) ∧
      (MockNakamaModule.empty.bindAll Op.zeroFn Op.all =
          MockNakamaModule.construct (fun o => some (Op.zeroFn o)) ∧
        ∀ (fuel : Nat) (o : Op) (a : o.Args),
          (MockNakamaModule.empty.bindAll Op.zeroFn Op.all).invoke fuel o a =
            (MockNakamaModule.construct (fun o => some (Op.zeroFn o))).invoke fuel o a) :=
  ⟨Op.mem_all, C10_incremental_equals_all_at_once Op.zeroFn Op.all Op.mem_all⟩

/-! ## Lemmas for the later claims -/

/-- The outcome of the state-passing call of a field is the outcome of the call. -/
theorem execFn_fst {φ ρ : Type} (nk : MockNakamaModule) (field : Option φ) (call : φ → ρ)
    (touch : φ → MockNakamaModule → MockNakamaModule) :
    (execFn nk field call touch).1 = callFn field call := by
  cases field <;> rfl

/-- When the behaviour held in the field leaves the table as it is, so does the call. -/
theorem execFn_snd {φ ρ : Type} (nk : MockNakamaModule) (field : Option φ) (call : φ → ρ)
    (touch : φ → MockNakamaModule → MockNakamaModule)
    (h : ∀ fn, field = some fn → touch fn nk = nk) :
    (execFn nk field call touch).2 = nk := by
  cases field with
  | none => rfl
  | some fn => exact h fn rfl

/-- The state-passing Event gives the outcome of Event and leaves the table as it is. -/
theorem StatePassing.Event_eq (effect : TableEffect) (fuel : Nat) (nk : MockNakamaModule)
    (ctx : context.Context) (evt : Option api.Event) :
    StatePassing.Event effect fuel nk ctx evt = (MockNakamaModule.Event fuel nk ctx evt, nk) := by
  induction fuel with
  | zero => rfl
  | succ n ih => simpa [StatePassing.Event, MockNakamaModule.Event] using ih

/-- The outcome of a step is the outcome of the invocation: the state-passing form of every
method returns what the method returns. -/
theorem MockNakamaModule.step_fst (effect : TableEffect) (fuel : Nat) (nk : MockNakamaModule)
    (o : Op) (a : o.Args) : (nk.step effect fuel o a).1 = nk.invoke fuel o a := by
  cases o
  case Event =>
    show (StatePassing.Event effect fuel nk a.1 a.2).1 = MockNakamaModule.Event fuel nk a.1 a.2
    rw [StatePassing.Event_eq]
  all_goals exact execFn_fst nk _ _ _

/-- When the behaviour of the slot leaves the table as it is, so does the step: no method body
assigns to a field. -/
theorem MockNakamaModule.step_snd (effect : TableEffect) (fuel : Nat) (nk : MockNakamaModule)
    (o : Op) (a : o.Args) (h : ∀ fn, nk.slot o = some fn → effect o fn a nk = nk) :
    (nk.step effect fuel o a).2 = nk := by
  cases o
  case Event =>
    show (StatePassing.Event effect fuel nk a.1 a.2).2 = nk
    rw [StatePassing.Event_eq]
  all_goals exact execFn_snd nk _ _ _ h

/-- When no behaviour touches the table, a sequence of calls leaves the table as it is and
every outcome is the outcome of the same call made alone on the first table. -/
theorem MockNakamaModule.run_of_no_effect (effect : TableEffect) (fuel : Nat)
    (nk : MockNakamaModule) (h : ∀ o fn a t, effect o fn a t = t) (calls : List Call) :
    nk.run effect fuel calls =
      (calls.map (fun c => (⟨c.1, nk.invoke fuel c.1 c.2⟩ : CallOutcome)), nk) := by
  induction calls with
  | nil => rfl
  | cons c cs ih =>
    have hstep : (nk.step effect fuel c.1 c.2).2 = nk :=
      MockNakamaModule.step_snd effect fuel nk c.1 c.2 (fun fn _ => h c.1 fn c.2 nk)
    simp only [MockNakamaModule.run, hstep, ih, MockNakamaModule.step_fst, List.map_cons]

/-- A behaviour that binds a slot while it runs changes the table: the step shows it. -/
theorem MockNakamaModule.step_bindsEvent :
    ((onlyWalletUpdate.step TableEffect.bindsEvent 0 Op.WalletUpdate
        (⟨0⟩, "user-1", none, none, true)).2).slot Op.Event = some eventAcceptFn ∧
      onlyWalletUpdate.slot Op.Event = none :=
  ⟨rfl, rfl⟩

/-- The field names are the method names with Fn appended, in the same order. -/
theorem MockNakamaModule.map_slotName_methodNames :
    MockNakamaModule.methodNames.map slotName = MockNakamaModule.fieldNames := by
  decide

/-- No field name is declared twice. -/
theorem MockNakamaModule.fieldNames_nodup : MockNakamaModule.fieldNames.Nodup := by
  decide

/-- No operation is listed twice in Op.all. -/
theorem Op.all_nodup : Op.all.Nodup := by
  decide

/-! ## The later claims -/

/-- C11: the outcome of invoking an operation whose slot is unbound does not depend on the
arguments. For every operation with an unbound slot and any two argument tuples the two
invocations have the same outcome, whatever the recursion budgets, and that outcome is a
failure: no result is returned. -/
theorem C11_unbound_outcome_ignores_arguments (nk : MockNakamaModule) (o : Op)
    (hs : nk.slot o = none) (fuel₁ fuel₂ : Nat) (a₁ a₂ : o.Args) :
    nk.invoke fuel₁ o a₁ = nk.invoke fuel₂ o a₂ ∧
      ∀ r, nk.invoke fuel₁ o a₁ ≠ Outcome.returned r := by
  by_cases he : o = Op.Event
  · subst he
    rw [MockNakamaModule.invoke_Event, MockNakamaModule.invoke_Event]
    exact ⟨rfl, fun r h => Outcome.noConfusion h⟩
  · rw [MockNakamaModule.invoke_of_unbound fuel₁ nk o he hs a₁,
      MockNakamaModule.invoke_of_unbound fuel₂ nk o he hs a₂]
    exact ⟨rfl, fun r h => Outcome.noConfusion h⟩

/-- C11, at the table where only WalletUpdateFn is bound and two calls of AccountGetId with
different contexts and user identifiers. -/
theorem C11_unbound_outcome_ignores_arguments_witness :
    onlyWalletUpdate.slot Op.AccountGetId = none ∧
      (onlyWalletUpdate.invoke 0 Op.AccountGetId (⟨0⟩, "user-1") =
          onlyWalletUpdate.invoke 5 Op.AccountGetId (⟨9⟩, "user-2") ∧
        ∀ r, onlyWalletUpdate.invoke 0 Op.AccountGetId (⟨0⟩, "user-1") ≠ Outcome.returned r) :=
  ⟨rfl, C11_unbound_outcome_ignores_arguments onlyWalletUpdate Op.AccountGetId rfl 0 5
    (⟨0⟩, "user-1") (⟨9⟩, "user-2")⟩

/-- C12: the dispatcher has no side effect of its own. For every table, operation and
argument tuple, when the behaviour bound to the operation does not touch the table, the table
after the call is the table before it and every slot is unchanged; and when no behaviour
touches the table, a sequence of calls leaves the table unchanged and every outcome is the
outcome of the same call made alone, so nothing is cached or kept between calls. -/
theorem C12_call_leaves_table_unchanged (effect : TableEffect) (fuel : Nat)
    (nk : MockNakamaModule) (o : Op) (a : o.Args)
    (h : ∀ fn, nk.slot o = some fn → effect o fn a nk = nk) :
    (nk.step effect fuel o a).2 = nk ∧
      (∀ o', ((nk.step effect fuel o a).2).slot o' = nk.slot o') ∧
      (nk.step effect fuel o a).1 = nk.invoke fuel o a ∧
      ((∀ o' fn a' t, effect o' fn a' t = t) →
        ∀ calls : List Call,
          (nk.run effect fuel calls).2 = nk ∧
          (nk.run effect fuel calls).1 =
            calls.map (fun c => (⟨c.1, nk.invoke fuel c.1 c.2⟩ : CallOutcome))) := by
  have hstep := MockNakamaModule.step_snd effect fuel nk o a h
  refine ⟨hstep, fun o' => by rw [hstep], MockNakamaModule.step_fst effect fuel nk o a,
    fun hall calls => ?_⟩
  rw [MockNakamaModule.run_of_no_effect effect fuel nk hall calls]
  exact ⟨rfl, rfl⟩

/-- C12, at the table of the documentation example, behaviours that do not touch the table
and a call of WalletUpdate. -/
theorem C12_call_leaves_table_unchanged_witness :
    (∀ fn, mockNkModule.slot Op.WalletUpdate = some fn →
        TableEffect.untouched Op.WalletUpdate fn (⟨0⟩, "user-1", none, none, true) mockNkModule =
          mockNkModule) ∧
      (mockNkModule.step TableEffect.untouched 3 Op.WalletUpdate
          (⟨0⟩, "user-1", none, none, true)).2 = mockNkModule :=
  ⟨fun _ _ => rfl,
    (C12_call_leaves_table_unchanged TableEffect.untouched 3 mockNkModule Op.WalletUpdate
      (⟨0⟩, "user-1", none, none, true) (fun _ _ => rfl)).1⟩

/-- C13: construction fills exactly the given slots. For every set of bindings the
constructed table has the slot of each listed operation bound to the given behaviour and the
slot of every other operation empty; the table constructed with zero bindings is the empty
table, all of whose slots are empty, and there are 97 slots, one per operation. -/
theorem C13_construct_fills_given_slots (bindings : (o : Op) → Option o.Fn) :
    (∀ o fn, bindings o = some fn → (MockNakamaModule.construct bindings).slot o = some fn) ∧
      (∀ o, bindings o = none → (MockNakamaModule.construct bindings).slot o = none) ∧
      MockNakamaModule.construct (fun _ => none) = MockNakamaModule.empty ∧
      (∀ o, MockNakamaModule.empty.slot o = none) ∧
      Op.all.length = 97 ∧ Op.all.Nodup ∧ ∀ o, o ∈ Op.all := by
  refine ⟨fun o fn h => ?_, fun o h => ?_, rfl, fun o => ?_, rfl, Op.all_nodup, Op.mem_all⟩
  · rw [MockNakamaModule.slot_construct, h]
  · rw [MockNakamaModule.slot_construct, h]
  · cases o <;> rfl

/-- C14: the table has exactly one slot per operation. Sending each method name X to the name
XFn maps the list of the 97 method names onto the list of the 97 field names, entry by entry;
no method and no field is declared twice; so every field is the slot of exactly one method
and every method has its field. -/
theorem C14_one_slot_per_operation :
    MockNakamaModule.methodNames.map slotName = MockNakamaModule.fieldNames ∧
      MockNakamaModule.methodNames.length = 97 ∧
      MockNakamaModule.fieldNames.length = 97 ∧
      MockNakamaModule.methodNames.Nodup ∧
      MockNakamaModule.fieldNames.Nodup ∧
      (∀ m ∈ MockNakamaModule.methodNames, slotName m ∈ MockNakamaModule.fieldNames) ∧
      (∀ f ∈ MockNakamaModule.fieldNames, ∃ m ∈ MockNakamaModule.methodNames,
        slotName m = f ∧ ∀ m' ∈ MockNakamaModule.methodNames, slotName m' = f → m' = m) := by
  have hmap := MockNakamaModule.map_slotName_methodNames
  have hnd : (MockNakamaModule.methodNames.map slotName).Nodup := by
    rw [hmap]
    exact MockNakamaModule.fieldNames_nodup
  refine ⟨hmap, by decide, by decide, hnd.of_map slotName, MockNakamaModule.fieldNames_nodup,
    fun m hm => ?_, fun f hf => ?_⟩
  · rw [← hmap]
    exact List.mem_map_of_mem slotName hm
  · rw [← hmap] at hf
    obtain ⟨m, hm, rfl⟩ := List.mem_map.mp hf
    exact ⟨m, hm, rfl, fun m' hm' heq => List.inj_on_of_nodup_map hnd hm' hm heq⟩

/-- C16: the method Event calls itself and never returns. For every table, with EventFn bound
or not, and every ctx and evt, a call of Event with one more unit of recursion budget is the
call of Event on the same table and arguments; the call uses up every budget, so it returns no
result; and its outcome is the same whatever EventFn holds, so EventFn is not consulted. -/
theorem C16_Event_recurses_forever (fuel : Nat) (nk : MockNakamaModule) (ctx : context.Context)
    (evt : Option api.Event) :
    MockNakamaModule.Event (fuel + 1) nk ctx evt = MockNakamaModule.Event fuel nk ctx evt ∧
      MockNakamaModule.Event fuel nk ctx evt = Outcome.outOfFuel ∧
      (∀ r, MockNakamaModule.Event fuel nk ctx evt ≠ Outcome.returned r) ∧
      (∀ p, MockNakamaModule.Event fuel nk ctx evt ≠ Outcome.panicked p) ∧
      ∀ fn, MockNakamaModule.Event fuel { nk with EventFn := fn } ctx evt =
        MockNakamaModule.Event fuel nk ctx evt := by
  refine ⟨rfl, MockNakamaModule.Event_outOfFuel fuel nk ctx evt, fun r h => ?_, fun p h => ?_,
    fun fn => ?_⟩
  · rw [MockNakamaModule.Event_outOfFuel] at h
    exact Outcome.noConfusion h
  · rw [MockNakamaModule.Event_outOfFuel] at h
    exact Outcome.noConfusion h
  · rw [MockNakamaModule.Event_outOfFuel, MockNakamaModule.Event_outOfFuel]

/-- C17: exactly one operation deviates from delegation to its own slot. An operation returns,
for every table on which its slot is bound and every argument tuple, what the bound behaviour
returns on the parameters in their declared order, if and only if it is not Event; that makes
96 operations. The three methods with long runs of parameters of one type are spelled out:
TournamentCreate with its 15 parameters, AuthenticateGameCenter with its 9 and GroupCreate
with its 10, each passed on in the declared position. -/
theorem C17_only_Event_deviates :
    (∀ o : Op,
      (∀ (fuel : Nat) (nk : MockNakamaModule) (fn : o.Fn) (a : o.Args),
          nk.slot o = some fn → nk.invoke fuel o a = Outcome.returned (o.apply fn a)) ↔
        o ≠ Op.Event) ∧
      (Op.all.filter (fun o => decide (o ≠ Op.Event))).length = 96 ∧
      (∀ (nk : MockNakamaModule) fn (ctx : context.Context) (id sortOrder operator resetSchedule : String)
          (metadata : GoMap String AnyValue) (title description : String)
          (category startTime endTime duration maxSize maxNumScore : Int) (joinRequired : Bool),
          nk.TournamentCreateFn = some fn →
          nk.TournamentCreate ctx id sortOrder operator resetSchedule metadata title description
              category startTime endTime duration maxSize maxNumScore joinRequired =
            Outcome.returned
              (fn ctx id sortOrder operator resetSchedule metadata title description
                category startTime endTime duration maxSize maxNumScore joinRequired)) ∧
      (∀ (nk : MockNakamaModule) fn (ctx : context.Context) (playerID bundleID : String)
          (timestamp : Int) (salt signature publicKeyUrl username : String) (create : Bool),
          nk.AuthenticateGameCenterFn = some fn →
          nk.AuthenticateGameCenter ctx playerID bundleID timestamp salt signature publicKeyUrl
              username create =
            Outcome.returned
              (fn ctx playerID bundleID timestamp salt signature publicKeyUrl username create)) ∧
      (∀ (nk : MockNakamaModule) fn (ctx : context.Context)
          (userID name creatorID langTag description avatarUrl : String) (open_ : Bool)
          (metadata : GoMap String AnyValue) (maxCount : Int),
          nk.GroupCreateFn = some fn →
          nk.GroupCreate ctx userID name creatorID langTag description avatarUrl open_ metadata
              maxCount =
            Outcome.returned
              (fn ctx userID name creatorID langTag description avatarUrl open_ metadata
                maxCount)) := by
  refine ⟨fun o => ⟨fun hall he => ?_, fun he fuel nk fn a hs =>
      MockNakamaModule.invoke_of_bound fuel nk o he fn hs a⟩, by decide, ?_, ?_, ?_⟩
  · subst he
    have h := hall 0 onlyEvent eventRejectFn (⟨0⟩, none) rfl
    rw [MockNakamaModule.invoke_Event] at h
    exact Outcome.noConfusion h
  · intro nk fn ctx id sortOrder operator resetSchedule metadata title description category
      startTime endTime duration maxSize maxNumScore joinRequired h
    unfold MockNakamaModule.TournamentCreate
    rw [h]
    rfl
  · intro nk fn ctx playerID bundleID timestamp salt signature publicKeyUrl username create h
    unfold MockNakamaModule.AuthenticateGameCenter
    rw [h]
    rfl
  · intro nk fn ctx userID name creatorID langTag description avatarUrl open_ metadata maxCount h
    unfold MockNakamaModule.GroupCreate
    rw [h]
    rfl

/-- C18: each operation reads only its own slot. For every operation, every argument tuple
and any two tables whose slot for the operation is the same, the invocation has the same
outcome on both tables; so binding the slot of another operation, a sibling with the same
signature included, neither changes the outcome nor makes the operation configured. -/
theorem C18_outcome_depends_on_own_slot_only (fuel : Nat) (nk nk' : MockNakamaModule) (o : Op)
    (h : nk.slot o = nk'.slot o) (a : o.Args) :
    nk.invoke fuel o a = nk'.invoke fuel o a ∧
      ∀ (o' : Op) (fn : o'.Fn), o ≠ o' →
        ((nk.bind o' fn).slot o = nk.slot o ∧
          (nk.bind o' fn).invoke fuel o a = nk.invoke fuel o a) := by
  refine ⟨MockNakamaModule.invoke_congr_slot fuel nk nk' o h a, fun o' fn hne => ?_⟩
  have hs := MockNakamaModule.slot_bind_of_ne nk o' o fn hne
  exact ⟨hs, MockNakamaModule.invoke_congr_slot fuel _ nk o hs a⟩

/-- C18, at the empty table and the table on which only LinkAppleFn is bound: LinkGoogle, a
sibling of LinkApple with the same signature, has the same outcome on both, the panic of an
unbound slot; so have the other siblings of LinkApple, and the siblings of AuthenticateApple
on the table on which only AuthenticateAppleFn is bound. -/
theorem C18_outcome_depends_on_own_slot_only_witness :
    onlyLinkApple.slot Op.LinkGoogle = MockNakamaModule.empty.slot Op.LinkGoogle ∧
      onlyLinkApple.invoke 0 Op.LinkGoogle (⟨0⟩, "user-1", "token") =
        MockNakamaModule.empty.invoke 0 Op.LinkGoogle (⟨0⟩, "user-1", "token") ∧
      onlyLinkApple.invoke 0 Op.LinkGoogle (⟨0⟩, "user-1", "token") =
        Outcome.panicked Panic.nilDereference ∧
      onlyLinkApple.invoke 0 Op.UnlinkApple (⟨0⟩, "user-1", "token") =
        Outcome.panicked Panic.nilDereference ∧
      onlyLinkApple.invoke 0 Op.UnlinkGoogle (⟨0⟩, "user-1", "token") =
        Outcome.panicked Panic.nilDereference ∧
      onlyLinkApple.invoke 0 Op.UnlinkFacebook (⟨0⟩, "user-1", "token") =
        Outcome.panicked Panic.nilDereference ∧
      onlyLinkApple.invoke 0 Op.UnlinkSteam (⟨0⟩, "user-1", "token") =
        Outcome.panicked Panic.nilDereference ∧
      onlyAuthenticateApple.invoke 0 Op.AuthenticateGoogle (⟨0⟩, "token", "name", true) =
        Outcome.panicked Panic.nilDereference ∧
      onlyAuthenticateApple.invoke 0 Op.AuthenticateSteam (⟨0⟩, "token", "name", true) =
        Outcome.panicked Panic.nilDereference :=
  ⟨rfl,
    (C18_outcome_depends_on_own_slot_only 0 onlyLinkApple MockNakamaModule.empty Op.LinkGoogle
      rfl (⟨0⟩, "user-1", "token")).1,
    rfl, rfl, rfl, rfl, rfl, rfl, rfl⟩
